import Mathlib

/-!
Verification of the terminal command dispatcher and theme manager of the
solana-playground client (`src/client/src/utils/pg/command/command.ts` and
`src/client/src/utils/pg/theme/theme.ts`), via a shallow embedding.

Conventions of the embedding:
* JavaScript objects whose key set is dynamic are insertion-ordered
  association lists; a property that is present with value `undefined` is a
  pair whose second component is `none`.
* Throwing is modelled with `Except`; a pre-check callback is modelled by its
  outcome (`true` = passes, `false` = throws).
* Event dispatch (`PgCommon.createAndDispatchCustomEvent`) is modelled by a
  trace of events in the execution result, and `PgTerminal.log` by a trace of
  logged lines.
-/

namespace SolPg

/-- Command argument spec (`Arg` in command.ts): a name and whether the
argument may be omitted (`optional?: boolean`; an absent flag is falsy). -/
structure Arg where
  name : String
  optional : Bool
deriving Repr, DecidableEq

/-- The parsed-arguments object built by `execute` and passed to a handler:
a JavaScript object modelled as an insertion-ordered association list.  A
value of `none` models a property that is present with value `undefined`. -/
abbrev ParsedArgs := List (String × Option String)

/-- Terminal command definition (`CommandImpl` in command.ts).  The handler
`run` receives the raw input line and the parsed arguments and either returns
a value or throws (`Except.error`). -/
inductive Cmd (ρ : Type) : Type where
  | mk (name description : String) (preCheck : List Bool)
      (args : Option (List Arg))
      (run : Option (String → ParsedArgs → Except String ρ))
      (subcommands : Option (List (Cmd ρ)))

variable {ρ : Type}

/-- Command name (used in the terminal). -/
def Cmd.name : Cmd ρ → String
  | .mk n _ _ _ _ _ => n

/-- Command description (shown by `help` and in usage blocks). -/
def Cmd.description : Cmd ρ → String
  | .mk _ d _ _ _ _ => d

/-- Pre-check callbacks, in order, modelled by their outcomes. -/
def Cmd.preCheck : Cmd ρ → List Bool
  | .mk _ _ p _ _ _ => p

/-- Declared positional argument specs (possibly absent). -/
def Cmd.args : Cmd ρ → Option (List Arg)
  | .mk _ _ _ a _ _ => a

/-- Optional handler. -/
def Cmd.run : Cmd ρ → Option (String → ParsedArgs → Except String ρ)
  | .mk _ _ _ _ r _ => r

/-- Optional subcommand list. -/
def Cmd.subcommands : Cmd ρ → Option (List (Cmd ρ))
  | .mk _ _ _ _ _ s => s

/-- The lookup `cmd.subcommands?.find((cmd) => cmd.name === token)` of
command.ts (an absent subcommand list finds nothing). -/
def findSub (subs : Option (List (Cmd ρ))) (token : String) : Option (Cmd ρ) :=
  (subs.getD []).find? (fun c => c.name == token)

/-- The test `cmd.subcommands?.some((cmd) => cmd.name === nextToken)` of
command.ts; `undefined` is falsy, hence `false` for an absent list. -/
def hasSub (subs : Option (List (Cmd ρ))) (token : String) : Bool :=
  (subs.getD []).any (fun c => c.name == token)

/-- JavaScript property assignment `obj[key] = value` on an insertion-ordered
association list: overwrite in place when the key exists, append otherwise. -/
def jsSet (m : ParsedArgs) (k : String) (v : Option String) : ParsedArgs :=
  if m.any (fun p => p.1 == k) then m.map (fun p => if p.1 == k then (k, v) else p)
  else m ++ [(k, v)]

/-- Errors thrown by `execute` and `formatCmdList` (messages abbreviated to
their distinguishing data). -/
inductive CmdError where
  | notFound (name : String)
  | subcommandDoesNotExist (next : String) (available : Option (List String))
  | tooManyArgs (count : Nat)
  | argNotSpecified (name : String)
  | preCheckFailed
  | emptyArrayReduce
  | invalidArrayLength (len : Int)
  | undefinedSubcommands
  | thrown (msg : String)
deriving Repr, DecidableEq

/-- A dispatched lifecycle notification (custom event), carrying its event
name and payload. -/
inductive RunEvent (ρ : Type) where
  | start (eventName input : String)
  | finish (eventName : String) (result : ρ)
deriving Repr, DecidableEq

deriving instance DecidableEq for Except

/-- Observable outcome of one `execute` call: the returned/thrown value, the
dispatched events in order, and the lines logged to the terminal. -/
structure ExecOut (ρ : Type) where
  result : Except CmdError (Option ρ)
  events : List (RunEvent ρ)
  logs : List String
deriving Repr, DecidableEq

/-- The regex test `/^[a-zA-Z-]+$/.test(name)` of `formatCmdList`. -/
def alphaName (s : String) : Bool :=
  s != "" && s.toList.all (fun c => c.isAlpha || c == '-')

/-- Model of `String.prototype.localeCompare`: code-point comparison, which
agrees with the default locale on the ASCII command names occurring here. -/
def localeCompare (a b : String) : Int :=
  match compare a b with
  | .lt => -1
  | .eq => 0
  | .gt => 1

/-- The comparator passed to `sort` in `formatCmdList` over (name,
description) entries: `-1` whenever `b`'s name fails the alphabetic test,
otherwise the locale comparison of the names.  Note this comparator is not
consistent (it never inspects `a` when `b` is non-alphabetic). -/
def cmdCompare (a b : String × String) : Int :=
  if !(alphaName b.1) then -1 else localeCompare a.1 b.1

/-- Stable insertion used to model `Array.prototype.sort`.  ECMAScript leaves
the sort order implementation-defined for inconsistent comparators such as
`cmdCompare`; the model fixes a stable sort satisfying the specified contract
for consistent comparators. -/
def jsInsert (c : α → α → Int) (x : α) : List α → List α
  | [] => [x]
  | y :: ys => if c x y ≤ 0 then x :: y :: ys else y :: jsInsert c x ys

/-- Stable sort modelling `Array.prototype.sort` (see `jsInsert`). -/
def jsSortBy (c : α → α → Int) (l : List α) : List α :=
  l.foldr (jsInsert c) []

/-- The column padding
`new Array(25 - cmd.name.length).fill(" ").reduce((acc, v) => acc + v)` of
`formatCmdList`: for a name of at most 24 characters it yields
`25 - length` spaces; a name of exactly 25 characters reduces an empty array
without an initial value (a TypeError), and a longer name constructs a
negative-length array (a RangeError). -/
def namePad (name : String) : Except CmdError String :=
  if name.length ≥ 26 then .error (.invalidArrayLength (25 - (name.length : Int)))
  else if name.length = 25 then .error .emptyArrayReduce
  else .ok (String.mk (List.replicate (25 - name.length) ' '))

/-- The `reduce` of `formatCmdList` over the sorted (name, description)
entries, threading the accumulated string; a padding error escapes. -/
def formatEntries : List (String × String) → String → Except CmdError String
  | [], acc => .ok acc
  | e :: rest, acc =>
    match namePad e.1 with
    | .error er => .error er
    | .ok pad => formatEntries rest (acc ++ "    " ++ e.1 ++ pad ++ e.2 ++ "\n")

/-- `formatCmdList` of command.ts: sort the entries with `cmdCompare`, then
fold them into the formatted listing. -/
def formatCmdList (list : List (String × String)) : Except CmdError String :=
  formatEntries (jsSortBy cmdCompare list) ""

/-- `getEventName(name, "start")` of command.ts. -/
def getEventNameStart (name : String) : String := "ondidrunstart" ++ name

/-- `getEventName(name, "finish")` of command.ts. -/
def getEventNameFinish (name : String) : String := "ondidrunfinish" ++ name

/-- The help block logged when a command with subcommands and no handler is
reached: description, `Usage:` line built from the tokens before the current
position plus the command name, and the formatted subcommand list. -/
def usageText (pre : List String) (cmd : Cmd ρ) (fmt : String) : String :=
  "\n" ++ cmd.description ++ "\n\nUsage: " ++
    String.intercalate " " (pre ++ [cmd.name]) ++ " <COMMAND>\n\nCommands:\n\n" ++ fmt

/-- The argument-binding loop of `execute`: for each argument spec in order,
`args[i]` is read (`undefined` past the end of the supplied tokens); a falsy
token (missing or empty) for a non-optional spec throws `Argument not
specified`; otherwise the token — possibly `undefined` — is assigned to the
spec's name on the parsed object. -/
def parseGo (args : List String) : Nat → List Arg → ParsedArgs → Except CmdError ParsedArgs
  | _, [], acc => .ok acc
  | i, a :: rest, acc =>
    if (args[i]?.getD "") == "" && !a.optional then .error (.argNotSpecified a.name)
    else parseGo args (i + 1) rest (jsSet acc a.name args[i]?)

/-- Argument binding of `execute` starting from the first spec and an empty
parsed object. -/
def parseArgs (specs : List Arg) (args : List String) : Except CmdError ParsedArgs :=
  parseGo args 0 specs []

/-- The `if (nextToken)` block of the `execute` loop: when a next token
exists (and is truthy) but is not a subcommand of the current command, the
remaining tokens become the argument values; a command without argument specs
throws `Subcommand doesn't exist`, and more tokens than specs throws
`Provided argument count is higher than expected`. -/
def stepArgs (cmd1 : Cmd ρ) (rest args : List String) : Except CmdError (List String) :=
  match rest.head? with
  | none => .ok args
  | some nextToken =>
    if nextToken == "" then .ok args
    else if hasSub cmd1.subcommands nextToken then .ok args
    else if cmd1.args.isNone then
      .error (.subcommandDoesNotExist nextToken (cmd1.subcommands.map (List.map Cmd.name)))
    else if rest.length > (cmd1.args.getD []).length then .error (.tooManyArgs rest.length)
    else .ok rest

/-- The tail of a loop iteration of `execute` once iteration stops
descending: either log the usage block (command with subcommands and no
handler), or bind the arguments and invoke the handler, dispatching the
finish event on success. -/
def runPhase (input key : String) (pre : List String) (cmd1 : Cmd ρ) (args1 : List String) :
    Except CmdError (Option ρ) × List (RunEvent ρ) × List String :=
  match cmd1.run with
  | none =>
    match cmd1.subcommands with
    | none => (.error .undefinedSubcommands, [], [])
    | some subs =>
      match formatCmdList (subs.map (fun c => (c.name, c.description))) with
      | .error e => (.error e, [], [])
      | .ok fmt => (.ok none, [], [usageText pre cmd1 fmt])
  | some run =>
    match parseArgs (cmd1.args.getD []) args1 with
    | .error e => (.error e, [], [])
    | .ok parsed =>
      match run input parsed with
      | .error msg => (.error (.thrown msg), [], [])
      | .ok r => (.ok (some r), [.finish (getEventNameFinish key) r], [])

/-- The `for (const i in tokens)` loop of `PgCommandManager.execute`, with
`pre` the tokens before the current position and `token :: rest` the tokens
from the current position on.  Produces the result together with the events
dispatched and lines logged from this point on. -/
def execLoop (input key : String) :
    List String → List String → Cmd ρ → List String →
    Except CmdError (Option ρ) × List (RunEvent ρ) × List String
  | _, [], _, _ => (.ok none, [], [])
  | pre, token :: rest, cmd, args =>
    let cmd1 := (findSub cmd.subcommands token).getD cmd
    match stepArgs cmd1 rest args with
    | .error e => (.error e, [], [])
    | .ok args1 =>
      if cmd1.preCheck.all (fun b => b) then
        if !rest.isEmpty && args1.isEmpty then execLoop input key (pre ++ [token]) rest cmd1 args1
        else runPhase input key pre cmd1 args1
      else (.error .preCheckFailed, [], [])

/-- Model of JavaScript `String.prototype.trim`: strip leading and trailing
whitespace.  Defined by structural recursion on the character list so that it
evaluates by kernel reduction. -/
def jsTrim (s : String) : String :=
  String.mk (((s.data.dropWhile Char.isWhitespace).reverse.dropWhile Char.isWhitespace).reverse)

/-- The character-list worker of `jsSplitOnSpace`. -/
def splitOnSpaceChars : List Char → List (List Char)
  | [] => [[]]
  | c :: cs =>
    if c = ' ' then [] :: splitOnSpaceChars cs
    else
      match splitOnSpaceChars cs with
      | [] => [[c]]
      | w :: ws => (c :: w) :: ws

/-- Model of JavaScript `String.prototype.split(" ")`: split at every single
space, keeping empty parts (`"".split(" ")` is `[""]`).  Agrees with
`String.splitOn` on a single-space separator. -/
def jsSplitOnSpace (s : String) : List String :=
  (splitOnSpaceChars s.data).map String.mk

/-- `PgCommandManager.execute` (command.ts lines 184-288): trim and split the
input on single spaces, resolve the top-level command by its code name
(`PgCommon.entries(...).find(([cmdName]) => cmdName === inputCmdName)`),
return silently on an empty first token, fail with `not found` on an unknown
one, dispatch the start event and run the token walk.  `PgTerminal.process`
(not part of this excerpt) runs the enclosed thunk; for a single execution it
is the identity on the outcome and is modelled as such here (its queueing
across executions is modelled separately). -/
def execute (cmds : List (String × Cmd ρ)) (input0 : String) : ExecOut ρ :=
  let input := jsTrim input0
  let tokens := jsSplitOnSpace input
  let inputCmdName := tokens.headD ""
  if inputCmdName == "" then ⟨.ok none, [], []⟩
  else
    match cmds.find? (fun p => p.1 == inputCmdName) with
    | none => ⟨.error (.notFound inputCmdName), [], []⟩
    | some (key, cmd) =>
      let out := execLoop input key [] tokens cmd []
      ⟨out.1, .start (getEventNameStart key) input :: out.2.1, out.2.2⟩

/-! ### Theme manager (theme.ts)

The theme object is the deeply nested configuration record mutated by
`PgThemeManager.set`; every field the fill pass may set is an `Option`, and
`x ??= d` is modelled by `nset`/`nmerge` below.  The `PgTheme` /
`DefaultComponent` types themselves live in `./interface` (not part of this
excerpt); the record shapes below are reconstructed from every access the
fill pass performs.  The literal default values imported from `./default`
are data, not logic (spec section 4.3), and are passed in as the
`ThemeDefaults` record.  CSS number values (`flex: 1`, `opacity: 0`) are
modelled by their decimal strings. -/

/-- JavaScript `x ??= d` for a definite right-hand side: keep `x` when
present, otherwise set it to `d`.  The result is always present. -/
def nset (x : Option α) (d : α) : Option α := some (x.getD d)

/-- JavaScript `x ??= y` for a possibly-undefined right-hand side: keep `x`
when present, otherwise copy `y`. -/
def nmerge : Option α → Option α → Option α
  | some v, _ => some v
  | none, y => y

/-- Size scale of a font class. -/
structure FontSizes where
  small : String := ""
  medium : String := ""
  large : String := ""
  xlarge : String := ""
deriving Repr, DecidableEq

/-- A font: family name plus size scale. -/
structure PgFont where
  family : String := ""
  size : FontSizes := {}
deriving Repr, DecidableEq

/-- The `font` block of a theme: `code` and `other` font classes. -/
structure ThemeFont where
  code : Option PgFont := none
  other : Option PgFont := none
deriving Repr, DecidableEq

/-- Transparency levels appended to color strings. -/
structure Transparency where
  low : String := ""
  medium : String := ""
  high : String := ""
deriving Repr, DecidableEq

/-- Transition durations (only `medium` is read by the fill pass). -/
structure TransitionDuration where
  medium : String := ""
deriving Repr, DecidableEq

/-- Transition settings. -/
structure Transition where
  type : String := ""
  duration : TransitionDuration := {}
deriving Repr, DecidableEq

/-- Scrollbar settings, set wholesale from the dark/light default. -/
abbrev Scrollbar := String

/-- Required base colors of a theme. -/
structure DefaultColors where
  bgPrimary : String := ""
  bgSecondary : String := ""
  primary : String := ""
  secondary : String := ""
  textPrimary : String := ""
  textSecondary : String := ""
  borderColor : String := ""
deriving Repr, DecidableEq

/-- One state color: a required color and an optional derived background. -/
structure StateColor where
  color : String := ""
  bg : Option String := none
deriving Repr, DecidableEq

/-- The `colors.state` block. -/
structure StateColors where
  disabled : StateColor := {}
  error : StateColor := {}
  hover : StateColor := {}
  info : StateColor := {}
  success : StateColor := {}
  warning : StateColor := {}
deriving Repr, DecidableEq

/-- The `colors.editor.activeLine` block. -/
structure ActiveLine where
  bg : Option String := none
  borderColor : Option String := none
deriving Repr, DecidableEq

/-- The `colors.editor.selection` block. -/
structure EditorSelection where
  bg : Option String := none
  color : Option String := none
deriving Repr, DecidableEq

/-- The `colors.editor.searchMatch` block. -/
structure SearchMatch where
  bg : Option String := none
  color : Option String := none
  selectedBg : Option String := none
  selectedColor : Option String := none
deriving Repr, DecidableEq

/-- The `colors.editor.gutter` block. -/
structure Gutter where
  bg : Option String := none
  color : Option String := none
deriving Repr, DecidableEq

/-- The `colors.editor.tooltip` block. -/
structure EditorTooltip where
  bg : Option String := none
  color : Option String := none
  selectedBg : Option String := none
  selectedColor : Option String := none
deriving Repr, DecidableEq

/-- The `colors.editor` block. -/
structure EditorColors where
  bg : Option String := none
  color : Option String := none
  cursorColor : Option String := none
  activeLine : Option ActiveLine := none
  selection : Option EditorSelection := none
  searchMatch : Option SearchMatch := none
  gutter : Option Gutter := none
  tooltip : Option EditorTooltip := none
deriving Repr, DecidableEq

/-- The `colors` block of a theme. -/
structure Colors where
  default : DefaultColors := {}
  state : StateColors := {}
  editor : Option EditorColors := none
deriving Repr, DecidableEq

/-- A generic style object whose contents the fill pass never reads; fields
of this type are only ever defaulted to the empty object `{}`. -/
abbrev StyleBag := List (String × String)

/-- The `components.skeleton` block. -/
structure Skeleton where
  bg : Option String := none
  highlightColor : Option String := none
  borderRadius : Option String := none
deriving Repr, DecidableEq

/-- The `components.button.default` block. -/
structure ButtonDefault where
  bg : Option String := none
  color : Option String := none
  borderColor : Option String := none
  borderRadius : Option String := none
  fontSize : Option String := none
  fontWeight : Option String := none
  hover : Option StyleBag := none
deriving Repr, DecidableEq

/-- The `components.button` block. -/
structure Button where
  default : Option ButtonDefault := none
deriving Repr, DecidableEq

/-- The `components.menu.default` block. -/
structure MenuDefault where
  bg : Option String := none
  borderRadius : Option String := none
  padding : Option String := none
  boxShadow : Option String := none
deriving Repr, DecidableEq

/-- The `components.menu` block. -/
structure Menu where
  default : Option MenuDefault := none
deriving Repr, DecidableEq

/-- The `components.input.focus` and `.focusWithin` blocks. -/
structure InputFocus where
  outline : Option String := none
deriving Repr, DecidableEq

/-- The `components.input` block. -/
structure InputComp where
  bg : Option String := none
  color : Option String := none
  borderColor : Option String := none
  borderRadius : Option String := none
  padding : Option String := none
  boxShadow : Option String := none
  fontWeight : Option String := none
  fontSize : Option String := none
  focus : Option InputFocus := none
  focusWithin : Option InputFocus := none
deriving Repr, DecidableEq

/-- The `components.select.default` block. -/
structure SelectDefault where
  fontSize : Option String := none
deriving Repr, DecidableEq

/-- The `components.select.control.hover` block. -/
structure SelectControlHover where
  borderColor : Option String := none
  cursor : Option String := none
deriving Repr, DecidableEq

/-- The `components.select.control.focusWithin` block. -/
structure SelectControlFocusWithin where
  boxShadow : Option String := none
deriving Repr, DecidableEq

/-- The `components.select.control` block. -/
structure SelectControl where
  bg : Option String := none
  borderColor : Option String := none
  borderRadius : Option String := none
  minHeight : Option String := none
  hover : Option SelectControlHover := none
  focusWithin : Option SelectControlFocusWithin := none
deriving Repr, DecidableEq

/-- The `components.select.menu` block. -/
structure SelectMenu where
  bg : Option String := none
  color : Option String := none
  borderRadius : Option String := none
deriving Repr, DecidableEq

/-- The `components.select.option.before` block. -/
structure SelectOptionBefore where
  color : Option String := none
deriving Repr, DecidableEq

/-- The `components.select.option.focus` block. -/
structure SelectOptionFocus where
  bg : Option String := none
  color : Option String := none
deriving Repr, DecidableEq

/-- The `components.select.option.active` block. -/
structure SelectOptionActive where
  bg : Option String := none
deriving Repr, DecidableEq

/-- The `components.select.option` block. -/
structure SelectOption where
  bg : Option String := none
  color : Option String := none
  cursor : Option String := none
  before : Option SelectOptionBefore := none
  focus : Option SelectOptionFocus := none
  active : Option SelectOptionActive := none
deriving Repr, DecidableEq

/-- The `components.select.singleValue` block. -/
structure SelectSingleValue where
  bg : Option String := none
  color : Option String := none
deriving Repr, DecidableEq

/-- The `components.select.input` block. -/
structure SelectInput where
  color : Option String := none
deriving Repr, DecidableEq

/-- The `components.select.groupHeading` block. -/
structure SelectGroupHeading where
  color : Option String := none
deriving Repr, DecidableEq

/-- The `components.select.dropdownIndicator` block. -/
structure SelectDropdownIndicator where
  padding : Option String := none
deriving Repr, DecidableEq

/-- The `components.select.indicatorSeparator` block. -/
structure SelectIndicatorSeparator where
  bg : Option String := none
deriving Repr, DecidableEq

/-- The `components.select` block. -/
structure SelectComp where
  default : Option SelectDefault := none
  control : Option SelectControl := none
  menu : Option SelectMenu := none
  option : Option SelectOption := none
  singleValue : Option SelectSingleValue := none
  input : Option SelectInput := none
  groupHeading : Option SelectGroupHeading := none
  dropdownIndicator : Option SelectDropdownIndicator := none
  indicatorSeparator : Option SelectIndicatorSeparator := none
deriving Repr, DecidableEq

/-- The `components.toast.default` block. -/
structure ToastDefault where
  bg : Option String := none
  color : Option String := none
  borderRadius : Option String := none
  fontFamily : Option String := none
  fontSize : Option String := none
  cursor : Option String := none
deriving Repr, DecidableEq

/-- The `components.toast.progress` block. -/
structure ToastProgress where
  bg : Option String := none
deriving Repr, DecidableEq

/-- The `components.toast.closeButton` block. -/
structure ToastCloseButton where
  color : Option String := none
deriving Repr, DecidableEq

/-- The `components.toast` block. -/
structure Toast where
  default : Option ToastDefault := none
  progress : Option ToastProgress := none
  closeButton : Option ToastCloseButton := none
deriving Repr, DecidableEq

/-- The `components.tooltip` block. -/
structure TooltipComp where
  bg : Option String := none
  color : Option String := none
  bgSecondary : Option String := none
  borderRadius : Option String := none
  boxShadow : Option String := none
  fontSize : Option String := none
deriving Repr, DecidableEq

/-- The `components.markdown.default` block. -/
structure MarkdownDefault where
  bg : Option String := none
  color : Option String := none
  fontFamily : Option String := none
  fontSize : Option String := none
deriving Repr, DecidableEq

/-- The `components.markdown.code` block. -/
structure MarkdownCode where
  bg : Option String := none
  color : Option String := none
  borderRadius : Option String := none
  fontFamily : Option String := none
  fontSize : Option String := none
deriving Repr, DecidableEq

/-- The `components.markdown` block. -/
structure Markdown where
  default : Option MarkdownDefault := none
  code : Option MarkdownCode := none
deriving Repr, DecidableEq

/-- The `components.sidebar.left.default` block. -/
structure SidebarLeftDefault where
  bg : Option String := none
  borderRight : Option String := none
deriving Repr, DecidableEq

/-- The `components.sidebar.left.iconButton.selected` block. -/
structure SidebarIconButtonSelected where
  bg : Option String := none
  borderLeft : Option String := none
  borderRight : Option String := none
deriving Repr, DecidableEq

/-- The `components.sidebar.left.iconButton` block. -/
structure SidebarIconButton where
  default : Option StyleBag := none
  selected : Option SidebarIconButtonSelected := none
deriving Repr, DecidableEq

/-- The `components.sidebar.left` block. -/
structure SidebarLeft where
  default : Option SidebarLeftDefault := none
  iconButton : Option SidebarIconButton := none
deriving Repr, DecidableEq

/-- The `components.sidebar.right.default` block. -/
structure SidebarRightDefault where
  bg : Option String := none
  otherBg : Option String := none
  borderRight : Option String := none
deriving Repr, DecidableEq

/-- The `components.sidebar.right.title` block. -/
structure SidebarRightTitle where
  borderBottom : Option String := none
  color : Option String := none
  fontSize : Option String := none
deriving Repr, DecidableEq

/-- The `components.sidebar.right` block. -/
structure SidebarRight where
  default : Option SidebarRightDefault := none
  title : Option SidebarRightTitle := none
deriving Repr, DecidableEq

/-- The `components.sidebar` block. -/
structure Sidebar where
  default : Option StyleBag := none
  left : Option SidebarLeft := none
  right : Option SidebarRight := none
deriving Repr, DecidableEq

/-- The `components.home.default` block. -/
structure HomeDefault where
  bg : Option String := none
  color : Option String := none
  height : Option String := none
  padding : Option String := none
deriving Repr, DecidableEq

/-- The `components.home.title` block. -/
structure HomeTitle where
  color : Option String := none
  padding : Option String := none
  fontWeight : Option String := none
  fontSize : Option String := none
  textAlign : Option String := none
deriving Repr, DecidableEq

/-- The `components.home.resources.default` block. -/
structure ResourcesDefault where
  maxWidth : Option String := none
deriving Repr, DecidableEq

/-- The `components.home.resources.title` and `components.home.tutorials.title`
blocks. -/
structure SectionTitle where
  marginBottom : Option String := none
  fontWeight : Option String := none
  fontSize : Option String := none
deriving Repr, DecidableEq

/-- The `components.home.resources.card.default` block. -/
structure ResourceCardDefault where
  bg : Option String := none
  color : Option String := none
  border : Option String := none
  borderRadius : Option String := none
  width : Option String := none
  height : Option String := none
  padding : Option String := none
  marginRight : Option String := none
  marginBottom : Option String := none
deriving Repr, DecidableEq

/-- The `components.home.resources.card.image` block. -/
structure ResourceCardImage where
  width : Option String := none
  height : Option String := none
  marginRight : Option String := none
deriving Repr, DecidableEq

/-- The `components.home.resources.card.title` block. -/
structure ResourceCardTitle where
  display : Option String := none
  alignItems : Option String := none
  height : Option String := none
  fontWeight : Option String := none
  fontSize : Option String := none
deriving Repr, DecidableEq

/-- The `components.home.resources.card.description` block. -/
structure ResourceCardDescription where
  color : Option String := none
  height : Option String := none
deriving Repr, DecidableEq

/-- The `components.home.resources.card.button` block. -/
structure ResourceCardButton where
  width : Option String := none
deriving Repr, DecidableEq

/-- The `components.home.resources.card` block. -/
structure ResourceCard where
  default : Option ResourceCardDefault := none
  image : Option ResourceCardImage := none
  title : Option ResourceCardTitle := none
  description : Option ResourceCardDescription := none
  button : Option ResourceCardButton := none
deriving Repr, DecidableEq

/-- The `components.home.resources` block. -/
structure HomeResources where
  default : Option ResourcesDefault := none
  title : Option SectionTitle := none
  card : Option ResourceCard := none
deriving Repr, DecidableEq

/-- The `components.home.tutorials.default` block. -/
structure HomeTutorialsDefault where
  minWidth : Option String := none
  maxWidth : Option String := none
deriving Repr, DecidableEq

/-- The `components.home.tutorials.card.hover` block. -/
structure HomeTutorialCardHover where
  bg : Option String := none
deriving Repr, DecidableEq

/-- The `components.home.tutorials.card` block. -/
structure HomeTutorialCard where
  bg : Option String := none
  color : Option String := none
  border : Option String := none
  borderRadius : Option String := none
  padding : Option String := none
  marginBottom : Option String := none
  transition : Option String := none
  display : Option String := none
  alignItems : Option String := none
  hover : Option HomeTutorialCardHover := none
deriving Repr, DecidableEq

/-- The `components.home.tutorials` block. -/
structure HomeTutorials where
  default : Option HomeTutorialsDefault := none
  title : Option SectionTitle := none
  card : Option HomeTutorialCard := none
deriving Repr, DecidableEq

/-- The `components.home` block. -/
structure Home where
  default : Option HomeDefault := none
  title : Option HomeTitle := none
  resources : Option HomeResources := none
  tutorials : Option HomeTutorials := none
deriving Repr, DecidableEq

/-- The `components.terminal.default` block. -/
structure TerminalDefault where
  bg : Option String := none
  color : Option String := none
  borderTop : Option String := none
deriving Repr, DecidableEq

/-- The `components.terminal.xterm.cursor` block. -/
structure XtermCursor where
  color : Option String := none
  accentColor : Option String := none
deriving Repr, DecidableEq

/-- The `components.terminal.xterm` block. -/
structure Xterm where
  textPrimary : Option String := none
  textSecondary : Option String := none
  primary : Option String := none
  secondary : Option String := none
  success : Option String := none
  error : Option String := none
  warning : Option String := none
  info : Option String := none
  selectionBg : Option String := none
  cursor : Option XtermCursor := none
deriving Repr, DecidableEq

/-- The `components.terminal` block. -/
structure TerminalComp where
  default : Option TerminalDefault := none
  xterm : Option Xterm := none
deriving Repr, DecidableEq

/-- The `components.bottom.default` block. -/
structure BottomDefault where
  bg : Option String := none
  color : Option String := none
  padding : Option String := none
  fontSize : Option String := none
deriving Repr, DecidableEq

/-- The `components.bottom.connect.hover` block. -/
structure BottomConnectHover where
  bg : Option String := none
deriving Repr, DecidableEq

/-- The `components.bottom.connect` block. -/
structure BottomConnect where
  border : Option String := none
  padding : Option String := none
  hover : Option BottomConnectHover := none
deriving Repr, DecidableEq

/-- The `components.bottom` block. -/
structure Bottom where
  default : Option BottomDefault := none
  connect : Option BottomConnect := none
  endpoint : Option StyleBag := none
  address : Option StyleBag := none
  balance : Option StyleBag := none
deriving Repr, DecidableEq

/-- The `components.tutorial.default` block. -/
structure TutorialDefault where
  bg : Option String := none
  color : Option String := none
  flex : Option String := none
  overflow : Option String := none
  opacity : Option String := none
  transition : Option String := none
deriving Repr, DecidableEq

/-- The `components.tutorial.aboutPage` block. -/
structure TutorialAboutPage where
  bg : Option String := none
  borderBottomRightRadius : Option String := none
  borderTopRightRadius : Option String := none
  fontFamily : Option String := none
  fontSize : Option String := none
  padding : Option String := none
  maxWidth : Option String := none
deriving Repr, DecidableEq

/-- The `components.tutorial.tutorialPage` block. -/
structure TutorialPage where
  bg : Option String := none
  fontFamily : Option String := none
  fontSize : Option String := none
  padding : Option String := none
deriving Repr, DecidableEq

/-- The `components.tutorial` block. -/
structure Tutorial where
  default : Option TutorialDefault := none
  aboutPage : Option TutorialAboutPage := none
  tutorialPage : Option TutorialPage := none
deriving Repr, DecidableEq

/-- The `components.tutorials.default` block. -/
structure TutorialsDefault where
  bg : Option String := none
  color : Option String := none
  fontFamily : Option String := none
  fontSize : Option String := none
deriving Repr, DecidableEq

/-- The `components.tutorials.card.default` block. -/
structure TutorialsCardDefault where
  bg : Option String := none
  color : Option String := none
  border : Option String := none
  borderRadius : Option String := none
  boxShadow : Option String := none
  transition : Option String := none
deriving Repr, DecidableEq

/-- The `components.tutorials.card.info.default` block. -/
structure TutorialsCardInfoDefault where
  padding : Option String := none
deriving Repr, DecidableEq

/-- The `components.tutorials.card.info.name` block. -/
structure TutorialsCardInfoName where
  fontWeight : Option String := none
deriving Repr, DecidableEq

/-- The `components.tutorials.card.info.description` block. -/
structure TutorialsCardInfoDescription where
  marginTop : Option String := none
  color : Option String := none
deriving Repr, DecidableEq

/-- The `components.tutorials.card.info.category` block. -/
structure TutorialsCardInfoCategory where
  padding : Option String := none
  bg : Option String := none
  color : Option String := none
  fontSize : Option String := none
  fontWeight : Option String := none
  borderRadius : Option String := none
  boxShadow : Option String := none
  width : Option String := none
deriving Repr, DecidableEq

/-- The `components.tutorials.card.info` block. -/
structure TutorialsCardInfo where
  default : Option TutorialsCardInfoDefault := none
  name : Option TutorialsCardInfoName := none
  description : Option TutorialsCardInfoDescription := none
  category : Option TutorialsCardInfoCategory := none
deriving Repr, DecidableEq

/-- The `components.tutorials.card` block. -/
structure TutorialsCard where
  default : Option TutorialsCardDefault := none
  gradient : Option StyleBag := none
  info : Option TutorialsCardInfo := none
deriving Repr, DecidableEq

/-- The `components.tutorials` block. -/
structure TutorialsComp where
  default : Option TutorialsDefault := none
  card : Option TutorialsCard := none
deriving Repr, DecidableEq

/-- The `components` block of a theme. -/
structure Components where
  skeleton : Option Skeleton := none
  button : Option Button := none
  menu : Option Menu := none
  input : Option InputComp := none
  select : Option SelectComp := none
  toast : Option Toast := none
  tooltip : Option TooltipComp := none
  markdown : Option Markdown := none
  sidebar : Option Sidebar := none
  home : Option Home := none
  terminal : Option TerminalComp := none
  bottom : Option Bottom := none
  tutorial : Option Tutorial := none
  tutorials : Option TutorialsComp := none
deriving Repr, DecidableEq

/-- The theme object (`PgTheme`): required name/flag/colors plus the optional
blocks filled by the default-filling pass. -/
structure Theme where
  name : String := ""
  isDark : Bool := false
  colors : Colors := {}
  font : Option ThemeFont := none
  transparency : Option Transparency := none
  borderRadius : Option String := none
  boxShadow : Option String := none
  scrollbar : Option Scrollbar := none
  transition : Option Transition := none
  components : Option Components := none
deriving Repr, DecidableEq

/-- The literal default values imported from `./default` (data, not logic;
the fill mechanism is independent of them). -/
structure ThemeDefaults where
  transparency : Transparency := {}
  borderRadius : String := ""
  boxShadow : String := ""
  scrollbarDark : Scrollbar := ""
  scrollbarLight : Scrollbar := ""
  transition : Transition := {}
  fontOther : PgFont := {}
deriving Repr, DecidableEq

/-- The read `this._theme.font!.code!` (present after `_theme_fonts` runs;
the `{}` fallbacks stand for the undefined dereference that cannot occur in
the fill order). -/
def Theme.fontCode (t : Theme) : PgFont := (t.font.getD {}).code.getD {}

/-- The read `this._theme.font!.other!`. -/
def Theme.fontOther (t : Theme) : PgFont := (t.font.getD {}).other.getD {}

/-- The read `this._theme.transparency!`. -/
def Theme.transparencyD (t : Theme) : Transparency := t.transparency.getD {}

/-- The read `this._theme.transition!`. -/
def Theme.transitionD (t : Theme) : Transition := t.transition.getD {}

/-- `_theme_fonts` (theme.ts 895-901): `font ??= {}`, `font.code ??= _font`,
`font.other ??= DEFAULT_FONT_OTHER`. -/
def themeFontFill (fnt : PgFont) (d : ThemeDefaults) (f : ThemeFont) : ThemeFont :=
  { f with code := nset f.code fnt, other := nset f.other d.fontOther }

/-- The theme-level step of `_theme_fonts`. -/
def fillFonts (fnt : PgFont) (d : ThemeDefaults) (t : Theme) : Theme :=
  { t with font := some (themeFontFill fnt d (t.font.getD {})) }

/-- `_transparency` (theme.ts 191-195). -/
def fillTransparency (d : ThemeDefaults) (t : Theme) : Theme :=
  { t with transparency := nset t.transparency d.transparency }

/-- `_borderRadius` (theme.ts 198-202). -/
def fillBorderRadius (d : ThemeDefaults) (t : Theme) : Theme :=
  { t with borderRadius := nset t.borderRadius d.borderRadius }

/-- `_boxShadow` (theme.ts 205-209). -/
def fillBoxShadow (d : ThemeDefaults) (t : Theme) : Theme :=
  { t with boxShadow := nset t.boxShadow d.boxShadow }

/-- `_scrollbar` (theme.ts 212-219): the dark or light default depending on
`isDark`, only when absent. -/
def fillScrollbar (d : ThemeDefaults) (t : Theme) : Theme :=
  { t with scrollbar := nset t.scrollbar (if t.isDark then d.scrollbarDark else d.scrollbarLight) }

/-- `_transition` (theme.ts 222-226). -/
def fillTransition (d : ThemeDefaults) (t : Theme) : Theme :=
  { t with transition := nset t.transition d.transition }

/-- One state entry of `_stateColors`: `bg ??= color + transparency!.low`. -/
def stateColorFill (low : String) (s : StateColor) : StateColor :=
  { s with bg := nset s.bg (s.color ++ low) }

/-- `_stateColors` (theme.ts 229-244). -/
def fillStateColors (t : Theme) : Theme :=
  let low := t.transparencyD.low
  let s := t.colors.state
  { t with colors := { t.colors with state :=
      { s with
        disabled := stateColorFill low s.disabled
        error := stateColorFill low s.error
        hover := stateColorFill low s.hover
        info := stateColorFill low s.info
        success := stateColorFill low s.success
        warning := stateColorFill low s.warning } } }

/-- `_components` (theme.ts 247-251). -/
def fillComponents (t : Theme) : Theme :=
  { t with components := nset t.components {} }

/-- The skeleton part of `_skeleton` (theme.ts 254-261). -/
def skeletonFill (t : Theme) (sk : Skeleton) : Skeleton :=
  { sk with
    bg := nset sk.bg "#44475A"
    highlightColor := nset sk.highlightColor "#343746"
    borderRadius := nmerge sk.borderRadius t.borderRadius }

/-- `_skeleton` (theme.ts 254-261).  The `none` branch of each component fill
models the unreachable `components!` dereference before `_components` runs. -/
def fillSkeleton (t : Theme) : Theme :=
  match t.components with
  | none => t
  | some c =>
    { t with components := some { c with skeleton := some (skeletonFill t (c.skeleton.getD {})) } }

/-- The `button.default` part of `_button` (theme.ts 264-280). -/
def buttonDefaultFill (t : Theme) (bd : ButtonDefault) : ButtonDefault :=
  { bd with
    bg := nset bd.bg "transparent"
    color := nset bd.color "inherit"
    borderColor := nset bd.borderColor "transparent"
    borderRadius := nmerge bd.borderRadius t.borderRadius
    fontSize := nset bd.fontSize t.fontCode.size.medium
    fontWeight := nset bd.fontWeight "normal"
    hover := nset bd.hover [] }

/-- The button part of `_button`. -/
def buttonFill (t : Theme) (b : Button) : Button :=
  { b with default := some (buttonDefaultFill t (b.default.getD {})) }

/-- `_button` (theme.ts 264-280). -/
def fillButton (t : Theme) : Theme :=
  match t.components with
  | none => t
  | some c =>
    { t with components := some { c with button := some (buttonFill t (c.button.getD {})) } }

/-- The `menu.default` part of `_menu` (theme.ts 283-296). -/
def menuDefaultFill (t : Theme) (md : MenuDefault) : MenuDefault :=
  { md with
    bg := nset md.bg t.colors.default.bgPrimary
    borderRadius := nmerge md.borderRadius t.borderRadius
    padding := nset md.padding "0.25rem 0"
    boxShadow := nmerge md.boxShadow t.boxShadow }

/-- The menu part of `_menu`. -/
def menuFill (t : Theme) (m : Menu) : Menu :=
  { m with default := some (menuDefaultFill t (m.default.getD {})) }

/-- `_menu` (theme.ts 283-296). -/
def fillMenu (t : Theme) : Theme :=
  match t.components with
  | none => t
  | some c =>
    { t with components := some { c with menu := some (menuFill t (c.menu.getD {})) } }

/-- The focus/focusWithin outline of `_input`. -/
def inputFocusFill (t : Theme) (f : InputFocus) : InputFocus :=
  { f with outline := nset f.outline ("1px solid " ++ (t.colors.default.primary ++ t.transparencyD.medium)) }

/-- The input part of `_input` (theme.ts 299-325). -/
def inputFill (t : Theme) (inp : InputComp) : InputComp :=
  { inp with
    bg := nset inp.bg t.colors.default.bgPrimary
    color := nset inp.color t.colors.default.textPrimary
    borderColor := nset inp.borderColor t.colors.default.borderColor
    borderRadius := nmerge inp.borderRadius t.borderRadius
    padding := nset inp.padding "0.25rem 0.5rem"
    boxShadow := nset inp.boxShadow "none"
    fontWeight := nset inp.fontWeight "normal"
    fontSize := nset inp.fontSize t.fontCode.size.medium
    focus := some (inputFocusFill t (inp.focus.getD {}))
    focusWithin := some (inputFocusFill t (inp.focusWithin.getD {})) }

/-- `_input` (theme.ts 299-325). -/
def fillInput (t : Theme) : Theme :=
  match t.components with
  | none => t
  | some c =>
    { t with components := some { c with input := some (inputFill t (c.input.getD {})) } }

/-- The `select.default` part of `_select` (theme.ts 331-334). -/
def selectDefaultFill (t : Theme) (sd : SelectDefault) : SelectDefault :=
  { sd with fontSize := nset sd.fontSize t.fontCode.size.small }

/-- The `select.control.hover` part of `_select` (theme.ts 345-348). -/
def selectControlHoverFill (t : Theme) (ch : SelectControlHover) : SelectControlHover :=
  { ch with
    borderColor := nset ch.borderColor t.colors.state.hover.color
    cursor := nset ch.cursor "pointer" }

/-- The `select.control.focusWithin` part of `_select` (theme.ts 349-352). -/
def selectControlFocusWithinFill (t : Theme) (f : SelectControlFocusWithin) :
    SelectControlFocusWithin :=
  { f with boxShadow := nset f.boxShadow ("0 0 0 1px " ++ (t.colors.default.primary ++ t.transparencyD.high)) }

/-- The `select.control` part of `_select` (theme.ts 337-352); reads the
already-filled `components.input.bg`. -/
def selectControlFill (t : Theme) (c : Components) (ctl : SelectControl) : SelectControl :=
  { ctl with
    bg := nmerge ctl.bg ((c.input.getD {}).bg)
    borderColor := nset ctl.borderColor t.colors.default.borderColor
    borderRadius := nmerge ctl.borderRadius t.borderRadius
    minHeight := nset ctl.minHeight "fit-content"
    hover := some (selectControlHoverFill t (ctl.hover.getD {}))
    focusWithin := some (selectControlFocusWithinFill t (ctl.focusWithin.getD {})) }

/-- The `select.menu` part of `_select` (theme.ts 355-361). -/
def selectMenuFill (c : Components) (sm : SelectMenu) : SelectMenu :=
  { sm with
    bg := nmerge sm.bg ((c.input.getD {}).bg)
    color := nmerge sm.color ((c.input.getD {}).color)
    borderRadius := nmerge sm.borderRadius ((c.input.getD {}).borderRadius) }

/-- The `select.option` parts of `_select` (theme.ts 364-383). -/
def selectOptionBeforeFill (t : Theme) (b : SelectOptionBefore) : SelectOptionBefore :=
  { b with color := nset b.color t.colors.default.primary }

/-- The `select.option.focus` part of `_select` (theme.ts 375-379). -/
def selectOptionFocusFill (t : Theme) (f : SelectOptionFocus) : SelectOptionFocus :=
  { f with
    bg := nmerge f.bg t.colors.state.hover.bg
    color := nset f.color t.colors.default.primary }

/-- The `select.option.active` part of `_select` (theme.ts 381-383). -/
def selectOptionActiveFill (t : Theme) (a : SelectOptionActive) : SelectOptionActive :=
  { a with bg := nmerge a.bg t.colors.state.hover.bg }

/-- The `select.option` part of `_select` (theme.ts 364-383). -/
def selectOptionFill (t : Theme) (c : Components) (so : SelectOption) : SelectOption :=
  { so with
    bg := nmerge so.bg ((c.input.getD {}).bg)
    color := nset so.color t.colors.default.textSecondary
    cursor := nset so.cursor "pointer"
    before := some (selectOptionBeforeFill t (so.before.getD {}))
    focus := some (selectOptionFocusFill t (so.focus.getD {}))
    active := some (selectOptionActiveFill t (so.active.getD {})) }

/-- The `select.singleValue` part of `_select` (theme.ts 386-390). -/
def selectSingleValueFill (c : Components) (sv : SelectSingleValue) : SelectSingleValue :=
  { sv with
    bg := nmerge sv.bg ((c.input.getD {}).bg)
    color := nmerge sv.color ((c.input.getD {}).color) }

/-- The `select.input` part of `_select` (theme.ts 393-395). -/
def selectInputFill (c : Components) (si : SelectInput) : SelectInput :=
  { si with color := nmerge si.color ((c.input.getD {}).color) }

/-- The `select.groupHeading` part of `_select` (theme.ts 398-400). -/
def selectGroupHeadingFill (t : Theme) (gh : SelectGroupHeading) : SelectGroupHeading :=
  { gh with color := nset gh.color t.colors.default.textSecondary }

/-- The `select.dropdownIndicator` part of `_select` (theme.ts 403-404). -/
def selectDropdownIndicatorFill (di : SelectDropdownIndicator) : SelectDropdownIndicator :=
  { di with padding := nset di.padding "0.25rem" }

/-- The `select.indicatorSeparator` part of `_select` (theme.ts 407-409). -/
def selectIndicatorSeparatorFill (t : Theme) (isep : SelectIndicatorSeparator) :
    SelectIndicatorSeparator :=
  { isep with bg := nset isep.bg t.colors.default.textSecondary }

/-- The select part of `_select` (theme.ts 328-412). -/
def selectFill (t : Theme) (c : Components) (s : SelectComp) : SelectComp :=
  { s with
    default := some (selectDefaultFill t (s.default.getD {}))
    control := some (selectControlFill t c (s.control.getD {}))
    menu := some (selectMenuFill c (s.menu.getD {}))
    option := some (selectOptionFill t c (s.option.getD {}))
    singleValue := some (selectSingleValueFill c (s.singleValue.getD {}))
    input := some (selectInputFill c (s.input.getD {}))
    groupHeading := some (selectGroupHeadingFill t (s.groupHeading.getD {}))
    dropdownIndicator := some (selectDropdownIndicatorFill (s.dropdownIndicator.getD {}))
    indicatorSeparator := some (selectIndicatorSeparatorFill t (s.indicatorSeparator.getD {})) }

/-- `_select` (theme.ts 328-412). -/
def fillSelect (t : Theme) : Theme :=
  match t.components with
  | none => t
  | some c =>
    { t with components := some { c with select := some (selectFill t c (c.select.getD {})) } }

/-- The `toast.default` part of `_toast` (theme.ts 419-430). -/
def toastDefaultFill (t : Theme) (td : ToastDefault) : ToastDefault :=
  { td with
    bg := nset td.bg t.colors.default.bgPrimary
    color := nset td.color t.colors.default.textPrimary
    borderRadius := nmerge td.borderRadius t.borderRadius
    fontFamily := nset td.fontFamily t.fontCode.family
    fontSize := nset td.fontSize t.fontCode.size.medium
    cursor := nset td.cursor "default" }

/-- The `toast.progress` part of `_toast` (theme.ts 433-435). -/
def toastProgressFill (t : Theme) (tp : ToastProgress) : ToastProgress :=
  { tp with bg := nset tp.bg t.colors.default.primary }

/-- The `toast.closeButton` part of `_toast` (theme.ts 438-440). -/
def toastCloseButtonFill (t : Theme) (tc : ToastCloseButton) : ToastCloseButton :=
  { tc with color := nset tc.color t.colors.default.textSecondary }

/-- The toast part of `_toast` (theme.ts 415-443). -/
def toastFill (t : Theme) (toa : Toast) : Toast :=
  { toa with
    default := some (toastDefaultFill t (toa.default.getD {}))
    progress := some (toastProgressFill t (toa.progress.getD {}))
    closeButton := some (toastCloseButtonFill t (toa.closeButton.getD {})) }

/-- `_toast` (theme.ts 415-443). -/
def fillToast (t : Theme) : Theme :=
  match t.components with
  | none => t
  | some c =>
    { t with components := some { c with toast := some (toastFill t (c.toast.getD {})) } }

/-- The tooltip part of `_tooltip` (theme.ts 446-459). -/
def tooltipFill (t : Theme) (tt : TooltipComp) : TooltipComp :=
  { tt with
    bg := nset tt.bg t.colors.default.bgPrimary
    color := nset tt.color t.colors.default.textPrimary
    bgSecondary := nset tt.bgSecondary t.colors.default.bgSecondary
    borderRadius := nmerge tt.borderRadius t.borderRadius
    boxShadow := nmerge tt.boxShadow t.boxShadow
    fontSize := nset tt.fontSize t.fontCode.size.small }

/-- `_tooltip` (theme.ts 446-459). -/
def fillTooltip (t : Theme) : Theme :=
  match t.components with
  | none => t
  | some c =>
    { t with components := some { c with tooltip := some (tooltipFill t (c.tooltip.getD {})) } }

/-- The `markdown.default` part of `_markdown` (theme.ts 466-473). -/
def markdownDefaultFill (t : Theme) (md : MarkdownDefault) : MarkdownDefault :=
  { md with
    bg := nset md.bg "inherit"
    color := nset md.color t.colors.default.textPrimary
    fontFamily := nset md.fontFamily t.fontOther.family
    fontSize := nset md.fontSize t.fontOther.size.medium }

/-- The `markdown.code` part of `_markdown` (theme.ts 476-486). -/
def markdownCodeFill (t : Theme) (mc : MarkdownCode) : MarkdownCode :=
  { mc with
    bg := nset mc.bg t.colors.default.bgSecondary
    color := nset mc.color t.colors.default.textPrimary
    borderRadius := nmerge mc.borderRadius t.borderRadius
    fontFamily := nset mc.fontFamily t.fontCode.family
    fontSize := nset mc.fontSize t.fontCode.size.medium }

/-- The markdown part of `_markdown` (theme.ts 462-489). -/
def markdownFill (t : Theme) (m : Markdown) : Markdown :=
  { m with
    default := some (markdownDefaultFill t (m.default.getD {}))
    code := some (markdownCodeFill t (m.code.getD {})) }

/-- `_markdown` (theme.ts 462-489). -/
def fillMarkdown (t : Theme) : Theme :=
  match t.components with
  | none => t
  | some c =>
    { t with components := some { c with markdown := some (markdownFill t (c.markdown.getD {})) } }

/-- The `sidebar.left.default` part of `_sidebar` (theme.ts 501-504). -/
def sidebarLeftDefaultFill (t : Theme) (ld : SidebarLeftDefault) : SidebarLeftDefault :=
  { ld with
    bg := nset ld.bg t.colors.default.bgPrimary
    borderRight := nset ld.borderRight ("1px solid " ++ t.colors.default.borderColor) }

/-- The `sidebar.left.iconButton.selected` part of `_sidebar` (theme.ts 511-516). -/
def sidebarSelectedFill (t : Theme) (sel : SidebarIconButtonSelected) : SidebarIconButtonSelected :=
  { sel with
    bg := nmerge sel.bg t.colors.state.hover.bg
    borderLeft := nset sel.borderLeft ("2px solid " ++ t.colors.default.secondary)
    borderRight := nset sel.borderRight "2px solid transparent" }

/-- The `sidebar.left.iconButton` part of `_sidebar` (theme.ts 507-516). -/
def sidebarIconButtonFill (t : Theme) (ib : SidebarIconButton) : SidebarIconButton :=
  { ib with
    default := nset ib.default []
    selected := some (sidebarSelectedFill t (ib.selected.getD {})) }

/-- The `sidebar.left` part of `_sidebar` (theme.ts 499-516). -/
def sidebarLeftFill (t : Theme) (l : SidebarLeft) : SidebarLeft :=
  { l with
    default := some (sidebarLeftDefaultFill t (l.default.getD {}))
    iconButton := some (sidebarIconButtonFill t (l.iconButton.getD {})) }

/-- The `sidebar.right.default` part of `_sidebar` (theme.ts 521-526). -/
def sidebarRightDefaultFill (t : Theme) (rd : SidebarRightDefault) : SidebarRightDefault :=
  { rd with
    bg := nset rd.bg t.colors.default.bgSecondary
    otherBg := nset rd.otherBg t.colors.default.bgPrimary
    borderRight := nset rd.borderRight ("1px solid " ++ t.colors.default.borderColor) }

/-- The `sidebar.right.title` part of `_sidebar` (theme.ts 528-533); note the
trailing semicolon inside the `borderBottom` default value, present in the
source. -/
def sidebarRightTitleFill (t : Theme) (rt : SidebarRightTitle) : SidebarRightTitle :=
  { rt with
    borderBottom := nset rt.borderBottom ("1px solid " ++ t.colors.default.borderColor ++ ";")
    color := nset rt.color t.colors.default.textSecondary
    fontSize := nset rt.fontSize t.fontCode.size.large }

/-- The `sidebar.right` part of `_sidebar` (theme.ts 519-533). -/
def sidebarRightFill (t : Theme) (r : SidebarRight) : SidebarRight :=
  { r with
    default := some (sidebarRightDefaultFill t (r.default.getD {}))
    title := some (sidebarRightTitleFill t (r.title.getD {})) }

/-- The sidebar part of `_sidebar` (theme.ts 492-536). -/
def sidebarFill (t : Theme) (sb : Sidebar) : Sidebar :=
  { sb with
    default := nset sb.default []
    left := some (sidebarLeftFill t (sb.left.getD {}))
    right := some (sidebarRightFill t (sb.right.getD {})) }

/-- `_sidebar` (theme.ts 492-536). -/
def fillSidebar (t : Theme) : Theme :=
  match t.components with
  | none => t
  | some c =>
    { t with components := some { c with sidebar := some (sidebarFill t (c.sidebar.getD {})) } }

/-- The `editor.activeLine` part of `_editor` (theme.ts 547-550). -/
def activeLineFill (t : Theme) (al : ActiveLine) : ActiveLine :=
  { al with
    bg := nset al.bg "inherit"
    borderColor := nset al.borderColor t.colors.default.borderColor }

/-- The `editor.selection` part of `_editor` (theme.ts 553-558). -/
def editorSelectionFill (t : Theme) (sl : EditorSelection) : EditorSelection :=
  { sl with
    bg := nset sl.bg (t.colors.default.primary ++ t.transparencyD.medium)
    color := nset sl.color "inherit" }

/-- The `editor.searchMatch` part of `_editor` (theme.ts 561-567). -/
def searchMatchFill (t : Theme) (sm : SearchMatch) : SearchMatch :=
  { sm with
    bg := nset sm.bg (t.colors.default.textSecondary ++ t.transparencyD.medium)
    color := nset sm.color "inherit"
    selectedBg := nset sm.selectedBg "inherit"
    selectedColor := nset sm.selectedColor "inherit" }

/-- The `editor.gutter` part of `_editor` (theme.ts 570-573); reads the
just-filled editor background. -/
def gutterFill (t : Theme) (ebg : Option String) (g : Gutter) : Gutter :=
  { g with
    bg := nmerge g.bg ebg
    color := nset g.color t.colors.default.textSecondary }

/-- The `editor.tooltip` part of `_editor` (theme.ts 576-584). -/
def editorTooltipFill (t : Theme) (et : EditorTooltip) : EditorTooltip :=
  { et with
    bg := nset et.bg t.colors.default.bgPrimary
    color := nset et.color t.colors.default.textPrimary
    selectedBg := nset et.selectedBg (t.colors.default.primary ++ t.transparencyD.medium)
    selectedColor := nset et.selectedColor t.colors.default.textPrimary }

/-- The editor part of `_editor` (theme.ts 539-587); the top-level scalars are
filled before the sub-blocks, and the gutter reads the filled background. -/
def editorFill (t : Theme) (e0 : EditorColors) : EditorColors :=
  let e := { e0 with
    bg := nset e0.bg t.colors.default.bgPrimary
    color := nset e0.color t.colors.default.textPrimary
    cursorColor := nset e0.cursorColor t.colors.default.textSecondary }
  { e with
    activeLine := some (activeLineFill t (e.activeLine.getD {}))
    selection := some (editorSelectionFill t (e.selection.getD {}))
    searchMatch := some (searchMatchFill t (e.searchMatch.getD {}))
    gutter := some (gutterFill t e.bg (e.gutter.getD {}))
    tooltip := some (editorTooltipFill t (e.tooltip.getD {})) }

/-- `_editor` (theme.ts 539-587); operates on `colors.editor`. -/
def fillEditor (t : Theme) : Theme :=
  { t with colors := { t.colors with editor := some (editorFill t (t.colors.editor.getD {})) } }

/-- The `home.default` part of `_home` (theme.ts 594-600). -/
def homeDefaultFill (t : Theme) (hd : HomeDefault) : HomeDefault :=
  { hd with
    bg := nset hd.bg t.colors.default.bgSecondary
    color := nset hd.color t.colors.default.textPrimary
    height := nset hd.height "100%"
    padding := nset hd.padding "0 8%" }

/-- The `home.title` part of `_home` (theme.ts 603-609). -/
def homeTitleFill (t : Theme) (ht : HomeTitle) : HomeTitle :=
  { ht with
    color := nset ht.color t.colors.default.textSecondary
    padding := nset ht.padding "2rem"
    fontWeight := nset ht.fontWeight "bold"
    fontSize := nset ht.fontSize "2rem"
    textAlign := nset ht.textAlign "center" }

/-- The `home.resources.title` and `home.tutorials.title` parts of `_home`
(theme.ts 617-620 and 669-672). -/
def sectionTitleFill (st : SectionTitle) : SectionTitle :=
  { st with
    marginBottom := nset st.marginBottom "1rem"
    fontWeight := nset st.fontWeight "bold"
    fontSize := nset st.fontSize "1.25rem" }

/-- The `home.resources.card.default` part of `_home` (theme.ts 623-639). -/
def resourceCardDefaultFill (t : Theme) (cd : ResourceCardDefault) : ResourceCardDefault :=
  { cd with
    bg := nset cd.bg t.colors.default.bgPrimary
    color := nset cd.color t.colors.default.textPrimary
    border := nset cd.border ("1px solid " ++ (t.colors.default.borderColor ++ t.transparencyD.medium))
    borderRadius := nmerge cd.borderRadius t.borderRadius
    width := nset cd.width "15rem"
    height := nset cd.height "15rem"
    padding := nset cd.padding "1rem 1.5rem 1.5rem 1.5rem"
    marginRight := nset cd.marginRight "2rem"
    marginBottom := nset cd.marginBottom "2rem" }

/-- The `home.resources.card.image` part of `_home` (theme.ts 641-644). -/
def resourceCardImageFill (ci : ResourceCardImage) : ResourceCardImage :=
  { ci with
    width := nset ci.width "1.25rem"
    height := nset ci.height "1.25rem"
    marginRight := nset ci.marginRight "0.5rem" }

/-- The `home.resources.card.title` part of `_home` (theme.ts 646-652). -/
def resourceCardTitleFill (t : Theme) (ct : ResourceCardTitle) : ResourceCardTitle :=
  { ct with
    display := nset ct.display "flex"
    alignItems := nset ct.alignItems "center"
    height := nset ct.height "20%"
    fontWeight := nset ct.fontWeight "bold"
    fontSize := nset ct.fontSize t.fontCode.size.xlarge }

/-- The `home.resources.card.description` part of `_home` (theme.ts 654-657). -/
def resourceCardDescriptionFill (t : Theme) (cde : ResourceCardDescription) :
    ResourceCardDescription :=
  { cde with
    color := nset cde.color t.colors.default.textSecondary
    height := nset cde.height "60%" }

/-- The `home.resources.card.button` part of `_home` (theme.ts 659-660). -/
def resourceCardButtonFill (cb : ResourceCardButton) : ResourceCardButton :=
  { cb with width := nset cb.width "100%" }

/-- The `home.resources.card` part of `_home` (theme.ts 622-660). -/
def resourceCardFill (t : Theme) (card : ResourceCard) : ResourceCard :=
  { card with
    default := some (resourceCardDefaultFill t (card.default.getD {}))
    image := some (resourceCardImageFill (card.image.getD {}))
    title := some (resourceCardTitleFill t (card.title.getD {}))
    description := some (resourceCardDescriptionFill t (card.description.getD {}))
    button := some (resourceCardButtonFill (card.button.getD {})) }

/-- The `home.resources.default` part of `_home` (theme.ts 613-615). -/
def homeResourcesDefaultFill (rd : ResourcesDefault) : ResourcesDefault :=
  { rd with maxWidth := nset rd.maxWidth "53rem" }

/-- The `home.resources` part of `_home` (theme.ts 612-660). -/
def homeResourcesFill (t : Theme) (res : HomeResources) : HomeResources :=
  { res with
    default := some (homeResourcesDefaultFill (res.default.getD {}))
    title := some (sectionTitleFill (res.title.getD {}))
    card := some (resourceCardFill t (res.card.getD {})) }

/-- The `home.tutorials.card.hover` part of `_home` (theme.ts 693-695). -/
def homeTutorialCardHoverFill (t : Theme) (h : HomeTutorialCardHover) : HomeTutorialCardHover :=
  { h with bg := nmerge h.bg t.colors.state.hover.bg }

/-- The `home.tutorials.card` part of `_home` (theme.ts 674-695); the border
default contains the literal newline and indentation of the source template
string. -/
def homeTutorialCardFill (t : Theme) (tc : HomeTutorialCard) : HomeTutorialCard :=
  { tc with
    bg := nset tc.bg t.colors.default.bgPrimary
    color := nset tc.color t.colors.default.textPrimary
    border := nset tc.border ("1px solid\n      " ++ (t.colors.default.borderColor ++ t.transparencyD.medium))
    borderRadius := nmerge tc.borderRadius t.borderRadius
    padding := nset tc.padding "1rem"
    marginBottom := nset tc.marginBottom "1rem"
    transition := nset tc.transition ("all " ++ t.transitionD.duration.medium ++ " " ++ t.transitionD.type)
    display := nset tc.display "flex"
    alignItems := nset tc.alignItems "center"
    hover := some (homeTutorialCardHoverFill t (tc.hover.getD {})) }

/-- The `home.tutorials.default` part of `_home` (theme.ts 665-667). -/
def homeTutorialsDefaultFill (td : HomeTutorialsDefault) : HomeTutorialsDefault :=
  { td with minWidth := nset td.minWidth "16rem", maxWidth := nset td.maxWidth "27rem" }

/-- The `home.tutorials` part of `_home` (theme.ts 663-695). -/
def homeTutorialsFill (t : Theme) (tut : HomeTutorials) : HomeTutorials :=
  { tut with
    default := some (homeTutorialsDefaultFill (tut.default.getD {}))
    title := some (sectionTitleFill (tut.title.getD {}))
    card := some (homeTutorialCardFill t (tut.card.getD {})) }

/-- The home part of `_home` (theme.ts 590-698). -/
def homeFill (t : Theme) (h : Home) : Home :=
  { h with
    default := some (homeDefaultFill t (h.default.getD {}))
    title := some (homeTitleFill t (h.title.getD {}))
    resources := some (homeResourcesFill t (h.resources.getD {}))
    tutorials := some (homeTutorialsFill t (h.tutorials.getD {})) }

/-- `_home` (theme.ts 590-698). -/
def fillHome (t : Theme) : Theme :=
  match t.components with
  | none => t
  | some c =>
    { t with components := some { c with home := some (homeFill t (c.home.getD {})) } }

/-- The `terminal.default` part of `_terminal` (theme.ts 705-710); the
`borderTop` default carries the trailing semicolon of the source. -/
def terminalDefaultFill (t : Theme) (td : TerminalDefault) : TerminalDefault :=
  { td with
    bg := nset td.bg t.colors.default.bgPrimary
    color := nset td.color t.colors.default.textPrimary
    borderTop := nset td.borderTop ("1px solid " ++ t.colors.default.primary ++ ";") }

/-- The `terminal.xterm.cursor` part of `_terminal` (theme.ts 733-737). -/
def xtermCursorFill (t : Theme) (tdbg : Option String) (xc : XtermCursor) : XtermCursor :=
  { xc with
    color := nset xc.color t.colors.default.textPrimary
    accentColor := nmerge xc.accentColor tdbg }

/-- The `terminal.xterm` part of `_terminal` (theme.ts 713-737); the cursor
accent color reads the just-filled terminal default background. -/
def xtermFill (t : Theme) (tdbg : Option String) (x : Xterm) : Xterm :=
  { x with
    textPrimary := nset x.textPrimary t.colors.default.textPrimary
    textSecondary := nset x.textSecondary t.colors.default.textSecondary
    primary := nset x.primary t.colors.default.primary
    secondary := nset x.secondary t.colors.default.secondary
    success := nset x.success t.colors.state.success.color
    error := nset x.error t.colors.state.error.color
    warning := nset x.warning t.colors.state.warning.color
    info := nset x.info t.colors.state.info.color
    selectionBg := nset x.selectionBg t.colors.default.textSecondary
    cursor := some (xtermCursorFill t tdbg (x.cursor.getD {})) }

/-- The terminal part of `_terminal` (theme.ts 701-740). -/
def terminalFill (t : Theme) (term : TerminalComp) : TerminalComp :=
  let td := terminalDefaultFill t (term.default.getD {})
  { term with
    default := some td
    xterm := some (xtermFill t td.bg (term.xterm.getD {})) }

/-- `_terminal` (theme.ts 701-740). -/
def fillTerminal (t : Theme) : Theme :=
  match t.components with
  | none => t
  | some c =>
    { t with components := some { c with terminal := some (terminalFill t (c.terminal.getD {})) } }

/-- The `bottom.default` part of `_bottom` (theme.ts 747-754). -/
def bottomDefaultFill (t : Theme) (bd : BottomDefault) : BottomDefault :=
  { bd with
    bg := nset bd.bg t.colors.default.primary
    color := nset bd.color t.colors.default.textPrimary
    padding := nset bd.padding "0 0.5rem"
    fontSize := nset bd.fontSize t.fontCode.size.small }

/-- The `bottom.connect.hover` part of `_bottom` (theme.ts 760-763); the
background concatenates the just-filled bottom default color with the low
transparency level (`getD "undefined"` spells out the JavaScript coercion of
an undefined operand, which cannot occur here). -/
def bottomConnectHoverFill (t : Theme) (bdColor : Option String) (bh : BottomConnectHover) :
    BottomConnectHover :=
  { bh with bg := nset bh.bg ((bdColor.getD "undefined") ++ t.transparencyD.low) }

/-- The `bottom.connect` part of `_bottom` (theme.ts 757-763). -/
def bottomConnectFill (t : Theme) (bdColor : Option String) (bc : BottomConnect) : BottomConnect :=
  { bc with
    border := nset bc.border "none"
    padding := nset bc.padding "0 0.75rem"
    hover := some (bottomConnectHoverFill t bdColor (bc.hover.getD {})) }

/-- The bottom part of `_bottom` (theme.ts 743-775). -/
def bottomFill (t : Theme) (bot : Bottom) : Bottom :=
  let bd := bottomDefaultFill t (bot.default.getD {})
  { bot with
    default := some bd
    connect := some (bottomConnectFill t bd.color (bot.connect.getD {}))
    endpoint := nset bot.endpoint []
    address := nset bot.address []
    balance := nset bot.balance [] }

/-- `_bottom` (theme.ts 743-775). -/
def fillBottom (t : Theme) : Theme :=
  match t.components with
  | none => t
  | some c =>
    { t with components := some { c with bottom := some (bottomFill t (c.bottom.getD {})) } }

/-- The `tutorial.default` part of `_tutorial` (theme.ts 782-792); the
numeric defaults `flex: 1` and `opacity: 0` are modelled by their decimal
strings. -/
def tutorialDefaultFill (t : Theme) (td : TutorialDefault) : TutorialDefault :=
  { td with
    bg := nset td.bg t.colors.default.bgSecondary
    color := nset td.color t.colors.default.textPrimary
    flex := nset td.flex "1"
    overflow := nset td.overflow "auto"
    opacity := nset td.opacity "0"
    transition := nset td.transition ("opacity " ++ t.transitionD.duration.medium ++ " " ++ t.transitionD.type) }

/-- The `tutorial.aboutPage` part of `_tutorial` (theme.ts 795-807). -/
def tutorialAboutPageFill (t : Theme) (ap : TutorialAboutPage) : TutorialAboutPage :=
  { ap with
    bg := nset ap.bg t.colors.default.bgPrimary
    borderBottomRightRadius := nmerge ap.borderBottomRightRadius t.borderRadius
    borderTopRightRadius := nmerge ap.borderTopRightRadius t.borderRadius
    fontFamily := nset ap.fontFamily t.fontOther.family
    fontSize := nset ap.fontSize t.fontOther.size.medium
    padding := nset ap.padding "2rem"
    maxWidth := nset ap.maxWidth "60rem" }

/-- The `tutorial.tutorialPage` part of `_tutorial` (theme.ts 810-817). -/
def tutorialPageFill (t : Theme) (tp : TutorialPage) : TutorialPage :=
  { tp with
    bg := nset tp.bg t.colors.default.bgPrimary
    fontFamily := nset tp.fontFamily t.fontOther.family
    fontSize := nset tp.fontSize t.fontOther.size.medium
    padding := nset tp.padding "2rem" }

/-- The tutorial part of `_tutorial` (theme.ts 778-820). -/
def tutorialFill (t : Theme) (tu : Tutorial) : Tutorial :=
  { tu with
    default := some (tutorialDefaultFill t (tu.default.getD {}))
    aboutPage := some (tutorialAboutPageFill t (tu.aboutPage.getD {}))
    tutorialPage := some (tutorialPageFill t (tu.tutorialPage.getD {})) }

/-- `_tutorial` (theme.ts 778-820). -/
def fillTutorial (t : Theme) : Theme :=
  match t.components with
  | none => t
  | some c =>
    { t with components := some { c with tutorial := some (tutorialFill t (c.tutorial.getD {})) } }

/-- The `tutorials.default` part of `_tutorials` (theme.ts 827-835). -/
def tutorialsDefaultFill (t : Theme) (td : TutorialsDefault) : TutorialsDefault :=
  { td with
    bg := nset td.bg t.colors.default.bgSecondary
    color := nset td.color t.colors.default.textPrimary
    fontFamily := nset td.fontFamily t.fontOther.family
    fontSize := nset td.fontSize t.fontOther.size.medium }

/-- The `tutorials.card.default` part of `_tutorials` (theme.ts 840-855); the
transition default carries the literal newline and indentation of the source
template string. -/
def tutorialsCardDefaultFill (t : Theme) (cd : TutorialsCardDefault) : TutorialsCardDefault :=
  { cd with
    bg := nset cd.bg t.colors.default.bgPrimary
    color := nset cd.color t.colors.default.textPrimary
    border := nset cd.border ("1px solid " ++ (t.colors.default.borderColor ++ t.transparencyD.medium))
    borderRadius := nmerge cd.borderRadius t.borderRadius
    boxShadow := nmerge cd.boxShadow t.boxShadow
    transition := nset cd.transition ("all " ++ t.transitionD.duration.medium ++ "\n      " ++ t.transitionD.type) }

/-- The `tutorials.card.info.description` part of `_tutorials` (theme.ts
868-872). -/
def tutorialsCardInfoDescriptionFill (t : Theme) (d : TutorialsCardInfoDescription) :
    TutorialsCardInfoDescription :=
  { d with
    marginTop := nset d.marginTop "0.5rem"
    color := nset d.color t.colors.default.textSecondary }

/-- The `tutorials.card.info.category` part of `_tutorials` (theme.ts
874-889); the background reads the just-filled tutorials default background,
and the `info.default.padding` literal carries its source leading space. -/
def tutorialsCardInfoCategoryFill (t : Theme) (tdbg : Option String)
    (cat : TutorialsCardInfoCategory) : TutorialsCardInfoCategory :=
  { cat with
    padding := nset cat.padding "0.5rem 0.75rem"
    bg := nmerge cat.bg tdbg
    color := nset cat.color t.colors.default.textSecondary
    fontSize := nset cat.fontSize t.fontOther.size.small
    fontWeight := nset cat.fontWeight "bold"
    borderRadius := nmerge cat.borderRadius t.borderRadius
    boxShadow := nmerge cat.boxShadow t.boxShadow
    width := nset cat.width "fit-content" }

/-- The `tutorials.card.info.default` part of `_tutorials` (theme.ts 861-863). -/
def tutorialsCardInfoDefaultFill (d : TutorialsCardInfoDefault) : TutorialsCardInfoDefault :=
  { d with padding := nset d.padding " 1rem 0.75rem" }

/-- The `tutorials.card.info.name` part of `_tutorials` (theme.ts 865-866). -/
def tutorialsCardInfoNameFill (n : TutorialsCardInfoName) : TutorialsCardInfoName :=
  { n with fontWeight := nset n.fontWeight "bold" }

/-- The `tutorials.card.info` part of `_tutorials` (theme.ts 858-889). -/
def tutorialsCardInfoFill (t : Theme) (tdbg : Option String) (info : TutorialsCardInfo) :
    TutorialsCardInfo :=
  { info with
    default := some (tutorialsCardInfoDefaultFill (info.default.getD {}))
    name := some (tutorialsCardInfoNameFill (info.name.getD {}))
    description := some (tutorialsCardInfoDescriptionFill t (info.description.getD {}))
    category := some (tutorialsCardInfoCategoryFill t tdbg (info.category.getD {})) }

/-- The `tutorials.card` part of `_tutorials` (theme.ts 838-889). -/
def tutorialsCardFill (t : Theme) (tdbg : Option String) (card : TutorialsCard) : TutorialsCard :=
  { card with
    default := some (tutorialsCardDefaultFill t (card.default.getD {}))
    gradient := nset card.gradient []
    info := some (tutorialsCardInfoFill t tdbg (card.info.getD {})) }

/-- The tutorials part of `_tutorials` (theme.ts 823-892). -/
def tutorialsFill (t : Theme) (ts : TutorialsComp) : TutorialsComp :=
  let td := tutorialsDefaultFill t (ts.default.getD {})
  { ts with
    default := some td
    card := some (tutorialsCardFill t td.bg (ts.card.getD {})) }

/-- `_tutorials` (theme.ts 823-892). -/
def fillTutorials (t : Theme) : Theme :=
  match t.components with
  | none => t
  | some c =>
    { t with components := some { c with tutorials := some (tutorialsFill t (c.tutorials.getD {})) } }

/-- The default-filling chain of `PgThemeManager.set` (theme.ts 87-110), in
source order: fonts, transparency, border radius, box shadow, scrollbar,
transition, state colors, components, then one pass per component block. -/
def fillAll (d : ThemeDefaults) (fnt : PgFont) (t0 : Theme) : Theme :=
  let t := fillFonts fnt d t0
  let t := fillTransparency d t
  let t := fillBorderRadius d t
  let t := fillBoxShadow d t
  let t := fillScrollbar d t
  let t := fillTransition d t
  let t := fillStateColors t
  let t := fillComponents t
  let t := fillSkeleton t
  let t := fillButton t
  let t := fillMenu t
  let t := fillInput t
  let t := fillSelect t
  let t := fillToast t
  let t := fillTooltip t
  let t := fillMarkdown t
  let t := fillSidebar t
  let t := fillEditor t
  let t := fillHome t
  let t := fillTerminal t
  let t := fillBottom t
  let t := fillTutorial t
  let t := fillTutorials t
  t

/-! ### CSS conversion (`PgThemeManager.convertToCSS`) -/

/-- Modelled from the spec: `PgCommon.toKebabFromCamel` (imported from
`../common`, which is not part of this excerpt) converts a camel-cased key to
kebab-case — every uppercase letter becomes a hyphen followed by its
lowercase form. -/
def toKebabFromCamel (s : String) : String :=
  String.join (s.toList.map (fun c =>
    if c.isUpper then "-" ++ (c.toLower).toString else c.toString))

/-- A JavaScript value in a style-property bag: a string, a number, a nested
object (insertion-ordered association list of own enumerable properties), or
a keyless primitive of any other type. -/
inductive CSSVal : Type where
  | str (s : String)
  | num (n : Int)
  | obj (fields : List (String × CSSVal))
  | other

/-- The pseudo-class keys recognized by `convertToCSS`. -/
def isPseudoClass (k : String) : Bool :=
  k == "hover" || k == "active" || k == "focus" || k == "focusWithin"

/-- The pseudo-element keys recognized by `convertToCSS`. -/
def isPseudoElement (k : String) : Bool :=
  k == "before" || k == "after"

/-- The `Object.keys` iteration performed when `convertToCSS` recurses into a
primitive string (`value as DefaultComponent` is a type cast, not a runtime
conversion): a string exposes its character indices as keys, each holding a
one-character string, which the recursive call serializes as `index:char;`. -/
def strCharsCSS (s : String) : String :=
  String.join (List.zipWith (fun i c => toString i ++ ":" ++ String.singleton c ++ ";")
    (List.range s.toList.length) s.toList)

/-- `PgThemeManager.convertToCSS` (theme.ts 127-160): reduce over the own
keys of the style object; `bg` renames to `background`; the pseudo-class keys
wrap the recursively converted value in `&:prop\x7b...\x7d` and the
pseudo-element keys in `&::prop\x7b...\x7d`; any other key emits
`prop:value;` only for string and number values and is otherwise skipped. -/
def convertToCSS : List (String × CSSVal) → String
  | [] => ""
  | (key, CSSVal.obj fs) :: rest =>
    (if isPseudoClass key then "&:" ++ toKebabFromCamel key ++ "\x7b" ++ convertToCSS fs ++ "\x7d"
     else if isPseudoElement key then
      "&::" ++ toKebabFromCamel key ++ "\x7b" ++ convertToCSS fs ++ "\x7d"
     else "") ++ convertToCSS rest
  | (key, CSSVal.str s) :: rest =>
    (if isPseudoClass key then "&:" ++ toKebabFromCamel key ++ "\x7b" ++ strCharsCSS s ++ "\x7d"
     else if isPseudoElement key then
      "&::" ++ toKebabFromCamel key ++ "\x7b" ++ strCharsCSS s ++ "\x7d"
     else (if key == "bg" then "background" else toKebabFromCamel key) ++ ":" ++ s ++ ";") ++
    convertToCSS rest
  | (key, CSSVal.num n) :: rest =>
    (if isPseudoClass key then "&:" ++ toKebabFromCamel key ++ "\x7b" ++ "\x7d"
     else if isPseudoElement key then "&::" ++ toKebabFromCamel key ++ "\x7b" ++ "\x7d"
     else (if key == "bg" then "background" else toKebabFromCamel key) ++ ":" ++ toString n ++ ";") ++
    convertToCSS rest
  | (key, CSSVal.other) :: rest =>
    (if isPseudoClass key then "&:" ++ toKebabFromCamel key ++ "\x7b" ++ "\x7d"
     else if isPseudoElement key then "&::" ++ toKebabFromCamel key ++ "\x7b" ++ "\x7d"
     else "") ++ convertToCSS rest

/-! ### Theme/font selection (`PgThemeManager.set`, theme.ts 62-76) -/

/-- An entry of the importable-theme list passed to `create`; only its name
matters to selection (the body is loaded asynchronously). -/
structure ImportableThemeRef where
  name : String
deriving Repr, DecidableEq

/-- The theme-name defaulting of `set` (theme.ts 68-69):
`params.themeName ??= localStorage.getItem(_THEME_KEY) ?? _themes[0].name`.
`localStorage.getItem` returning `null` is `none`; indexing an empty theme
list would dereference `undefined` and is modelled as `none`. -/
def resolveThemeName (paramThemeName : Option String) (storedTheme : Option String)
    (themes : List ImportableThemeRef) : Option String :=
  match paramThemeName with
  | some n => some n
  | none =>
    match storedTheme with
    | some s => some s
    | none => themes.head?.map ImportableThemeRef.name

/-- The font-family defaulting of `set` (theme.ts 70-71):
`params.fontFamily ??= localStorage.getItem(_FONT_KEY) ?? _fonts[0].family`. -/
def resolveFontFamily (paramFontFamily : Option String) (storedFont : Option String)
    (fonts : List PgFont) : Option String :=
  match paramFontFamily with
  | some n => some n
  | none =>
    match storedFont with
    | some s => some s
    | none => fonts.head?.map PgFont.family

/-! ### Serialization queue (`PgTerminal.process`) -/

/-- Modelled from the spec: `PgTerminal.process` (imported from
`../terminal`, which is not part of this excerpt) wraps every `execute` call
in a mutual-exclusion queue — each submitted execution runs to completion
before the next submitted one starts (spec section 5).  A submission is
represented by the trace of observable steps its execution produces; running
the queue yields the traces laid out one after the other in submission
order, with no interleaving. -/
def processQueue (jobs : List (List α)) : List α := jobs.flatten

/-- The parsed object produced by the argument-binding loop of `execute` when
no error is thrown: each spec's name is assigned the (possibly undefined)
token at its index, in spec order. -/
def buildAcc (args : List String) : Nat → List Arg → ParsedArgs → ParsedArgs
  | _, [], acc => acc
  | i, a :: rest, acc => buildAcc args (i + 1) rest (jsSet acc a.name args[i]?)

/-- The first required argument spec, in spec order, whose index lies beyond
the supplied tokens (theorems phrase `Argument not specified` through it). -/
def firstUnmet (specs : List Arg) (supplied : Nat) : Option Arg :=
  (specs.drop supplied).find? (fun a => !a.optional)

/-! ### Field-preservation relations for the theme filler

`presOpt` states that an optional field's present value survives a
transformation; `presSub` lifts a preservation relation through an optional
sub-record.  One `Pres` relation per theme structure spells out, field by
field, that every value present before a fill step is still present, with the
same value, after it. -/

/-- Preservation of an optional field: any value present on the left is
present, unchanged, on the right. -/
def presOpt (x y : Option α) : Prop := ∀ v, x = some v → y = some v

/-- Preservation of an optional sub-record up to a preservation relation `r`
on its contents. -/
def presSub (r : α → α → Prop) (x y : Option α) : Prop :=
  ∀ v, x = some v → ∃ w, y = some w ∧ r v w


/-- Field preservation on `ThemeFont`: present fields keep their values. -/
def ThemeFont.Pres (a b : ThemeFont) : Prop :=
  presOpt a.code b.code ∧
  presOpt a.other b.other

/-- Field preservation on `StateColor`: present fields keep their values. -/
def StateColor.Pres (a b : StateColor) : Prop :=
  a.color = b.color ∧
  presOpt a.bg b.bg

/-- Field preservation on `StateColors`: present fields keep their values. -/
def StateColors.Pres (a b : StateColors) : Prop :=
  StateColor.Pres a.disabled b.disabled ∧
  StateColor.Pres a.error b.error ∧
  StateColor.Pres a.hover b.hover ∧
  StateColor.Pres a.info b.info ∧
  StateColor.Pres a.success b.success ∧
  StateColor.Pres a.warning b.warning

/-- Field preservation on `ActiveLine`: present fields keep their values. -/
def ActiveLine.Pres (a b : ActiveLine) : Prop :=
  presOpt a.bg b.bg ∧
  presOpt a.borderColor b.borderColor

/-- Field preservation on `EditorSelection`: present fields keep their values. -/
def EditorSelection.Pres (a b : EditorSelection) : Prop :=
  presOpt a.bg b.bg ∧
  presOpt a.color b.color

/-- Field preservation on `SearchMatch`: present fields keep their values. -/
def SearchMatch.Pres (a b : SearchMatch) : Prop :=
  presOpt a.bg b.bg ∧
  presOpt a.color b.color ∧
  presOpt a.selectedBg b.selectedBg ∧
  presOpt a.selectedColor b.selectedColor

/-- Field preservation on `Gutter`: present fields keep their values. -/
def Gutter.Pres (a b : Gutter) : Prop :=
  presOpt a.bg b.bg ∧
  presOpt a.color b.color

/-- Field preservation on `EditorTooltip`: present fields keep their values. -/
def EditorTooltip.Pres (a b : EditorTooltip) : Prop :=
  presOpt a.bg b.bg ∧
  presOpt a.color b.color ∧
  presOpt a.selectedBg b.selectedBg ∧
  presOpt a.selectedColor b.selectedColor

/-- Field preservation on `EditorColors`: present fields keep their values. -/
def EditorColors.Pres (a b : EditorColors) : Prop :=
  presOpt a.bg b.bg ∧
  presOpt a.color b.color ∧
  presOpt a.cursorColor b.cursorColor ∧
  presSub ActiveLine.Pres a.activeLine b.activeLine ∧
  presSub EditorSelection.Pres a.selection b.selection ∧
  presSub SearchMatch.Pres a.searchMatch b.searchMatch ∧
  presSub Gutter.Pres a.gutter b.gutter ∧
  presSub EditorTooltip.Pres a.tooltip b.tooltip

/-- Field preservation on `Colors`: present fields keep their values. -/
def Colors.Pres (a b : Colors) : Prop :=
  a.default = b.default ∧
  StateColors.Pres a.state b.state ∧
  presSub EditorColors.Pres a.editor b.editor

/-- Field preservation on `Skeleton`: present fields keep their values. -/
def Skeleton.Pres (a b : Skeleton) : Prop :=
  presOpt a.bg b.bg ∧
  presOpt a.highlightColor b.highlightColor ∧
  presOpt a.borderRadius b.borderRadius

/-- Field preservation on `ButtonDefault`: present fields keep their values. -/
def ButtonDefault.Pres (a b : ButtonDefault) : Prop :=
  presOpt a.bg b.bg ∧
  presOpt a.color b.color ∧
  presOpt a.borderColor b.borderColor ∧
  presOpt a.borderRadius b.borderRadius ∧
  presOpt a.fontSize b.fontSize ∧
  presOpt a.fontWeight b.fontWeight ∧
  presOpt a.hover b.hover

/-- Field preservation on `Button`: present fields keep their values. -/
def Button.Pres (a b : Button) : Prop :=
  presSub ButtonDefault.Pres a.default b.default

/-- Field preservation on `MenuDefault`: present fields keep their values. -/
def MenuDefault.Pres (a b : MenuDefault) : Prop :=
  presOpt a.bg b.bg ∧
  presOpt a.borderRadius b.borderRadius ∧
  presOpt a.padding b.padding ∧
  presOpt a.boxShadow b.boxShadow

/-- Field preservation on `Menu`: present fields keep their values. -/
def Menu.Pres (a b : Menu) : Prop :=
  presSub MenuDefault.Pres a.default b.default

/-- Field preservation on `InputFocus`: present fields keep their values. -/
def InputFocus.Pres (a b : InputFocus) : Prop :=
  presOpt a.outline b.outline

/-- Field preservation on `InputComp`: present fields keep their values. -/
def InputComp.Pres (a b : InputComp) : Prop :=
  presOpt a.bg b.bg ∧
  presOpt a.color b.color ∧
  presOpt a.borderColor b.borderColor ∧
  presOpt a.borderRadius b.borderRadius ∧
  presOpt a.padding b.padding ∧
  presOpt a.boxShadow b.boxShadow ∧
  presOpt a.fontWeight b.fontWeight ∧
  presOpt a.fontSize b.fontSize ∧
  presSub InputFocus.Pres a.focus b.focus ∧
  presSub InputFocus.Pres a.focusWithin b.focusWithin

/-- Field preservation on `SelectDefault`: present fields keep their values. -/
def SelectDefault.Pres (a b : SelectDefault) : Prop :=
  presOpt a.fontSize b.fontSize

/-- Field preservation on `SelectControlHover`: present fields keep their values. -/
def SelectControlHover.Pres (a b : SelectControlHover) : Prop :=
  presOpt a.borderColor b.borderColor ∧
  presOpt a.cursor b.cursor

/-- Field preservation on `SelectControlFocusWithin`: present fields keep their values. -/
def SelectControlFocusWithin.Pres (a b : SelectControlFocusWithin) : Prop :=
  presOpt a.boxShadow b.boxShadow

/-- Field preservation on `SelectControl`: present fields keep their values. -/
def SelectControl.Pres (a b : SelectControl) : Prop :=
  presOpt a.bg b.bg ∧
  presOpt a.borderColor b.borderColor ∧
  presOpt a.borderRadius b.borderRadius ∧
  presOpt a.minHeight b.minHeight ∧
  presSub SelectControlHover.Pres a.hover b.hover ∧
  presSub SelectControlFocusWithin.Pres a.focusWithin b.focusWithin

/-- Field preservation on `SelectMenu`: present fields keep their values. -/
def SelectMenu.Pres (a b : SelectMenu) : Prop :=
  presOpt a.bg b.bg ∧
  presOpt a.color b.color ∧
  presOpt a.borderRadius b.borderRadius

/-- Field preservation on `SelectOptionBefore`: present fields keep their values. -/
def SelectOptionBefore.Pres (a b : SelectOptionBefore) : Prop :=
  presOpt a.color b.color

/-- Field preservation on `SelectOptionFocus`: present fields keep their values. -/
def SelectOptionFocus.Pres (a b : SelectOptionFocus) : Prop :=
  presOpt a.bg b.bg ∧
  presOpt a.color b.color

/-- Field preservation on `SelectOptionActive`: present fields keep their values. -/
def SelectOptionActive.Pres (a b : SelectOptionActive) : Prop :=
  presOpt a.bg b.bg

/-- Field preservation on `SelectOption`: present fields keep their values. -/
def SelectOption.Pres (a b : SelectOption) : Prop :=
  presOpt a.bg b.bg ∧
  presOpt a.color b.color ∧
  presOpt a.cursor b.cursor ∧
  presSub SelectOptionBefore.Pres a.before b.before ∧
  presSub SelectOptionFocus.Pres a.focus b.focus ∧
  presSub SelectOptionActive.Pres a.active b.active

/-- Field preservation on `SelectSingleValue`: present fields keep their values. -/
def SelectSingleValue.Pres (a b : SelectSingleValue) : Prop :=
  presOpt a.bg b.bg ∧
  presOpt a.color b.color

/-- Field preservation on `SelectInput`: present fields keep their values. -/
def SelectInput.Pres (a b : SelectInput) : Prop :=
  presOpt a.color b.color

/-- Field preservation on `SelectGroupHeading`: present fields keep their values. -/
def SelectGroupHeading.Pres (a b : SelectGroupHeading) : Prop :=
  presOpt a.color b.color

/-- Field preservation on `SelectDropdownIndicator`: present fields keep their values. -/
def SelectDropdownIndicator.Pres (a b : SelectDropdownIndicator) : Prop :=
  presOpt a.padding b.padding

/-- Field preservation on `SelectIndicatorSeparator`: present fields keep their values. -/
def SelectIndicatorSeparator.Pres (a b : SelectIndicatorSeparator) : Prop :=
  presOpt a.bg b.bg

/-- Field preservation on `SelectComp`: present fields keep their values. -/
def SelectComp.Pres (a b : SelectComp) : Prop :=
  presSub SelectDefault.Pres a.default b.default ∧
  presSub SelectControl.Pres a.control b.control ∧
  presSub SelectMenu.Pres a.menu b.menu ∧
  presSub SelectOption.Pres a.option b.option ∧
  presSub SelectSingleValue.Pres a.singleValue b.singleValue ∧
  presSub SelectInput.Pres a.input b.input ∧
  presSub SelectGroupHeading.Pres a.groupHeading b.groupHeading ∧
  presSub SelectDropdownIndicator.Pres a.dropdownIndicator b.dropdownIndicator ∧
  presSub SelectIndicatorSeparator.Pres a.indicatorSeparator b.indicatorSeparator

/-- Field preservation on `ToastDefault`: present fields keep their values. -/
def ToastDefault.Pres (a b : ToastDefault) : Prop :=
  presOpt a.bg b.bg ∧
  presOpt a.color b.color ∧
  presOpt a.borderRadius b.borderRadius ∧
  presOpt a.fontFamily b.fontFamily ∧
  presOpt a.fontSize b.fontSize ∧
  presOpt a.cursor b.cursor

/-- Field preservation on `ToastProgress`: present fields keep their values. -/
def ToastProgress.Pres (a b : ToastProgress) : Prop :=
  presOpt a.bg b.bg

/-- Field preservation on `ToastCloseButton`: present fields keep their values. -/
def ToastCloseButton.Pres (a b : ToastCloseButton) : Prop :=
  presOpt a.color b.color

/-- Field preservation on `Toast`: present fields keep their values. -/
def Toast.Pres (a b : Toast) : Prop :=
  presSub ToastDefault.Pres a.default b.default ∧
  presSub ToastProgress.Pres a.progress b.progress ∧
  presSub ToastCloseButton.Pres a.closeButton b.closeButton

/-- Field preservation on `TooltipComp`: present fields keep their values. -/
def TooltipComp.Pres (a b : TooltipComp) : Prop :=
  presOpt a.bg b.bg ∧
  presOpt a.color b.color ∧
  presOpt a.bgSecondary b.bgSecondary ∧
  presOpt a.borderRadius b.borderRadius ∧
  presOpt a.boxShadow b.boxShadow ∧
  presOpt a.fontSize b.fontSize

/-- Field preservation on `MarkdownDefault`: present fields keep their values. -/
def MarkdownDefault.Pres (a b : MarkdownDefault) : Prop :=
  presOpt a.bg b.bg ∧
  presOpt a.color b.color ∧
  presOpt a.fontFamily b.fontFamily ∧
  presOpt a.fontSize b.fontSize

/-- Field preservation on `MarkdownCode`: present fields keep their values. -/
def MarkdownCode.Pres (a b : MarkdownCode) : Prop :=
  presOpt a.bg b.bg ∧
  presOpt a.color b.color ∧
  presOpt a.borderRadius b.borderRadius ∧
  presOpt a.fontFamily b.fontFamily ∧
  presOpt a.fontSize b.fontSize

/-- Field preservation on `Markdown`: present fields keep their values. -/
def Markdown.Pres (a b : Markdown) : Prop :=
  presSub MarkdownDefault.Pres a.default b.default ∧
  presSub MarkdownCode.Pres a.code b.code

/-- Field preservation on `SidebarLeftDefault`: present fields keep their values. -/
def SidebarLeftDefault.Pres (a b : SidebarLeftDefault) : Prop :=
  presOpt a.bg b.bg ∧
  presOpt a.borderRight b.borderRight

/-- Field preservation on `SidebarIconButtonSelected`: present fields keep their values. -/
def SidebarIconButtonSelected.Pres (a b : SidebarIconButtonSelected) : Prop :=
  presOpt a.bg b.bg ∧
  presOpt a.borderLeft b.borderLeft ∧
  presOpt a.borderRight b.borderRight

/-- Field preservation on `SidebarIconButton`: present fields keep their values. -/
def SidebarIconButton.Pres (a b : SidebarIconButton) : Prop :=
  presOpt a.default b.default ∧
  presSub SidebarIconButtonSelected.Pres a.selected b.selected

/-- Field preservation on `SidebarLeft`: present fields keep their values. -/
def SidebarLeft.Pres (a b : SidebarLeft) : Prop :=
  presSub SidebarLeftDefault.Pres a.default b.default ∧
  presSub SidebarIconButton.Pres a.iconButton b.iconButton

/-- Field preservation on `SidebarRightDefault`: present fields keep their values. -/
def SidebarRightDefault.Pres (a b : SidebarRightDefault) : Prop :=
  presOpt a.bg b.bg ∧
  presOpt a.otherBg b.otherBg ∧
  presOpt a.borderRight b.borderRight

/-- Field preservation on `SidebarRightTitle`: present fields keep their values. -/
def SidebarRightTitle.Pres (a b : SidebarRightTitle) : Prop :=
  presOpt a.borderBottom b.borderBottom ∧
  presOpt a.color b.color ∧
  presOpt a.fontSize b.fontSize

/-- Field preservation on `SidebarRight`: present fields keep their values. -/
def SidebarRight.Pres (a b : SidebarRight) : Prop :=
  presSub SidebarRightDefault.Pres a.default b.default ∧
  presSub SidebarRightTitle.Pres a.title b.title

/-- Field preservation on `Sidebar`: present fields keep their values. -/
def Sidebar.Pres (a b : Sidebar) : Prop :=
  presOpt a.default b.default ∧
  presSub SidebarLeft.Pres a.left b.left ∧
  presSub SidebarRight.Pres a.right b.right

/-- Field preservation on `HomeDefault`: present fields keep their values. -/
def HomeDefault.Pres (a b : HomeDefault) : Prop :=
  presOpt a.bg b.bg ∧
  presOpt a.color b.color ∧
  presOpt a.height b.height ∧
  presOpt a.padding b.padding

/-- Field preservation on `HomeTitle`: present fields keep their values. -/
def HomeTitle.Pres (a b : HomeTitle) : Prop :=
  presOpt a.color b.color ∧
  presOpt a.padding b.padding ∧
  presOpt a.fontWeight b.fontWeight ∧
  presOpt a.fontSize b.fontSize ∧
  presOpt a.textAlign b.textAlign

/-- Field preservation on `ResourcesDefault`: present fields keep their values. -/
def ResourcesDefault.Pres (a b : ResourcesDefault) : Prop :=
  presOpt a.maxWidth b.maxWidth

/-- Field preservation on `SectionTitle`: present fields keep their values. -/
def SectionTitle.Pres (a b : SectionTitle) : Prop :=
  presOpt a.marginBottom b.marginBottom ∧
  presOpt a.fontWeight b.fontWeight ∧
  presOpt a.fontSize b.fontSize

/-- Field preservation on `ResourceCardDefault`: present fields keep their values. -/
def ResourceCardDefault.Pres (a b : ResourceCardDefault) : Prop :=
  presOpt a.bg b.bg ∧
  presOpt a.color b.color ∧
  presOpt a.border b.border ∧
  presOpt a.borderRadius b.borderRadius ∧
  presOpt a.width b.width ∧
  presOpt a.height b.height ∧
  presOpt a.padding b.padding ∧
  presOpt a.marginRight b.marginRight ∧
  presOpt a.marginBottom b.marginBottom

/-- Field preservation on `ResourceCardImage`: present fields keep their values. -/
def ResourceCardImage.Pres (a b : ResourceCardImage) : Prop :=
  presOpt a.width b.width ∧
  presOpt a.height b.height ∧
  presOpt a.marginRight b.marginRight

/-- Field preservation on `ResourceCardTitle`: present fields keep their values. -/
def ResourceCardTitle.Pres (a b : ResourceCardTitle) : Prop :=
  presOpt a.display b.display ∧
  presOpt a.alignItems b.alignItems ∧
  presOpt a.height b.height ∧
  presOpt a.fontWeight b.fontWeight ∧
  presOpt a.fontSize b.fontSize

/-- Field preservation on `ResourceCardDescription`: present fields keep their values. -/
def ResourceCardDescription.Pres (a b : ResourceCardDescription) : Prop :=
  presOpt a.color b.color ∧
  presOpt a.height b.height

/-- Field preservation on `ResourceCardButton`: present fields keep their values. -/
def ResourceCardButton.Pres (a b : ResourceCardButton) : Prop :=
  presOpt a.width b.width

/-- Field preservation on `ResourceCard`: present fields keep their values. -/
def ResourceCard.Pres (a b : ResourceCard) : Prop :=
  presSub ResourceCardDefault.Pres a.default b.default ∧
  presSub ResourceCardImage.Pres a.image b.image ∧
  presSub ResourceCardTitle.Pres a.title b.title ∧
  presSub ResourceCardDescription.Pres a.description b.description ∧
  presSub ResourceCardButton.Pres a.button b.button

/-- Field preservation on `HomeResources`: present fields keep their values. -/
def HomeResources.Pres (a b : HomeResources) : Prop :=
  presSub ResourcesDefault.Pres a.default b.default ∧
  presSub SectionTitle.Pres a.title b.title ∧
  presSub ResourceCard.Pres a.card b.card

/-- Field preservation on `HomeTutorialsDefault`: present fields keep their values. -/
def HomeTutorialsDefault.Pres (a b : HomeTutorialsDefault) : Prop :=
  presOpt a.minWidth b.minWidth ∧
  presOpt a.maxWidth b.maxWidth

/-- Field preservation on `HomeTutorialCardHover`: present fields keep their values. -/
def HomeTutorialCardHover.Pres (a b : HomeTutorialCardHover) : Prop :=
  presOpt a.bg b.bg

/-- Field preservation on `HomeTutorialCard`: present fields keep their values. -/
def HomeTutorialCard.Pres (a b : HomeTutorialCard) : Prop :=
  presOpt a.bg b.bg ∧
  presOpt a.color b.color ∧
  presOpt a.border b.border ∧
  presOpt a.borderRadius b.borderRadius ∧
  presOpt a.padding b.padding ∧
  presOpt a.marginBottom b.marginBottom ∧
  presOpt a.transition b.transition ∧
  presOpt a.display b.display ∧
  presOpt a.alignItems b.alignItems ∧
  presSub HomeTutorialCardHover.Pres a.hover b.hover

/-- Field preservation on `HomeTutorials`: present fields keep their values. -/
def HomeTutorials.Pres (a b : HomeTutorials) : Prop :=
  presSub HomeTutorialsDefault.Pres a.default b.default ∧
  presSub SectionTitle.Pres a.title b.title ∧
  presSub HomeTutorialCard.Pres a.card b.card

/-- Field preservation on `Home`: present fields keep their values. -/
def Home.Pres (a b : Home) : Prop :=
  presSub HomeDefault.Pres a.default b.default ∧
  presSub HomeTitle.Pres a.title b.title ∧
  presSub HomeResources.Pres a.resources b.resources ∧
  presSub HomeTutorials.Pres a.tutorials b.tutorials

/-- Field preservation on `TerminalDefault`: present fields keep their values. -/
def TerminalDefault.Pres (a b : TerminalDefault) : Prop :=
  presOpt a.bg b.bg ∧
  presOpt a.color b.color ∧
  presOpt a.borderTop b.borderTop

/-- Field preservation on `XtermCursor`: present fields keep their values. -/
def XtermCursor.Pres (a b : XtermCursor) : Prop :=
  presOpt a.color b.color ∧
  presOpt a.accentColor b.accentColor

/-- Field preservation on `Xterm`: present fields keep their values. -/
def Xterm.Pres (a b : Xterm) : Prop :=
  presOpt a.textPrimary b.textPrimary ∧
  presOpt a.textSecondary b.textSecondary ∧
  presOpt a.primary b.primary ∧
  presOpt a.secondary b.secondary ∧
  presOpt a.success b.success ∧
  presOpt a.error b.error ∧
  presOpt a.warning b.warning ∧
  presOpt a.info b.info ∧
  presOpt a.selectionBg b.selectionBg ∧
  presSub XtermCursor.Pres a.cursor b.cursor

/-- Field preservation on `TerminalComp`: present fields keep their values. -/
def TerminalComp.Pres (a b : TerminalComp) : Prop :=
  presSub TerminalDefault.Pres a.default b.default ∧
  presSub Xterm.Pres a.xterm b.xterm

/-- Field preservation on `BottomDefault`: present fields keep their values. -/
def BottomDefault.Pres (a b : BottomDefault) : Prop :=
  presOpt a.bg b.bg ∧
  presOpt a.color b.color ∧
  presOpt a.padding b.padding ∧
  presOpt a.fontSize b.fontSize

/-- Field preservation on `BottomConnectHover`: present fields keep their values. -/
def BottomConnectHover.Pres (a b : BottomConnectHover) : Prop :=
  presOpt a.bg b.bg

/-- Field preservation on `BottomConnect`: present fields keep their values. -/
def BottomConnect.Pres (a b : BottomConnect) : Prop :=
  presOpt a.border b.border ∧
  presOpt a.padding b.padding ∧
  presSub BottomConnectHover.Pres a.hover b.hover

/-- Field preservation on `Bottom`: present fields keep their values. -/
def Bottom.Pres (a b : Bottom) : Prop :=
  presSub BottomDefault.Pres a.default b.default ∧
  presSub BottomConnect.Pres a.connect b.connect ∧
  presOpt a.endpoint b.endpoint ∧
  presOpt a.address b.address ∧
  presOpt a.balance b.balance

/-- Field preservation on `TutorialDefault`: present fields keep their values. -/
def TutorialDefault.Pres (a b : TutorialDefault) : Prop :=
  presOpt a.bg b.bg ∧
  presOpt a.color b.color ∧
  presOpt a.flex b.flex ∧
  presOpt a.overflow b.overflow ∧
  presOpt a.opacity b.opacity ∧
  presOpt a.transition b.transition

/-- Field preservation on `TutorialAboutPage`: present fields keep their values. -/
def TutorialAboutPage.Pres (a b : TutorialAboutPage) : Prop :=
  presOpt a.bg b.bg ∧
  presOpt a.borderBottomRightRadius b.borderBottomRightRadius ∧
  presOpt a.borderTopRightRadius b.borderTopRightRadius ∧
  presOpt a.fontFamily b.fontFamily ∧
  presOpt a.fontSize b.fontSize ∧
  presOpt a.padding b.padding ∧
  presOpt a.maxWidth b.maxWidth

/-- Field preservation on `TutorialPage`: present fields keep their values. -/
def TutorialPage.Pres (a b : TutorialPage) : Prop :=
  presOpt a.bg b.bg ∧
  presOpt a.fontFamily b.fontFamily ∧
  presOpt a.fontSize b.fontSize ∧
  presOpt a.padding b.padding

/-- Field preservation on `Tutorial`: present fields keep their values. -/
def Tutorial.Pres (a b : Tutorial) : Prop :=
  presSub TutorialDefault.Pres a.default b.default ∧
  presSub TutorialAboutPage.Pres a.aboutPage b.aboutPage ∧
  presSub TutorialPage.Pres a.tutorialPage b.tutorialPage

/-- Field preservation on `TutorialsDefault`: present fields keep their values. -/
def TutorialsDefault.Pres (a b : TutorialsDefault) : Prop :=
  presOpt a.bg b.bg ∧
  presOpt a.color b.color ∧
  presOpt a.fontFamily b.fontFamily ∧
  presOpt a.fontSize b.fontSize

/-- Field preservation on `TutorialsCardDefault`: present fields keep their values. -/
def TutorialsCardDefault.Pres (a b : TutorialsCardDefault) : Prop :=
  presOpt a.bg b.bg ∧
  presOpt a.color b.color ∧
  presOpt a.border b.border ∧
  presOpt a.borderRadius b.borderRadius ∧
  presOpt a.boxShadow b.boxShadow ∧
  presOpt a.transition b.transition

/-- Field preservation on `TutorialsCardInfoDefault`: present fields keep their values. -/
def TutorialsCardInfoDefault.Pres (a b : TutorialsCardInfoDefault) : Prop :=
  presOpt a.padding b.padding

/-- Field preservation on `TutorialsCardInfoName`: present fields keep their values. -/
def TutorialsCardInfoName.Pres (a b : TutorialsCardInfoName) : Prop :=
  presOpt a.fontWeight b.fontWeight

/-- Field preservation on `TutorialsCardInfoDescription`: present fields keep their values. -/
def TutorialsCardInfoDescription.Pres (a b : TutorialsCardInfoDescription) : Prop :=
  presOpt a.marginTop b.marginTop ∧
  presOpt a.color b.color

/-- Field preservation on `TutorialsCardInfoCategory`: present fields keep their values. -/
def TutorialsCardInfoCategory.Pres (a b : TutorialsCardInfoCategory) : Prop :=
  presOpt a.padding b.padding ∧
  presOpt a.bg b.bg ∧
  presOpt a.color b.color ∧
  presOpt a.fontSize b.fontSize ∧
  presOpt a.fontWeight b.fontWeight ∧
  presOpt a.borderRadius b.borderRadius ∧
  presOpt a.boxShadow b.boxShadow ∧
  presOpt a.width b.width

/-- Field preservation on `TutorialsCardInfo`: present fields keep their values. -/
def TutorialsCardInfo.Pres (a b : TutorialsCardInfo) : Prop :=
  presSub TutorialsCardInfoDefault.Pres a.default b.default ∧
  presSub TutorialsCardInfoName.Pres a.name b.name ∧
  presSub TutorialsCardInfoDescription.Pres a.description b.description ∧
  presSub TutorialsCardInfoCategory.Pres a.category b.category

/-- Field preservation on `TutorialsCard`: present fields keep their values. -/
def TutorialsCard.Pres (a b : TutorialsCard) : Prop :=
  presSub TutorialsCardDefault.Pres a.default b.default ∧
  presOpt a.gradient b.gradient ∧
  presSub TutorialsCardInfo.Pres a.info b.info

/-- Field preservation on `TutorialsComp`: present fields keep their values. -/
def TutorialsComp.Pres (a b : TutorialsComp) : Prop :=
  presSub TutorialsDefault.Pres a.default b.default ∧
  presSub TutorialsCard.Pres a.card b.card

/-- Field preservation on `Components`: present fields keep their values. -/
def Components.Pres (a b : Components) : Prop :=
  presSub Skeleton.Pres a.skeleton b.skeleton ∧
  presSub Button.Pres a.button b.button ∧
  presSub Menu.Pres a.menu b.menu ∧
  presSub InputComp.Pres a.input b.input ∧
  presSub SelectComp.Pres a.select b.select ∧
  presSub Toast.Pres a.toast b.toast ∧
  presSub TooltipComp.Pres a.tooltip b.tooltip ∧
  presSub Markdown.Pres a.markdown b.markdown ∧
  presSub Sidebar.Pres a.sidebar b.sidebar ∧
  presSub Home.Pres a.home b.home ∧
  presSub TerminalComp.Pres a.terminal b.terminal ∧
  presSub Bottom.Pres a.bottom b.bottom ∧
  presSub Tutorial.Pres a.tutorial b.tutorial ∧
  presSub TutorialsComp.Pres a.tutorials b.tutorials

/-- Field preservation on `Theme`: present fields keep their values. -/
def Theme.Pres (a b : Theme) : Prop :=
  a.name = b.name ∧
  a.isDark = b.isDark ∧
  Colors.Pres a.colors b.colors ∧
  presSub ThemeFont.Pres a.font b.font ∧
  presOpt a.transparency b.transparency ∧
  presOpt a.borderRadius b.borderRadius ∧
  presOpt a.boxShadow b.boxShadow ∧
  presOpt a.scrollbar b.scrollbar ∧
  presOpt a.transition b.transition ∧
  presSub Components.Pres a.components b.components

/-! ### Concrete instances used in witnesses and counterexamples -/

/-- A handler that returns its parsed-arguments object, making the binding
observable in the execution result. -/
def echoRun : String → ParsedArgs → Except String ParsedArgs := fun _ p => .ok p

/-- Subcommand `bar` of the `foo bar baz` scenario: one required argument. -/
def c1Bar : Cmd ParsedArgs := .mk "bar" "deploy to target" [] (some [⟨"target", false⟩]) (some echoRun) none

/-- Top-level command `foo` of the `foo bar baz` scenario. -/
def c1Foo : Cmd ParsedArgs := .mk "foo" "top-level" [] none none (some [c1Bar])

/-- Command tree of the `foo bar baz` scenario. -/
def c1Cmds : List (String × Cmd ParsedArgs) := [("foo", c1Foo)]

/-- A command with one required and one optional positional argument. -/
def c3Cmd : Cmd ParsedArgs := .mk "pay" "make a payment" [] (some [⟨"amount", false⟩, ⟨"memo", true⟩]) (some echoRun) none

/-- Command tree containing `c3Cmd`. -/
def c3Cmds : List (String × Cmd ParsedArgs) := [("pay", c3Cmd)]

/-- Children of the usage-block scenario (alphabetic names only). -/
def c4Kids : List (Cmd ParsedArgs) :=
  [.mk "x" "x desc" [] none none none, .mk "b" "b desc" [] none none none]

/-- A command with subcommands and no handler. -/
def c4Cmd : Cmd ParsedArgs := .mk "top" "top desc" [] none none (some c4Kids)

/-- Command tree containing `c4Cmd`. -/
def c4Cmds : List (String × Cmd ParsedArgs) := [("top", c4Cmd)]

/-- Children of the sort counterexample, a non-alphabetic name listed first. -/
def cexKids : List (Cmd ParsedArgs) :=
  [.mk "1" "one" [] none none none, .mk "a" "two" [] none none none]

/-- A command with subcommands whose initial ordering defeats the sort. -/
def cexCmd : Cmd ParsedArgs := .mk "c" "d" [] none none (some cexKids)

/-- Command tree containing `cexCmd`. -/
def cexCmds : List (String × Cmd ParsedArgs) := [("c", cexCmd)]

/-- A command with a single optional argument. -/
def c5Cmd : Cmd ParsedArgs := .mk "opt" "optional arg" [] (some [⟨"maybe", true⟩]) (some echoRun) none

/-- Command tree containing `c5Cmd`. -/
def c5Cmds : List (String × Cmd ParsedArgs) := [("opt", c5Cmd)]

/-- A one-command tree used for the blank-input counterexample. -/
def blankCmds : List (String × Cmd ParsedArgs) := [("c", .mk "c" "d" [] none none none)]

/-! ### Lemmas about the dispatcher -/

theorem hasSub_of_findSub {subs : Option (List (Cmd ρ))} {t : String} {c : Cmd ρ}
    (h : findSub subs t = some c) : hasSub subs t = true := by
  unfold findSub at h
  unfold hasSub
  rcases List.find?_some h with hp
  exact List.any_of_mem (List.mem_of_find?_eq_some h) hp

/-- The terminal phase emits either no event (error or usage), or exactly the
finish event together with an `ok (some r)` result. -/
theorem runPhase_events (input key : String) (pre : List String) (cmd1 : Cmd ρ)
    (args1 : List String) :
    (∃ r, runPhase input key pre cmd1 args1 =
        (.ok (some r), [.finish (getEventNameFinish key) r], [])) ∨
      ((runPhase input key pre cmd1 args1).2.1 = [] ∧
        ∀ r, (runPhase input key pre cmd1 args1).1 ≠ .ok (some r)) := by
  rcases hr : cmd1.run with _ | run
  · rcases hs : cmd1.subcommands with _ | subs
    · right; simp [runPhase, hr, hs]
    · rcases hf : formatCmdList (subs.map (fun c => (c.name, c.description))) with e | fmt
      · right; simp [runPhase, hr, hs, hf]
      · right; simp [runPhase, hr, hs, hf]
  · rcases hp : parseArgs (cmd1.args.getD []) args1 with e | parsed
    · right; simp [runPhase, hr, hp]
    · rcases hrun : run input parsed with msg | r
      · right; simp [runPhase, hr, hp, hrun]
      · left; exact ⟨r, by simp [runPhase, hr, hp, hrun]⟩

/-- The token-walk loop emits either no event, or exactly the finish event
together with an `ok (some r)` result. -/
theorem execLoop_events (input key : String) :
    ∀ (rest pre : List String) (cmd : Cmd ρ) (args : List String),
      (∃ r, execLoop input key pre rest cmd args =
          (.ok (some r), [.finish (getEventNameFinish key) r], [])) ∨
        ((execLoop input key pre rest cmd args).2.1 = [] ∧
          ∀ r, (execLoop input key pre rest cmd args).1 ≠ .ok (some r)) := by
  intro rest
  induction rest with
  | nil => intro pre cmd args; exact .inr ⟨rfl, by simp [execLoop]⟩
  | cons token rest ih =>
    intro pre cmd args
    rcases hstep : stepArgs ((findSub cmd.subcommands token).getD cmd) rest args with e | args1
    · right; simp [execLoop, hstep]
    · by_cases hpc : ((findSub cmd.subcommands token).getD cmd).preCheck.all (fun b => b) = true
      · by_cases hcont : (!rest.isEmpty && args1.isEmpty) = true
        · have h := ih (pre ++ [token]) ((findSub cmd.subcommands token).getD cmd) args1
          rw [execLoop, hstep]
          simpa [hpc, hcont] using h
        · have hcont' : (!rest.isEmpty && args1.isEmpty) = false := by
            simpa using hcont
          have h := runPhase_events input key pre
            ((findSub cmd.subcommands token).getD cmd) args1
          rw [execLoop, hstep]
          simpa [hpc, hcont'] using h
      · have hpc' : ((findSub cmd.subcommands token).getD cmd).preCheck.all (fun b => b) = false := by
          simpa using hpc
        right
        rw [execLoop, hstep]
        simp [hpc']

/-! ### Lemmas about sorting and formatting -/

theorem jsInsert_perm (c : α → α → Int) (x : α) (l : List α) :
    (jsInsert c x l).Perm (x :: l) := by
  induction l with
  | nil => simp [jsInsert]
  | cons y ys ih =>
    rw [jsInsert]
    by_cases h : c x y ≤ 0
    · simp [h]
    · simp only [if_neg h]
      exact (ih.cons y).trans (List.Perm.swap x y ys)

theorem jsSortBy_perm (c : α → α → Int) (l : List α) : (jsSortBy c l).Perm l := by
  induction l with
  | nil => simp [jsSortBy]
  | cons x xs ih =>
    have h := jsInsert_perm c x (jsSortBy c xs)
    exact h.trans (ih.cons x)

theorem namePad_ok {name : String} (h : name.length ≤ 24) :
    namePad name = .ok (String.mk (List.replicate (25 - name.length) ' ')) := by
  unfold namePad
  rw [if_neg (by omega), if_neg (by omega)]

theorem namePad_error {name : String} (h : 25 ≤ name.length) :
    ∃ e, namePad name = .error e := by
  unfold namePad
  by_cases h26 : name.length ≥ 26
  · exact ⟨_, by rw [if_pos h26]⟩
  · exact ⟨_, by rw [if_neg h26, if_pos (by omega)]⟩

theorem formatEntries_ok {l : List (String × String)} (h : ∀ e ∈ l, e.1.length ≤ 24) :
    ∀ acc, ∃ s, formatEntries l acc = .ok s := by
  induction l with
  | nil => intro acc; exact ⟨acc, rfl⟩
  | cons e rest ih =>
    intro acc
    rw [formatEntries, namePad_ok (h e (by simp))]
    exact ih (fun x hx => h x (by simp [hx])) _

theorem formatEntries_error {e : String × String} (h : 25 ≤ e.1.length) :
    ∀ {l : List (String × String)}, e ∈ l → ∀ acc, ∃ er, formatEntries l acc = .error er := by
  intro l
  induction l with
  | nil => intro hmem; cases hmem
  | cons x rest ih =>
    intro hmem acc
    rcases List.mem_cons.mp hmem with rfl | hmem'
    · obtain ⟨er, her⟩ := namePad_error h
      exact ⟨er, by rw [formatEntries, her]⟩
    · by_cases hx : x.1.length ≤ 24
      · rw [formatEntries, namePad_ok hx]
        exact ih hmem' _
      · obtain ⟨er, her⟩ := @namePad_error x.1 (by omega)
        exact ⟨er, by rw [formatEntries, her]⟩

theorem formatCmdList_ok {l : List (String × String)} (h : ∀ e ∈ l, e.1.length ≤ 24) :
    ∃ s, formatCmdList l = .ok s := by
  unfold formatCmdList
  exact formatEntries_ok (fun e he => h e ((jsSortBy_perm cmdCompare l).mem_iff.mp he)) ""

theorem formatCmdList_error {l : List (String × String)} {e : String × String}
    (hmem : e ∈ l) (h : 25 ≤ e.1.length) : ∃ er, formatCmdList l = .error er := by
  unfold formatCmdList
  exact formatEntries_error h ((jsSortBy_perm cmdCompare l).mem_iff.mpr hmem) ""

/-! ### Lemmas about argument binding -/

theorem parseGo_eq (args : List String) (hne : ∀ tok ∈ args, tok ≠ "") :
    ∀ (rest : List Arg) (i : Nat) (acc : ParsedArgs),
      parseGo args i rest acc =
        match (rest.drop (args.length - i)).find? (fun a => !a.optional) with
        | some a => .error (.argNotSpecified a.name)
        | none => .ok (buildAcc args i rest acc) := by
  intro rest
  induction rest with
  | nil => intro i acc; simp [parseGo, buildAcc]
  | cons a rest ih =>
    intro i acc
    by_cases hi : i < args.length
    · obtain ⟨tok, htok⟩ : ∃ tok, args[i]? = some tok :=
        ⟨args[i], List.getElem?_eq_getElem hi⟩
      have htokne : tok ≠ "" := hne tok (by
        have := List.getElem?_mem htok
        exact this)
      have hcond : (args[i]?.getD "" == "") = false := by
        rw [htok]
        simpa [Option.getD] using htokne
      rw [parseGo, hcond]
      simp only [Bool.false_and, Bool.false_eq_true, if_false]
      rw [ih (i + 1) (jsSet acc a.name args[i]?), buildAcc]
      have hdrop : (a :: rest).drop (args.length - i) = rest.drop (args.length - (i + 1)) := by
        have h1 : args.length - i = (args.length - (i + 1)) + 1 := by omega
        rw [h1, List.drop_succ_cons]
      rw [hdrop]
    · have hnone : args[i]? = none := by
        rw [List.getElem?_eq_none]
        omega
      have hdrop0 : args.length - i = 0 := by omega
      rw [parseGo, hnone]
      by_cases hopt : a.optional
      · simp only [hopt, Bool.not_true, Bool.and_false, Bool.false_eq_true, if_false]
        rw [ih (i + 1) (jsSet acc a.name none), buildAcc, hnone]
        have hdrop1 : args.length - (i + 1) = 0 := by omega
        rw [hdrop0, hdrop1, List.drop_zero, List.drop_zero, List.find?_cons]
        simp [hopt]
      · have hopt' : a.optional = false := by simpa using hopt
        simp only [Option.getD_none, hopt', Bool.not_false, Bool.and_true]
        rw [if_pos (by rfl)]
        rw [hdrop0, List.drop_zero, List.find?_cons]
        simp [hopt']

theorem parseArgs_eq {args : List String} (hne : ∀ tok ∈ args, tok ≠ "")
    (specs : List Arg) :
    parseArgs specs args =
      match firstUnmet specs args.length with
      | some a => .error (.argNotSpecified a.name)
      | none => .ok (buildAcc args 0 specs []) := by
  unfold parseArgs firstUnmet
  rw [parseGo_eq args hne specs 0 []]
  simp

theorem jsSet_mem_of_ne {m : ParsedArgs} {p : String × Option String} (hp : p ∈ m)
    (k : String) (v : Option String) (hk : p.1 ≠ k) : p ∈ jsSet m k v := by
  unfold jsSet
  by_cases hany : m.any (fun q => q.1 == k)
  · rw [if_pos hany]
    refine List.mem_map.mpr ⟨p, hp, ?_⟩
    simp [beq_eq_false_iff_ne.mpr hk]
  · rw [if_neg hany]
    exact List.mem_append_left _ hp

theorem jsSet_self_mem (m : ParsedArgs) (k : String) (v : Option String)
    (hfresh : ∀ q ∈ m, q.1 ≠ k) : (k, v) ∈ jsSet m k v := by
  unfold jsSet
  have hany : m.any (fun q => q.1 == k) = false := by
    simp only [List.any_eq_false]
    intro q hq
    simpa using hfresh q hq
  rw [hany]
  simp

theorem jsSet_mem_cases {m : ParsedArgs} {k : String} {v : Option String}
    {q : String × Option String} (h : q ∈ jsSet m k v) : q ∈ m ∨ q = (k, v) := by
  unfold jsSet at h
  by_cases hany : m.any (fun p => p.1 == k)
  · rw [if_pos hany] at h
    obtain ⟨p, hp, hpq⟩ := List.mem_map.mp h
    by_cases hpk : p.1 == k
    · right; rw [if_pos hpk] at hpq; exact hpq.symm
    · left; rw [if_neg hpk] at hpq; exact hpq ▸ hp
  · rw [if_neg hany] at h
    rcases List.mem_append.mp h with h | h
    · exact .inl h
    · right; simpa using h

theorem buildAcc_mem_preserved (args : List String) :
    ∀ (rest : List Arg) (i : Nat) (acc : ParsedArgs) (p : String × Option String),
      p ∈ acc → (∀ a ∈ rest, a.name ≠ p.1) → p ∈ buildAcc args i rest acc := by
  intro rest
  induction rest with
  | nil => intro i acc p hp _; simpa [buildAcc] using hp
  | cons a rest ih =>
    intro i acc p hp hdisj
    rw [buildAcc]
    refine ih (i + 1) _ p ?_ (fun b hb => hdisj b (by simp [hb]))
    exact jsSet_mem_of_ne hp a.name args[i]? (fun h => hdisj a (by simp) h.symm)

theorem buildAcc_unmet_mem (args : List String) :
    ∀ (rest : List Arg) (i : Nat) (acc : ParsedArgs) (a : Arg),
      args.length ≤ i → a ∈ rest → (rest.map Arg.name).Nodup →
      (∀ q ∈ acc, q.1 ≠ a.name) →
      (a.name, (none : Option String)) ∈ buildAcc args i rest acc := by
  intro rest
  induction rest with
  | nil => intro i acc a _ hmem; cases hmem
  | cons b rest ih =>
    intro i acc a hle hmem hnodup hfresh
    have hnone : args[i]? = none := by
      rw [List.getElem?_eq_none]; omega
    rcases List.mem_cons.mp hmem with rfl | hmem'
    · rw [buildAcc, hnone]
      refine buildAcc_mem_preserved args rest (i + 1) _ (a.name, none) ?_ ?_
      · exact jsSet_self_mem acc a.name none hfresh
      · intro bb hbb
        intro hcontra
        have h2 : bb.name = a.name := hcontra
        exact (List.nodup_cons.mp hnodup).1 (h2 ▸ List.mem_map_of_mem Arg.name hbb)
    · rw [buildAcc]
      refine ih (i + 1) _ a (by omega) hmem' (List.nodup_cons.mp hnodup).2 ?_
      intro q hq
      rcases jsSet_mem_cases hq with h | h
      · exact hfresh q h
      · rw [h]
        intro hcontra
        have h2 : a.name = b.name := by simpa using hcontra.symm
        exact (List.nodup_cons.mp hnodup).1 (h2 ▸ List.mem_map_of_mem Arg.name hmem')

theorem buildAcc_unmet_mem_drop (args : List String) :
    ∀ (rest : List Arg) (i : Nat) (acc : ParsedArgs) (a : Arg),
      a ∈ rest.drop (args.length - i) → (rest.map Arg.name).Nodup →
      (∀ q ∈ acc, q.1 ≠ a.name) →
      (a.name, (none : Option String)) ∈ buildAcc args i rest acc := by
  intro rest
  induction rest with
  | nil => intro i acc a hmem; simp at hmem
  | cons b rest ih =>
    intro i acc a hmem hnodup hfresh
    by_cases hi : i < args.length
    · have hdrop : (b :: rest).drop (args.length - i) = rest.drop (args.length - (i + 1)) := by
        have h1 : args.length - i = (args.length - (i + 1)) + 1 := by omega
        rw [h1, List.drop_succ_cons]
      rw [hdrop] at hmem
      rw [buildAcc]
      refine ih (i + 1) _ a hmem (List.nodup_cons.mp hnodup).2 ?_
      intro q hq
      rcases jsSet_mem_cases hq with h | h
      · exact hfresh q h
      · rw [h]
        intro hcontra
        have h2 : a.name = b.name := by simpa using hcontra.symm
        have hmem' : a ∈ rest := List.mem_of_mem_drop hmem
        exact (List.nodup_cons.mp hnodup).1 (h2 ▸ List.mem_map_of_mem Arg.name hmem')
    · have hdrop0 : args.length - i = 0 := by omega
      rw [hdrop0, List.drop_zero] at hmem
      exact buildAcc_unmet_mem args (b :: rest) i acc a (by omega) hmem hnodup hfresh

/-! ### Claim theorems -/

/-- C10: `formatCmdList` is total only for command names of at most 24
characters.  Any list containing an entry whose name has 25 or more
characters makes it throw instead of returning a formatted string — the
padding computes `25 - length` and reduces an empty array without an initial
value for a name of exactly 25 characters, and constructs a negative-length
array for a longer one — while a list whose names all have at most 24
characters always formats successfully. -/
theorem formatCmdList_totality :
    (∀ (l : List (String × String)) (e : String × String), e ∈ l → 25 ≤ e.1.length →
      ∃ er, formatCmdList l = .error er) ∧
    (∀ name : String, name.length = 25 → namePad name = .error .emptyArrayReduce) ∧
    (∀ name : String, 26 ≤ name.length →
      namePad name = .error (.invalidArrayLength (25 - (name.length : Int)))) ∧
    (∀ l : List (String × String), (∀ e ∈ l, e.1.length ≤ 24) →
      ∃ s, formatCmdList l = .ok s) := by
  refine ⟨fun _ _ hmem h => formatCmdList_error hmem h, ?_, ?_, fun _ h => formatCmdList_ok h⟩
  · intro name h
    unfold namePad
    rw [if_neg (by omega), if_pos h]
  · intro name h
    unfold namePad
    rw [if_pos h]

/-- Witness for C10 at a 25-character name and at a short one. -/
theorem formatCmdList_totality_witness :
    (((("abcdefghijklmnopqrstuvwxy" : String), ("d" : String)) ∈
        [(("abcdefghijklmnopqrstuvwxy" : String), ("d" : String))]) ∧
      25 ≤ ("abcdefghijklmnopqrstuvwxy" : String).length ∧
      (∀ e ∈ [(("help" : String), ("h" : String))], e.1.length ≤ 24)) ∧
    (∃ er, formatCmdList [("abcdefghijklmnopqrstuvwxy", "d")] = .error er) ∧
    (∃ s, formatCmdList [("help", "h")] = .ok s) :=
  ⟨⟨by decide, by decide, by decide⟩,
    formatCmdList_totality.1 [("abcdefghijklmnopqrstuvwxy", "d")]
      ("abcdefghijklmnopqrstuvwxy", "d") (by decide) (by decide),
    formatCmdList_totality.2.2.2 [("help", "h")] (by decide)⟩

/-- C4 (amended): for a command with subcommands and no handler — all
subcommand names of at most 24 characters, pre-checks passing, no child named
like the command itself — an input line ending at that command logs the usage
block listing every immediate child (the sorted listing is a permutation of
the child list) and terminates without error, without dispatching a finish
event and without invoking any handler.  Alphabetical order with
non-alphabetic names last is not guaranteed for every initial child ordering
(see the counterexample), and a child name of 25 or more characters would
make the listing throw instead. -/
theorem execute_usage_block {cmds : List (String × Cmd ρ)} {input0 n : String}
    {c : Cmd ρ} {subs : List (Cmd ρ)}
    (hsplit : jsSplitOnSpace (jsTrim input0) = [n]) (hn : n ≠ "")
    (hfind : cmds.find? (fun p => p.1 == n) = some (n, c))
    (hrun : c.run = none) (hsubs : c.subcommands = some subs)
    (hself : findSub c.subcommands n = none)
    (hpc : c.preCheck.all (fun b => b) = true)
    (hshort : ∀ s ∈ subs, s.name.length ≤ 24) :
    ∃ fmt, formatCmdList (subs.map (fun s => (s.name, s.description))) = .ok fmt ∧
      execute cmds input0 =
        ⟨.ok none, [.start (getEventNameStart n) (jsTrim input0)], [usageText [] c fmt]⟩ ∧
      (jsSortBy cmdCompare (subs.map (fun s => (s.name, s.description)))).Perm
        (subs.map (fun s => (s.name, s.description))) := by
  obtain ⟨fmt, hfmt⟩ := formatCmdList_ok (l := subs.map (fun s => (s.name, s.description)))
    (by
      intro e he
      obtain ⟨s, hs, rfl⟩ := List.mem_map.mp he
      exact hshort s hs)
  refine ⟨fmt, hfmt, ?_, jsSortBy_perm _ _⟩
  have hn' : (n == "") = false := by simpa using hn
  have hself' : findSub (some subs) n = none := by rw [← hsubs]; exact hself
  have hpc' : (c.preCheck.all fun b => b) = true := hpc
  simp only [execute, hsplit, List.headD, hn', Bool.false_eq_true, if_false, hfind,
    execLoop, hsubs, hself', Option.getD_none, stepArgs, List.head?, hpc', if_true,
    List.isEmpty_nil, Bool.not_true, Bool.false_and, runPhase, hrun, hfmt]

/-- Witness for C4 at the concrete `top` command tree. -/
theorem execute_usage_block_witness :
    jsSplitOnSpace (jsTrim "top") = ["top"] ∧
    (∀ s ∈ c4Kids, s.name.length ≤ 24) ∧
    (∃ fmt, formatCmdList (c4Kids.map (fun s => (s.name, s.description))) = .ok fmt ∧
      execute c4Cmds "top" =
        ⟨.ok none, [.start (getEventNameStart "top") (jsTrim "top")],
          [usageText [] c4Cmd fmt]⟩ ∧
      (jsSortBy cmdCompare (c4Kids.map (fun s => (s.name, s.description)))).Perm
        (c4Kids.map (fun s => (s.name, s.description)))) :=
  ⟨by decide, by decide,
    execute_usage_block (by decide) (by decide) rfl rfl rfl rfl rfl (by decide)⟩

/-- C4 counterexample: with the children initially ordered `1`, `a`, the
usage listing prints the non-alphabetically-named child `1` first, refuting
"sorted alphabetically with non-alphabetically-named entries last for every
initial ordering of the child list". -/
theorem usage_sort_counterexample :
    alphaName "1" = false ∧ alphaName "a" = true ∧
    jsSortBy cmdCompare [(("1" : String), ("one" : String)), ("a", "two")] =
      [("1", "one"), ("a", "two")] ∧
    execute cexCmds "c" =
      ⟨.ok none, [.start "ondidrunstartc" "c"],
        ["\nd\n\nUsage: c <COMMAND>\n\nCommands:\n\n    1" ++
          String.mk (List.replicate 24 ' ') ++ "one\n    a" ++
          String.mk (List.replicate 24 ' ') ++ "two\n"]⟩ :=
  ⟨by decide, by decide, by decide, by decide⟩

/-- C2 (amended): for every input line whose first token (after trimming and
splitting on spaces) is nonempty: if the token matches no top-level command
code name, `execute` fails with the `not found` error and dispatches no
notification; if it resolves, exactly one start notification — keyed by the
command's code name and carrying the trimmed input line — is dispatched, and
a finish notification (carrying the handler's result) is dispatched if and
only if the handler is invoked and completes without throwing, so a dispatch
that errors after resolution and before the handler emits the start
notification only.  A blank input line (empty first token) instead returns
successfully with no notification and no error (see the counterexample). -/
theorem execute_notification_discipline (cmds : List (String × Cmd ρ)) (input0 : String)
    (hne : (jsSplitOnSpace (jsTrim input0)).headD "" ≠ "") :
    (cmds.find? (fun p => p.1 == (jsSplitOnSpace (jsTrim input0)).headD "") = none →
      execute cmds input0 =
        ⟨.error (.notFound ((jsSplitOnSpace (jsTrim input0)).headD "")), [], []⟩) ∧
    (∀ key c, cmds.find? (fun p => p.1 == (jsSplitOnSpace (jsTrim input0)).headD "") = some (key, c) →
      ∃ evs, (execute cmds input0).events = .start (getEventNameStart key) (jsTrim input0) :: evs ∧
        ((∃ r, (execute cmds input0).result = .ok (some r) ∧
            evs = [.finish (getEventNameFinish key) r]) ∨
          (evs = [] ∧ ∀ r, (execute cmds input0).result ≠ .ok (some r)))) := by
  have hne' : ((jsSplitOnSpace (jsTrim input0)).headD "" == "") = false := by simpa using hne
  constructor
  · intro hfind
    simp only [execute, hne', Bool.false_eq_true, if_false, hfind]
  · intro key c hfind
    have h := execLoop_events (jsTrim input0) key (jsSplitOnSpace (jsTrim input0)) [] c []
    refine ⟨(execLoop (jsTrim input0) key [] (jsSplitOnSpace (jsTrim input0)) c []).2.1, ?_, ?_⟩
    · simp only [execute, hne', Bool.false_eq_true, if_false, hfind]
    · rcases h with ⟨r, hr⟩ | ⟨h1, h2⟩
      · left
        refine ⟨r, ?_, by rw [hr]⟩
        simp only [execute, hne', Bool.false_eq_true, if_false, hfind, hr]
      · right
        refine ⟨h1, fun r hcontra => h2 r ?_⟩
        simpa only [execute, hne', Bool.false_eq_true, if_false, hfind] using hcontra

/-- Witness for C2 at the `foo bar baz` scenario. -/
theorem execute_notification_discipline_witness :
    (jsSplitOnSpace (jsTrim "foo bar baz")).headD "" ≠ "" ∧
    ((c1Cmds.find? (fun p => p.1 == (jsSplitOnSpace (jsTrim "foo bar baz")).headD "") = none →
      execute c1Cmds "foo bar baz" =
        ⟨.error (.notFound ((jsSplitOnSpace (jsTrim "foo bar baz")).headD "")), [], []⟩) ∧
    (∀ key c,
      c1Cmds.find? (fun p => p.1 == (jsSplitOnSpace (jsTrim "foo bar baz")).headD "") =
          some (key, c) →
      ∃ evs, (execute c1Cmds "foo bar baz").events =
          .start (getEventNameStart key) (jsTrim "foo bar baz") :: evs ∧
        ((∃ r, (execute c1Cmds "foo bar baz").result = .ok (some r) ∧
            evs = [.finish (getEventNameFinish key) r]) ∨
          (evs = [] ∧ ∀ r, (execute c1Cmds "foo bar baz").result ≠ .ok (some r))))) :=
  ⟨by decide, execute_notification_discipline c1Cmds "foo bar baz" (by decide)⟩

/-- C2 counterexample: the blank input line has the empty first token, which
matches no top-level command, yet `execute` returns successfully with no
`not found` error and no notification. -/
theorem execute_blank_counterexample :
    blankCmds.find? (fun p => p.1 == (jsSplitOnSpace (jsTrim "")).headD "") = none ∧
    execute blankCmds "" = ⟨.ok none, [], []⟩ :=
  ⟨rfl, rfl⟩

/-- C1: for an input line of tokens `f b z` where the top-level command `f`
has a subcommand named `b` carrying a handler and exactly one required
argument spec named `t` (and, having a handler, no subcommands — in
particular none named `z`), with pre-checks passing and `f` having no child
named `f` itself, `execute` walks to the deepest matching subcommand, binds
`t` to the token `z` by position, invokes the handler with the trimmed raw
input and the parsed mapping `[(t, some z)]`, dispatches the start and finish
notifications and returns the handler's result. -/
theorem execute_deep_dispatch {cmds : List (String × Cmd ρ)}
    {input0 f b z t : String} {foo bar : Cmd ρ}
    {h : String → ParsedArgs → Except String ρ} {r : ρ}
    (hsplit : jsSplitOnSpace (jsTrim input0) = [f, b, z])
    (hf : f ≠ "") (hb : b ≠ "") (hz : z ≠ "")
    (hfind : cmds.find? (fun p => p.1 == f) = some (f, foo))
    (hself : findSub foo.subcommands f = none)
    (hbar : findSub foo.subcommands b = some bar)
    (hbrun : bar.run = some h)
    (hbargs : bar.args = some [⟨t, false⟩])
    (hbsubs : bar.subcommands = none)
    (hfooPC : foo.preCheck.all (fun x => x) = true)
    (hbarPC : bar.preCheck.all (fun x => x) = true)
    (hres : h (jsTrim input0) [(t, some z)] = .ok r) :
    execute cmds input0 =
      ⟨.ok (some r),
        [.start (getEventNameStart f) (jsTrim input0), .finish (getEventNameFinish f) r],
        []⟩ := by
  have hf' : (f == "") = false := by simpa using hf
  have hb' : (b == "") = false := by simpa using hb
  have hz' : (z == "") = false := by simpa using hz
  have hhas : hasSub foo.subcommands b = true := hasSub_of_findSub hbar
  have hstep1 : stepArgs foo [b, z] [] = .ok [] := by
    simp [stepArgs, hb', hhas]
  have hstep2 : stepArgs bar [z] [] = .ok [z] := by
    simp [stepArgs, hz', hasSub, hbsubs, hbargs]
  have hparse : parseArgs [⟨t, false⟩] [z] = .ok [(t, some z)] := by
    simp [parseArgs, parseGo, hz', jsSet]
  simp only [execute, hsplit, List.headD, hf', Bool.false_eq_true, if_false, hfind,
    execLoop, hself, hbar, Option.getD_none, Option.getD_some, hstep1, hstep2,
    hfooPC, hbarPC, if_true, List.isEmpty_cons, List.isEmpty_nil, Bool.not_false,
    Bool.not_true, Bool.true_and, Bool.and_false, Bool.and_true, Bool.false_eq_true,
    if_false, runPhase, hbrun, hbargs, hparse, hres]

/-- Witness for C1 at the concrete `foo bar baz` tree, with a handler that
returns the parsed mapping it receives. -/
theorem execute_deep_dispatch_witness :
    jsSplitOnSpace (jsTrim "foo bar baz") = ["foo", "bar", "baz"] ∧
    echoRun (jsTrim "foo bar baz") [("target", some "baz")] = .ok [("target", some "baz")] ∧
    execute c1Cmds "foo bar baz" =
      ⟨.ok (some [("target", some "baz")]),
        [.start (getEventNameStart "foo") (jsTrim "foo bar baz"),
          .finish (getEventNameFinish "foo") [("target", some "baz")]],
        []⟩ :=
  ⟨by decide, rfl,
    @execute_deep_dispatch ParsedArgs c1Cmds "foo bar baz" "foo" "bar" "baz" "target"
      c1Foo c1Bar echoRun [("target", some "baz")] (by decide) (by decide) (by decide)
      (by decide) rfl rfl rfl rfl rfl rfl rfl rfl rfl⟩

/-- C3: for a dispatch that resolves to a top-level command with declared
argument specs, a handler and passing pre-checks, on nonempty argument
tokens: supplying more tokens than declared specs fails with the
too-many-arguments error, and a required (non-optional) spec with no
corresponding token fails with the missing-argument error naming the first
unmet required spec in spec order; in both cases no finish notification fires
and the handler is never invoked. -/
theorem execute_argument_errors {cmds : List (String × Cmd ρ)}
    {input0 f : String} {argToks : List String} {c : Cmd ρ} {specs : List Arg}
    (hsplit : jsSplitOnSpace (jsTrim input0) = f :: argToks)
    (hf : f ≠ "") (htoks : ∀ tok ∈ argToks, tok ≠ "")
    (hfind : cmds.find? (fun p => p.1 == f) = some (f, c))
    (hsubs : c.subcommands = none)
    (hargs : c.args = some specs) (hrun : ∃ rn, c.run = some rn)
    (hpc : c.preCheck.all (fun x => x) = true) :
    (specs.length < argToks.length →
      execute cmds input0 =
        ⟨.error (.tooManyArgs argToks.length),
          [.start (getEventNameStart f) (jsTrim input0)], []⟩) ∧
    (∀ a, argToks.length ≤ specs.length → firstUnmet specs argToks.length = some a →
      execute cmds input0 =
        ⟨.error (.argNotSpecified a.name),
          [.start (getEventNameStart f) (jsTrim input0)], []⟩) := by
  obtain ⟨rn, hrn⟩ := hrun
  have hf' : (f == "") = false := by simpa using hf
  have hselfnone : findSub c.subcommands f = none := by rw [hsubs]; rfl
  constructor
  · intro hlong
    cases argToks with
    | nil => simp at hlong
    | cons a1 rest' =>
      have ha1 : (a1 == "") = false := by simpa using htoks a1 (by simp)
      have hstep : stepArgs c (a1 :: rest') [] = .error (.tooManyArgs (a1 :: rest').length) := by
        simp only [stepArgs, List.head?, ha1, Bool.false_eq_true, if_false, hasSub, hsubs,
          Option.getD_none, List.any_nil, hargs, Option.isNone_some, Option.getD_some]
        rw [if_pos]
        simpa using hlong
      simp only [execute, hsplit, List.headD, hf', Bool.false_eq_true, if_false, hfind,
        execLoop, hselfnone, Option.getD_none, hstep]
  · intro a hle hunmet
    have hparse : parseArgs specs argToks = .error (.argNotSpecified a.name) := by
      rw [parseArgs_eq htoks specs, hunmet]
    cases argToks with
    | nil =>
      have hstep : stepArgs c [] [] = .ok [] := rfl
      simp only [execute, hsplit, List.headD, hf', Bool.false_eq_true, if_false, hfind,
        execLoop, hselfnone, Option.getD_none, hstep, hpc, if_true, List.isEmpty_nil,
        Bool.not_true, Bool.false_and, Bool.false_eq_true, runPhase, hrn, hargs,
        Option.getD_some, hparse]
    | cons a1 rest' =>
      have ha1 : (a1 == "") = false := by simpa using htoks a1 (by simp)
      have hstep : stepArgs c (a1 :: rest') [] = .ok (a1 :: rest') := by
        simp only [stepArgs, List.head?, ha1, Bool.false_eq_true, if_false, hasSub, hsubs,
          Option.getD_none, List.any_nil, hargs, Option.isNone_some, Option.getD_some]
        rw [if_neg]
        simp only [List.length_cons, not_lt]
        simpa using hle
      simp only [execute, hsplit, List.headD, hf', Bool.false_eq_true, if_false, hfind,
        execLoop, hselfnone, Option.getD_none, hstep, hpc, if_true, List.isEmpty_cons,
        Bool.not_false, Bool.true_and, Bool.and_false, Bool.false_eq_true,
        if_false, runPhase, hrn, hargs, Option.getD_some, hparse]

/-- Witness for C3 at the `pay` command (required `amount`, optional `memo`):
three tokens exceed the two specs, and zero tokens leave `amount` unmet. -/
theorem execute_argument_errors_witness :
    jsSplitOnSpace (jsTrim "pay 1 2 3") = ["pay", "1", "2", "3"] ∧
    jsSplitOnSpace (jsTrim "pay") = ["pay"] ∧
    execute c3Cmds "pay 1 2 3" =
      ⟨.error (.tooManyArgs 3), [.start (getEventNameStart "pay") (jsTrim "pay 1 2 3")], []⟩ ∧
    execute c3Cmds "pay" =
      ⟨.error (.argNotSpecified "amount"),
        [.start (getEventNameStart "pay") (jsTrim "pay")], []⟩ :=
  ⟨by decide, by decide,
    (@execute_argument_errors ParsedArgs c3Cmds "pay 1 2 3" "pay" ["1", "2", "3"] c3Cmd
      [⟨"amount", false⟩, ⟨"memo", true⟩] (by decide) (by decide) (by decide) rfl rfl rfl
      ⟨echoRun, rfl⟩ rfl).1 (by decide),
    (@execute_argument_errors ParsedArgs c3Cmds "pay" "pay" [] c3Cmd
      [⟨"amount", false⟩, ⟨"memo", true⟩] (by decide) (by decide) (by decide) rfl rfl rfl
      ⟨echoRun, rfl⟩ rfl).2 ⟨"amount", false⟩ (by decide) (by decide)⟩

/-- C5 (corrected): a dispatch that reaches a handler where an optional
argument spec has no corresponding token passes a parsed mapping in which
that optional argument's name IS present as a key, mapped to the undefined
value (`none`): the binding loop runs `parsedArgs[arg.name] = inputArg`
unconditionally, so the key is never omitted. -/
theorem execute_optional_arg_key {cmds : List (String × Cmd ρ)}
    {input0 f : String} {argToks : List String} {c : Cmd ρ} {specs : List Arg}
    {rn : String → ParsedArgs → Except String ρ} {r : ρ} {a : Arg}
    (hsplit : jsSplitOnSpace (jsTrim input0) = f :: argToks)
    (hf : f ≠ "") (htoks : ∀ tok ∈ argToks, tok ≠ "")
    (hfind : cmds.find? (fun p => p.1 == f) = some (f, c))
    (hsubs : c.subcommands = none)
    (hargs : c.args = some specs) (hrun : c.run = some rn)
    (hpc : c.preCheck.all (fun x => x) = true)
    (hcount : argToks.length ≤ specs.length)
    (hnodup : (specs.map Arg.name).Nodup)
    (hnomiss : firstUnmet specs argToks.length = none)
    (ha : a ∈ specs.drop argToks.length) (_haopt : a.optional = true)
    (hres : rn (jsTrim input0) (buildAcc argToks 0 specs []) = .ok r) :
    execute cmds input0 =
      ⟨.ok (some r),
        [.start (getEventNameStart f) (jsTrim input0),
          .finish (getEventNameFinish f) r], []⟩ ∧
    (a.name, (none : Option String)) ∈ buildAcc argToks 0 specs [] := by
  have hf' : (f == "") = false := by simpa using hf
  have hselfnone : findSub c.subcommands f = none := by rw [hsubs]; rfl
  have hparse : parseArgs specs argToks = .ok (buildAcc argToks 0 specs []) := by
    rw [parseArgs_eq htoks specs, hnomiss]
  have hmem : (a.name, (none : Option String)) ∈ buildAcc argToks 0 specs [] := by
    refine buildAcc_unmet_mem_drop argToks specs 0 [] a ?_ hnodup (by intro q hq; cases hq)
    simpa using ha
  refine ⟨?_, hmem⟩
  cases argToks with
  | nil =>
    have hstep : stepArgs c [] [] = .ok [] := rfl
    simp only [execute, hsplit, List.headD, hf', Bool.false_eq_true, if_false, hfind,
      execLoop, hselfnone, Option.getD_none, hstep, hpc, if_true, List.isEmpty_nil,
      Bool.not_true, Bool.false_and, Bool.false_eq_true, runPhase, hrun, hargs,
      Option.getD_some, hparse, hres]
  | cons a1 rest' =>
    have ha1 : (a1 == "") = false := by simpa using htoks a1 (by simp)
    have hstep : stepArgs c (a1 :: rest') [] = .ok (a1 :: rest') := by
      simp only [stepArgs, List.head?, ha1, Bool.false_eq_true, if_false, hasSub, hsubs,
        Option.getD_none, List.any_nil, hargs, Option.isNone_some, Option.getD_some]
      rw [if_neg]
      simp only [List.length_cons, not_lt]
      simpa using hcount
    simp only [execute, hsplit, List.headD, hf', Bool.false_eq_true, if_false, hfind,
      execLoop, hselfnone, Option.getD_none, hstep, hpc, if_true, List.isEmpty_cons,
      Bool.not_false, Bool.true_and, Bool.and_false, Bool.false_eq_true,
      if_false, runPhase, hrun, hargs, Option.getD_some, hparse, hres]

/-- Witness for C5 (corrected) at the `opt` command with optional `maybe`. -/
theorem execute_optional_arg_key_witness :
    jsSplitOnSpace (jsTrim "opt") = ["opt"] ∧
    firstUnmet [⟨"maybe", true⟩] 0 = none ∧
    (⟨"maybe", true⟩ : Arg) ∈ ([⟨"maybe", true⟩] : List Arg).drop 0 ∧
    (execute c5Cmds "opt" =
      ⟨.ok (some [("maybe", none)]),
        [.start (getEventNameStart "opt") (jsTrim "opt"),
          .finish (getEventNameFinish "opt") [("maybe", none)]], []⟩ ∧
      (("maybe" : String), (none : Option String)) ∈ buildAcc [] 0 [⟨"maybe", true⟩] []) :=
  ⟨by decide, by decide, by decide,
    @execute_optional_arg_key ParsedArgs c5Cmds "opt" "opt" [] c5Cmd [⟨"maybe", true⟩]
      echoRun [("maybe", none)] ⟨"maybe", true⟩ (by decide) (by decide) (by decide)
      rfl rfl rfl rfl rfl (by decide) (by decide) (by decide) (by decide) (by decide) rfl⟩

/-- C5 counterexample: executing `opt` (whose only argument `maybe` is
optional and receives no token) invokes the handler with the parsed mapping
`[("maybe", none)]`: the optional argument's name IS a key of the mapping,
mapped to the undefined value, refuting the claim that the name is not a key
of the mapping. -/
theorem optional_arg_key_counterexample :
    execute c5Cmds "opt" =
      ⟨.ok (some [("maybe", none)]),
        [.start "ondidrunstartopt" "opt", .finish "ondidrunfinishopt" [("maybe", none)]],
        []⟩ ∧
    "maybe" ∈ ([(("maybe" : String), (none : Option String))].map Prod.fst) :=
  ⟨by decide, by decide⟩

/-- C6: `convertToCSS` maps the key `bg` to the `background` property;
recurses on `hover`, `active`, `focus` and `focusWithin`, wrapping the nested
result in a `&:pseudo-class` block, and on `before`/`after` in a
`&::pseudo-element` block; converts every other key from camel case to kebab
case and emits `property:value;` only when the value is a string or a
number, silently skipping any other value type; in particular
`bg: red, hover: (color: blue)` converts to
`background:red;&:hover\x7bcolor:blue;\x7d`. -/
theorem convertToCSS_spec :
    (∀ (v : String) (rest : List (String × CSSVal)),
      convertToCSS (("bg", .str v) :: rest) =
        "background" ++ ":" ++ v ++ ";" ++ convertToCSS rest) ∧
    (∀ k, (k = "hover" ∨ k = "active" ∨ k = "focus" ∨ k = "focusWithin") →
      ∀ (fs rest : List (String × CSSVal)),
        convertToCSS ((k, .obj fs) :: rest) =
          "&:" ++ toKebabFromCamel k ++ "\x7b" ++ convertToCSS fs ++ "\x7d" ++
            convertToCSS rest) ∧
    (∀ k, (k = "before" ∨ k = "after") →
      ∀ (fs rest : List (String × CSSVal)),
        convertToCSS ((k, .obj fs) :: rest) =
          "&::" ++ toKebabFromCamel k ++ "\x7b" ++ convertToCSS fs ++ "\x7d" ++
            convertToCSS rest) ∧
    (∀ (k v : String) (rest : List (String × CSSVal)),
      isPseudoClass k = false → isPseudoElement k = false → k ≠ "bg" →
      convertToCSS ((k, .str v) :: rest) =
        toKebabFromCamel k ++ ":" ++ v ++ ";" ++ convertToCSS rest) ∧
    (∀ (k : String) (n : Int) (rest : List (String × CSSVal)),
      isPseudoClass k = false → isPseudoElement k = false → k ≠ "bg" →
      convertToCSS ((k, .num n) :: rest) =
        toKebabFromCamel k ++ ":" ++ toString n ++ ";" ++ convertToCSS rest) ∧
    (∀ (k : String) (fs rest : List (String × CSSVal)),
      isPseudoClass k = false → isPseudoElement k = false →
      convertToCSS ((k, .obj fs) :: rest) = convertToCSS rest) ∧
    (∀ (k : String) (rest : List (String × CSSVal)),
      isPseudoClass k = false → isPseudoElement k = false →
      convertToCSS ((k, .other) :: rest) = convertToCSS rest) ∧
    convertToCSS [("bg", .str "red"), ("hover", .obj [("color", .str "blue")])] =
      "background:red;&:hover\x7bcolor:blue;\x7d" := by
  refine ⟨?_, ?_, ?_, ?_, ?_, ?_, ?_, ?_⟩
  · intro v rest
    simp [convertToCSS, isPseudoClass, isPseudoElement, String.append_assoc]
  · rintro k (rfl | rfl | rfl | rfl) <;> intro fs rest <;>
      simp [convertToCSS, isPseudoClass, isPseudoElement, String.append_assoc]
  · rintro k (rfl | rfl) <;> intro fs rest <;>
      simp [convertToCSS, isPseudoClass, isPseudoElement, String.append_assoc]
  · intro k v rest hpc hpe hbg
    have hbg' : (k == "bg") = false := by simpa using hbg
    simp [convertToCSS, hpc, hpe, hbg', String.append_assoc]
  · intro k n rest hpc hpe hbg
    have hbg' : (k == "bg") = false := by simpa using hbg
    simp [convertToCSS, hpc, hpe, hbg', String.append_assoc]
  · intro k fs rest hpc hpe
    simp [convertToCSS, hpc, hpe]
  · intro k rest hpc hpe
    simp [convertToCSS, hpc, hpe]
  · show convertToCSS _ = _
    simp only [convertToCSS, isPseudoClass, isPseudoElement]
    rfl

/-- Witness for C6 at concrete keys: a camel-cased plain key and a
pseudo-class key. -/
theorem convertToCSS_spec_witness :
    (isPseudoClass "fontSize" = false ∧ isPseudoElement "fontSize" = false ∧
      ("fontSize" : String) ≠ "bg") ∧
    convertToCSS [("fontSize", .str "12px")] =
      toKebabFromCamel "fontSize" ++ ":" ++ "12px" ++ ";" ++ convertToCSS [] ∧
    convertToCSS [("focusWithin", .obj [])] =
      "&:" ++ toKebabFromCamel "focusWithin" ++ "\x7b" ++ convertToCSS [] ++ "\x7d" ++
        convertToCSS [] :=
  ⟨⟨by decide, by decide, by decide⟩,
    convertToCSS_spec.2.2.2.1 "fontSize" "12px" [] (by decide) (by decide) (by decide),
    convertToCSS_spec.2.1 "focusWithin" (by simp) [] []⟩

/-- C8: the parameter defaulting of `set` — an omitted theme name resolves to
the `localStorage` value under the theme key when one is stored and otherwise
to the name of the first importable theme; an omitted font family resolves to
the stored font value when present and otherwise to the family of the first
font. -/
theorem set_fallback_resolution :
    (∀ (s : String) (themes : List ImportableThemeRef),
      resolveThemeName none (some s) themes = some s) ∧
    (∀ (th : ImportableThemeRef) (rest : List ImportableThemeRef),
      resolveThemeName none none (th :: rest) = some th.name) ∧
    (∀ (s : String) (fonts : List PgFont),
      resolveFontFamily none (some s) fonts = some s) ∧
    (∀ (fnt : PgFont) (rest : List PgFont),
      resolveFontFamily none none (fnt :: rest) = some fnt.family) :=
  ⟨fun _ _ => rfl, fun _ _ => rfl, fun _ _ => rfl, fun _ _ => rfl⟩

/-- C9: two command executions submitted back-to-back are strictly
serialized by the `PgTerminal.process` queue (modelled from the spec): the
combined notification trace is the first execution's events followed by the
second's, so the second execution starts only after the first completes, no
step of the second interleaves with the first, and finish notifications
appear in submission order. -/
theorem process_serialization (cmds₁ cmds₂ : List (String × Cmd ρ))
    (input₁ input₂ : String) :
    processQueue [(execute cmds₁ input₁).events, (execute cmds₂ input₂).events] =
      (execute cmds₁ input₁).events ++ (execute cmds₂ input₂).events ∧
    (processQueue [(execute cmds₁ input₁).events,
        (execute cmds₂ input₂).events]).take (execute cmds₁ input₁).events.length =
      (execute cmds₁ input₁).events ∧
    (processQueue [(execute cmds₁ input₁).events,
        (execute cmds₂ input₂).events]).drop (execute cmds₁ input₁).events.length =
      (execute cmds₂ input₂).events := by
  refine ⟨by simp [processQueue], ?_, ?_⟩
  · simp [processQueue, List.take_left]
  · simp [processQueue, List.drop_left]

/-! ### Preservation lemmas for the theme filler -/

theorem nmerge_some (x : Option α) (y : α) : nmerge x (some y) = some (x.getD y) := by
  cases x <;> rfl

theorem presOpt_refl (x : Option α) : presOpt x x := fun _ h => h

theorem presOpt_trans {x y z : Option α} (h1 : presOpt x y) (h2 : presOpt y z) :
    presOpt x z := fun v h => h2 v (h1 v h)

theorem presOpt_nset (x : Option α) (d : α) : presOpt x (nset x d) := by
  intro v h
  simp [nset, h]

theorem presOpt_nmerge (x y : Option α) : presOpt x (nmerge x y) := by
  intro v h
  simp [nmerge, h]

theorem presSub_refl {r : α → α → Prop} (hr : ∀ v, r v v) (x : Option α) :
    presSub r x x := fun v h => ⟨v, h, hr v⟩

theorem presSub_trans {r : α → α → Prop}
    (hr : ∀ a b c, r a b → r b c → r a c) {x y z : Option α}
    (h1 : presSub r x y) (h2 : presSub r y z) : presSub r x z := by
  intro v h
  obtain ⟨w, hw, hvw⟩ := h1 v h
  obtain ⟨u, hu, hwu⟩ := h2 w hw
  exact ⟨u, hu, hr v w u hvw hwu⟩

theorem presSub_fill {r : α → α → Prop} (f : α → α) (e : α) (x : Option α)
    (h : ∀ v, r v (f v)) : presSub r x (some (f (x.getD e))) := by
  intro v hv
  subst hv
  exact ⟨f v, rfl, h v⟩

theorem presSub_nset {r : α → α → Prop} (hr : ∀ v, r v v) (x : Option α) (d : α) :
    presSub r x (nset x d) := by
  intro v hv
  subst hv
  exact ⟨v, rfl, hr v⟩

theorem presSub_some {r : α → α → Prop} {x : Option α} {c w : α}
    (hc : x = some c) (h : r c w) : presSub r x (some w) := by
  intro v hv
  rw [hc] at hv
  injection hv with hcv
  subst hcv
  exact ⟨w, rfl, h⟩

theorem ThemeFont_pres_rfl (a : ThemeFont) : ThemeFont.Pres a a :=
  ⟨presOpt_refl _, presOpt_refl _⟩

theorem ThemeFont_pres_trans {a b c : ThemeFont} (h1 : ThemeFont.Pres a b)
    (h2 : ThemeFont.Pres b c) : ThemeFont.Pres a c :=
  ⟨presOpt_trans h1.1 h2.1, presOpt_trans h1.2 h2.2⟩

theorem StateColor_pres_rfl (a : StateColor) : StateColor.Pres a a :=
  ⟨rfl, presOpt_refl _⟩

theorem StateColor_pres_trans {a b c : StateColor} (h1 : StateColor.Pres a b)
    (h2 : StateColor.Pres b c) : StateColor.Pres a c :=
  ⟨h1.1.trans h2.1, presOpt_trans h1.2 h2.2⟩

theorem StateColors_pres_rfl (a : StateColors) : StateColors.Pres a a :=
  ⟨StateColor_pres_rfl _, StateColor_pres_rfl _, StateColor_pres_rfl _, StateColor_pres_rfl _, StateColor_pres_rfl _, StateColor_pres_rfl _⟩

theorem StateColors_pres_trans {a b c : StateColors} (h1 : StateColors.Pres a b)
    (h2 : StateColors.Pres b c) : StateColors.Pres a c :=
  ⟨StateColor_pres_trans h1.1 h2.1, StateColor_pres_trans h1.2.1 h2.2.1, StateColor_pres_trans h1.2.2.1 h2.2.2.1, StateColor_pres_trans h1.2.2.2.1 h2.2.2.2.1, StateColor_pres_trans h1.2.2.2.2.1 h2.2.2.2.2.1, StateColor_pres_trans h1.2.2.2.2.2 h2.2.2.2.2.2⟩

theorem ActiveLine_pres_rfl (a : ActiveLine) : ActiveLine.Pres a a :=
  ⟨presOpt_refl _, presOpt_refl _⟩

theorem ActiveLine_pres_trans {a b c : ActiveLine} (h1 : ActiveLine.Pres a b)
    (h2 : ActiveLine.Pres b c) : ActiveLine.Pres a c :=
  ⟨presOpt_trans h1.1 h2.1, presOpt_trans h1.2 h2.2⟩

theorem EditorSelection_pres_rfl (a : EditorSelection) : EditorSelection.Pres a a :=
  ⟨presOpt_refl _, presOpt_refl _⟩

theorem EditorSelection_pres_trans {a b c : EditorSelection} (h1 : EditorSelection.Pres a b)
    (h2 : EditorSelection.Pres b c) : EditorSelection.Pres a c :=
  ⟨presOpt_trans h1.1 h2.1, presOpt_trans h1.2 h2.2⟩

theorem SearchMatch_pres_rfl (a : SearchMatch) : SearchMatch.Pres a a :=
  ⟨presOpt_refl _, presOpt_refl _, presOpt_refl _, presOpt_refl _⟩

theorem SearchMatch_pres_trans {a b c : SearchMatch} (h1 : SearchMatch.Pres a b)
    (h2 : SearchMatch.Pres b c) : SearchMatch.Pres a c :=
  ⟨presOpt_trans h1.1 h2.1, presOpt_trans h1.2.1 h2.2.1, presOpt_trans h1.2.2.1 h2.2.2.1, presOpt_trans h1.2.2.2 h2.2.2.2⟩

theorem Gutter_pres_rfl (a : Gutter) : Gutter.Pres a a :=
  ⟨presOpt_refl _, presOpt_refl _⟩

theorem Gutter_pres_trans {a b c : Gutter} (h1 : Gutter.Pres a b)
    (h2 : Gutter.Pres b c) : Gutter.Pres a c :=
  ⟨presOpt_trans h1.1 h2.1, presOpt_trans h1.2 h2.2⟩

theorem EditorTooltip_pres_rfl (a : EditorTooltip) : EditorTooltip.Pres a a :=
  ⟨presOpt_refl _, presOpt_refl _, presOpt_refl _, presOpt_refl _⟩

theorem EditorTooltip_pres_trans {a b c : EditorTooltip} (h1 : EditorTooltip.Pres a b)
    (h2 : EditorTooltip.Pres b c) : EditorTooltip.Pres a c :=
  ⟨presOpt_trans h1.1 h2.1, presOpt_trans h1.2.1 h2.2.1, presOpt_trans h1.2.2.1 h2.2.2.1, presOpt_trans h1.2.2.2 h2.2.2.2⟩

theorem EditorColors_pres_rfl (a : EditorColors) : EditorColors.Pres a a :=
  ⟨presOpt_refl _, presOpt_refl _, presOpt_refl _, presSub_refl ActiveLine_pres_rfl _, presSub_refl EditorSelection_pres_rfl _, presSub_refl SearchMatch_pres_rfl _, presSub_refl Gutter_pres_rfl _, presSub_refl EditorTooltip_pres_rfl _⟩

theorem EditorColors_pres_trans {a b c : EditorColors} (h1 : EditorColors.Pres a b)
    (h2 : EditorColors.Pres b c) : EditorColors.Pres a c :=
  ⟨presOpt_trans h1.1 h2.1, presOpt_trans h1.2.1 h2.2.1, presOpt_trans h1.2.2.1 h2.2.2.1, presSub_trans (fun a b c => @ActiveLine_pres_trans a b c) h1.2.2.2.1 h2.2.2.2.1, presSub_trans (fun a b c => @EditorSelection_pres_trans a b c) h1.2.2.2.2.1 h2.2.2.2.2.1, presSub_trans (fun a b c => @SearchMatch_pres_trans a b c) h1.2.2.2.2.2.1 h2.2.2.2.2.2.1, presSub_trans (fun a b c => @Gutter_pres_trans a b c) h1.2.2.2.2.2.2.1 h2.2.2.2.2.2.2.1, presSub_trans (fun a b c => @EditorTooltip_pres_trans a b c) h1.2.2.2.2.2.2.2 h2.2.2.2.2.2.2.2⟩

theorem Colors_pres_rfl (a : Colors) : Colors.Pres a a :=
  ⟨rfl, StateColors_pres_rfl _, presSub_refl EditorColors_pres_rfl _⟩

theorem Colors_pres_trans {a b c : Colors} (h1 : Colors.Pres a b)
    (h2 : Colors.Pres b c) : Colors.Pres a c :=
  ⟨h1.1.trans h2.1, StateColors_pres_trans h1.2.1 h2.2.1, presSub_trans (fun a b c => @EditorColors_pres_trans a b c) h1.2.2 h2.2.2⟩

theorem Skeleton_pres_rfl (a : Skeleton) : Skeleton.Pres a a :=
  ⟨presOpt_refl _, presOpt_refl _, presOpt_refl _⟩

theorem Skeleton_pres_trans {a b c : Skeleton} (h1 : Skeleton.Pres a b)
    (h2 : Skeleton.Pres b c) : Skeleton.Pres a c :=
  ⟨presOpt_trans h1.1 h2.1, presOpt_trans h1.2.1 h2.2.1, presOpt_trans h1.2.2 h2.2.2⟩

theorem ButtonDefault_pres_rfl (a : ButtonDefault) : ButtonDefault.Pres a a :=
  ⟨presOpt_refl _, presOpt_refl _, presOpt_refl _, presOpt_refl _, presOpt_refl _, presOpt_refl _, presOpt_refl _⟩

theorem ButtonDefault_pres_trans {a b c : ButtonDefault} (h1 : ButtonDefault.Pres a b)
    (h2 : ButtonDefault.Pres b c) : ButtonDefault.Pres a c :=
  ⟨presOpt_trans h1.1 h2.1, presOpt_trans h1.2.1 h2.2.1, presOpt_trans h1.2.2.1 h2.2.2.1, presOpt_trans h1.2.2.2.1 h2.2.2.2.1, presOpt_trans h1.2.2.2.2.1 h2.2.2.2.2.1, presOpt_trans h1.2.2.2.2.2.1 h2.2.2.2.2.2.1, presOpt_trans h1.2.2.2.2.2.2 h2.2.2.2.2.2.2⟩

theorem Button_pres_rfl (a : Button) : Button.Pres a a :=
  presSub_refl ButtonDefault_pres_rfl _

theorem Button_pres_trans {a b c : Button} (h1 : Button.Pres a b)
    (h2 : Button.Pres b c) : Button.Pres a c :=
  presSub_trans (fun a b c => @ButtonDefault_pres_trans a b c) h1 h2

theorem MenuDefault_pres_rfl (a : MenuDefault) : MenuDefault.Pres a a :=
  ⟨presOpt_refl _, presOpt_refl _, presOpt_refl _, presOpt_refl _⟩

theorem MenuDefault_pres_trans {a b c : MenuDefault} (h1 : MenuDefault.Pres a b)
    (h2 : MenuDefault.Pres b c) : MenuDefault.Pres a c :=
  ⟨presOpt_trans h1.1 h2.1, presOpt_trans h1.2.1 h2.2.1, presOpt_trans h1.2.2.1 h2.2.2.1, presOpt_trans h1.2.2.2 h2.2.2.2⟩

theorem Menu_pres_rfl (a : Menu) : Menu.Pres a a :=
  presSub_refl MenuDefault_pres_rfl _

theorem Menu_pres_trans {a b c : Menu} (h1 : Menu.Pres a b)
    (h2 : Menu.Pres b c) : Menu.Pres a c :=
  presSub_trans (fun a b c => @MenuDefault_pres_trans a b c) h1 h2

theorem InputFocus_pres_rfl (a : InputFocus) : InputFocus.Pres a a :=
  presOpt_refl _

theorem InputFocus_pres_trans {a b c : InputFocus} (h1 : InputFocus.Pres a b)
    (h2 : InputFocus.Pres b c) : InputFocus.Pres a c :=
  presOpt_trans h1 h2

theorem InputComp_pres_rfl (a : InputComp) : InputComp.Pres a a :=
  ⟨presOpt_refl _, presOpt_refl _, presOpt_refl _, presOpt_refl _, presOpt_refl _, presOpt_refl _, presOpt_refl _, presOpt_refl _, presSub_refl InputFocus_pres_rfl _, presSub_refl InputFocus_pres_rfl _⟩

theorem InputComp_pres_trans {a b c : InputComp} (h1 : InputComp.Pres a b)
    (h2 : InputComp.Pres b c) : InputComp.Pres a c :=
  ⟨presOpt_trans h1.1 h2.1, presOpt_trans h1.2.1 h2.2.1, presOpt_trans h1.2.2.1 h2.2.2.1, presOpt_trans h1.2.2.2.1 h2.2.2.2.1, presOpt_trans h1.2.2.2.2.1 h2.2.2.2.2.1, presOpt_trans h1.2.2.2.2.2.1 h2.2.2.2.2.2.1, presOpt_trans h1.2.2.2.2.2.2.1 h2.2.2.2.2.2.2.1, presOpt_trans h1.2.2.2.2.2.2.2.1 h2.2.2.2.2.2.2.2.1, presSub_trans (fun a b c => @InputFocus_pres_trans a b c) h1.2.2.2.2.2.2.2.2.1 h2.2.2.2.2.2.2.2.2.1, presSub_trans (fun a b c => @InputFocus_pres_trans a b c) h1.2.2.2.2.2.2.2.2.2 h2.2.2.2.2.2.2.2.2.2⟩

theorem SelectDefault_pres_rfl (a : SelectDefault) : SelectDefault.Pres a a :=
  presOpt_refl _

theorem SelectDefault_pres_trans {a b c : SelectDefault} (h1 : SelectDefault.Pres a b)
    (h2 : SelectDefault.Pres b c) : SelectDefault.Pres a c :=
  presOpt_trans h1 h2

theorem SelectControlHover_pres_rfl (a : SelectControlHover) : SelectControlHover.Pres a a :=
  ⟨presOpt_refl _, presOpt_refl _⟩

theorem SelectControlHover_pres_trans {a b c : SelectControlHover} (h1 : SelectControlHover.Pres a b)
    (h2 : SelectControlHover.Pres b c) : SelectControlHover.Pres a c :=
  ⟨presOpt_trans h1.1 h2.1, presOpt_trans h1.2 h2.2⟩

theorem SelectControlFocusWithin_pres_rfl (a : SelectControlFocusWithin) : SelectControlFocusWithin.Pres a a :=
  presOpt_refl _

theorem SelectControlFocusWithin_pres_trans {a b c : SelectControlFocusWithin} (h1 : SelectControlFocusWithin.Pres a b)
    (h2 : SelectControlFocusWithin.Pres b c) : SelectControlFocusWithin.Pres a c :=
  presOpt_trans h1 h2

theorem SelectControl_pres_rfl (a : SelectControl) : SelectControl.Pres a a :=
  ⟨presOpt_refl _, presOpt_refl _, presOpt_refl _, presOpt_refl _, presSub_refl SelectControlHover_pres_rfl _, presSub_refl SelectControlFocusWithin_pres_rfl _⟩

theorem SelectControl_pres_trans {a b c : SelectControl} (h1 : SelectControl.Pres a b)
    (h2 : SelectControl.Pres b c) : SelectControl.Pres a c :=
  ⟨presOpt_trans h1.1 h2.1, presOpt_trans h1.2.1 h2.2.1, presOpt_trans h1.2.2.1 h2.2.2.1, presOpt_trans h1.2.2.2.1 h2.2.2.2.1, presSub_trans (fun a b c => @SelectControlHover_pres_trans a b c) h1.2.2.2.2.1 h2.2.2.2.2.1, presSub_trans (fun a b c => @SelectControlFocusWithin_pres_trans a b c) h1.2.2.2.2.2 h2.2.2.2.2.2⟩

theorem SelectMenu_pres_rfl (a : SelectMenu) : SelectMenu.Pres a a :=
  ⟨presOpt_refl _, presOpt_refl _, presOpt_refl _⟩

theorem SelectMenu_pres_trans {a b c : SelectMenu} (h1 : SelectMenu.Pres a b)
    (h2 : SelectMenu.Pres b c) : SelectMenu.Pres a c :=
  ⟨presOpt_trans h1.1 h2.1, presOpt_trans h1.2.1 h2.2.1, presOpt_trans h1.2.2 h2.2.2⟩

theorem SelectOptionBefore_pres_rfl (a : SelectOptionBefore) : SelectOptionBefore.Pres a a :=
  presOpt_refl _

theorem SelectOptionBefore_pres_trans {a b c : SelectOptionBefore} (h1 : SelectOptionBefore.Pres a b)
    (h2 : SelectOptionBefore.Pres b c) : SelectOptionBefore.Pres a c :=
  presOpt_trans h1 h2

theorem SelectOptionFocus_pres_rfl (a : SelectOptionFocus) : SelectOptionFocus.Pres a a :=
  ⟨presOpt_refl _, presOpt_refl _⟩

theorem SelectOptionFocus_pres_trans {a b c : SelectOptionFocus} (h1 : SelectOptionFocus.Pres a b)
    (h2 : SelectOptionFocus.Pres b c) : SelectOptionFocus.Pres a c :=
  ⟨presOpt_trans h1.1 h2.1, presOpt_trans h1.2 h2.2⟩

theorem SelectOptionActive_pres_rfl (a : SelectOptionActive) : SelectOptionActive.Pres a a :=
  presOpt_refl _

theorem SelectOptionActive_pres_trans {a b c : SelectOptionActive} (h1 : SelectOptionActive.Pres a b)
    (h2 : SelectOptionActive.Pres b c) : SelectOptionActive.Pres a c :=
  presOpt_trans h1 h2

theorem SelectOption_pres_rfl (a : SelectOption) : SelectOption.Pres a a :=
  ⟨presOpt_refl _, presOpt_refl _, presOpt_refl _, presSub_refl SelectOptionBefore_pres_rfl _, presSub_refl SelectOptionFocus_pres_rfl _, presSub_refl SelectOptionActive_pres_rfl _⟩

theorem SelectOption_pres_trans {a b c : SelectOption} (h1 : SelectOption.Pres a b)
    (h2 : SelectOption.Pres b c) : SelectOption.Pres a c :=
  ⟨presOpt_trans h1.1 h2.1, presOpt_trans h1.2.1 h2.2.1, presOpt_trans h1.2.2.1 h2.2.2.1, presSub_trans (fun a b c => @SelectOptionBefore_pres_trans a b c) h1.2.2.2.1 h2.2.2.2.1, presSub_trans (fun a b c => @SelectOptionFocus_pres_trans a b c) h1.2.2.2.2.1 h2.2.2.2.2.1, presSub_trans (fun a b c => @SelectOptionActive_pres_trans a b c) h1.2.2.2.2.2 h2.2.2.2.2.2⟩

theorem SelectSingleValue_pres_rfl (a : SelectSingleValue) : SelectSingleValue.Pres a a :=
  ⟨presOpt_refl _, presOpt_refl _⟩

theorem SelectSingleValue_pres_trans {a b c : SelectSingleValue} (h1 : SelectSingleValue.Pres a b)
    (h2 : SelectSingleValue.Pres b c) : SelectSingleValue.Pres a c :=
  ⟨presOpt_trans h1.1 h2.1, presOpt_trans h1.2 h2.2⟩

theorem SelectInput_pres_rfl (a : SelectInput) : SelectInput.Pres a a :=
  presOpt_refl _

theorem SelectInput_pres_trans {a b c : SelectInput} (h1 : SelectInput.Pres a b)
    (h2 : SelectInput.Pres b c) : SelectInput.Pres a c :=
  presOpt_trans h1 h2

theorem SelectGroupHeading_pres_rfl (a : SelectGroupHeading) : SelectGroupHeading.Pres a a :=
  presOpt_refl _

theorem SelectGroupHeading_pres_trans {a b c : SelectGroupHeading} (h1 : SelectGroupHeading.Pres a b)
    (h2 : SelectGroupHeading.Pres b c) : SelectGroupHeading.Pres a c :=
  presOpt_trans h1 h2

theorem SelectDropdownIndicator_pres_rfl (a : SelectDropdownIndicator) : SelectDropdownIndicator.Pres a a :=
  presOpt_refl _

theorem SelectDropdownIndicator_pres_trans {a b c : SelectDropdownIndicator} (h1 : SelectDropdownIndicator.Pres a b)
    (h2 : SelectDropdownIndicator.Pres b c) : SelectDropdownIndicator.Pres a c :=
  presOpt_trans h1 h2

theorem SelectIndicatorSeparator_pres_rfl (a : SelectIndicatorSeparator) : SelectIndicatorSeparator.Pres a a :=
  presOpt_refl _

theorem SelectIndicatorSeparator_pres_trans {a b c : SelectIndicatorSeparator} (h1 : SelectIndicatorSeparator.Pres a b)
    (h2 : SelectIndicatorSeparator.Pres b c) : SelectIndicatorSeparator.Pres a c :=
  presOpt_trans h1 h2

theorem SelectComp_pres_rfl (a : SelectComp) : SelectComp.Pres a a :=
  ⟨presSub_refl SelectDefault_pres_rfl _, presSub_refl SelectControl_pres_rfl _, presSub_refl SelectMenu_pres_rfl _, presSub_refl SelectOption_pres_rfl _, presSub_refl SelectSingleValue_pres_rfl _, presSub_refl SelectInput_pres_rfl _, presSub_refl SelectGroupHeading_pres_rfl _, presSub_refl SelectDropdownIndicator_pres_rfl _, presSub_refl SelectIndicatorSeparator_pres_rfl _⟩

theorem SelectComp_pres_trans {a b c : SelectComp} (h1 : SelectComp.Pres a b)
    (h2 : SelectComp.Pres b c) : SelectComp.Pres a c :=
  ⟨presSub_trans (fun a b c => @SelectDefault_pres_trans a b c) h1.1 h2.1, presSub_trans (fun a b c => @SelectControl_pres_trans a b c) h1.2.1 h2.2.1, presSub_trans (fun a b c => @SelectMenu_pres_trans a b c) h1.2.2.1 h2.2.2.1, presSub_trans (fun a b c => @SelectOption_pres_trans a b c) h1.2.2.2.1 h2.2.2.2.1, presSub_trans (fun a b c => @SelectSingleValue_pres_trans a b c) h1.2.2.2.2.1 h2.2.2.2.2.1, presSub_trans (fun a b c => @SelectInput_pres_trans a b c) h1.2.2.2.2.2.1 h2.2.2.2.2.2.1, presSub_trans (fun a b c => @SelectGroupHeading_pres_trans a b c) h1.2.2.2.2.2.2.1 h2.2.2.2.2.2.2.1, presSub_trans (fun a b c => @SelectDropdownIndicator_pres_trans a b c) h1.2.2.2.2.2.2.2.1 h2.2.2.2.2.2.2.2.1, presSub_trans (fun a b c => @SelectIndicatorSeparator_pres_trans a b c) h1.2.2.2.2.2.2.2.2 h2.2.2.2.2.2.2.2.2⟩

theorem ToastDefault_pres_rfl (a : ToastDefault) : ToastDefault.Pres a a :=
  ⟨presOpt_refl _, presOpt_refl _, presOpt_refl _, presOpt_refl _, presOpt_refl _, presOpt_refl _⟩

theorem ToastDefault_pres_trans {a b c : ToastDefault} (h1 : ToastDefault.Pres a b)
    (h2 : ToastDefault.Pres b c) : ToastDefault.Pres a c :=
  ⟨presOpt_trans h1.1 h2.1, presOpt_trans h1.2.1 h2.2.1, presOpt_trans h1.2.2.1 h2.2.2.1, presOpt_trans h1.2.2.2.1 h2.2.2.2.1, presOpt_trans h1.2.2.2.2.1 h2.2.2.2.2.1, presOpt_trans h1.2.2.2.2.2 h2.2.2.2.2.2⟩

theorem ToastProgress_pres_rfl (a : ToastProgress) : ToastProgress.Pres a a :=
  presOpt_refl _

theorem ToastProgress_pres_trans {a b c : ToastProgress} (h1 : ToastProgress.Pres a b)
    (h2 : ToastProgress.Pres b c) : ToastProgress.Pres a c :=
  presOpt_trans h1 h2

theorem ToastCloseButton_pres_rfl (a : ToastCloseButton) : ToastCloseButton.Pres a a :=
  presOpt_refl _

theorem ToastCloseButton_pres_trans {a b c : ToastCloseButton} (h1 : ToastCloseButton.Pres a b)
    (h2 : ToastCloseButton.Pres b c) : ToastCloseButton.Pres a c :=
  presOpt_trans h1 h2

theorem Toast_pres_rfl (a : Toast) : Toast.Pres a a :=
  ⟨presSub_refl ToastDefault_pres_rfl _, presSub_refl ToastProgress_pres_rfl _, presSub_refl ToastCloseButton_pres_rfl _⟩

theorem Toast_pres_trans {a b c : Toast} (h1 : Toast.Pres a b)
    (h2 : Toast.Pres b c) : Toast.Pres a c :=
  ⟨presSub_trans (fun a b c => @ToastDefault_pres_trans a b c) h1.1 h2.1, presSub_trans (fun a b c => @ToastProgress_pres_trans a b c) h1.2.1 h2.2.1, presSub_trans (fun a b c => @ToastCloseButton_pres_trans a b c) h1.2.2 h2.2.2⟩

theorem TooltipComp_pres_rfl (a : TooltipComp) : TooltipComp.Pres a a :=
  ⟨presOpt_refl _, presOpt_refl _, presOpt_refl _, presOpt_refl _, presOpt_refl _, presOpt_refl _⟩

theorem TooltipComp_pres_trans {a b c : TooltipComp} (h1 : TooltipComp.Pres a b)
    (h2 : TooltipComp.Pres b c) : TooltipComp.Pres a c :=
  ⟨presOpt_trans h1.1 h2.1, presOpt_trans h1.2.1 h2.2.1, presOpt_trans h1.2.2.1 h2.2.2.1, presOpt_trans h1.2.2.2.1 h2.2.2.2.1, presOpt_trans h1.2.2.2.2.1 h2.2.2.2.2.1, presOpt_trans h1.2.2.2.2.2 h2.2.2.2.2.2⟩

theorem MarkdownDefault_pres_rfl (a : MarkdownDefault) : MarkdownDefault.Pres a a :=
  ⟨presOpt_refl _, presOpt_refl _, presOpt_refl _, presOpt_refl _⟩

theorem MarkdownDefault_pres_trans {a b c : MarkdownDefault} (h1 : MarkdownDefault.Pres a b)
    (h2 : MarkdownDefault.Pres b c) : MarkdownDefault.Pres a c :=
  ⟨presOpt_trans h1.1 h2.1, presOpt_trans h1.2.1 h2.2.1, presOpt_trans h1.2.2.1 h2.2.2.1, presOpt_trans h1.2.2.2 h2.2.2.2⟩

theorem MarkdownCode_pres_rfl (a : MarkdownCode) : MarkdownCode.Pres a a :=
  ⟨presOpt_refl _, presOpt_refl _, presOpt_refl _, presOpt_refl _, presOpt_refl _⟩

theorem MarkdownCode_pres_trans {a b c : MarkdownCode} (h1 : MarkdownCode.Pres a b)
    (h2 : MarkdownCode.Pres b c) : MarkdownCode.Pres a c :=
  ⟨presOpt_trans h1.1 h2.1, presOpt_trans h1.2.1 h2.2.1, presOpt_trans h1.2.2.1 h2.2.2.1, presOpt_trans h1.2.2.2.1 h2.2.2.2.1, presOpt_trans h1.2.2.2.2 h2.2.2.2.2⟩

theorem Markdown_pres_rfl (a : Markdown) : Markdown.Pres a a :=
  ⟨presSub_refl MarkdownDefault_pres_rfl _, presSub_refl MarkdownCode_pres_rfl _⟩

theorem Markdown_pres_trans {a b c : Markdown} (h1 : Markdown.Pres a b)
    (h2 : Markdown.Pres b c) : Markdown.Pres a c :=
  ⟨presSub_trans (fun a b c => @MarkdownDefault_pres_trans a b c) h1.1 h2.1, presSub_trans (fun a b c => @MarkdownCode_pres_trans a b c) h1.2 h2.2⟩

theorem SidebarLeftDefault_pres_rfl (a : SidebarLeftDefault) : SidebarLeftDefault.Pres a a :=
  ⟨presOpt_refl _, presOpt_refl _⟩

theorem SidebarLeftDefault_pres_trans {a b c : SidebarLeftDefault} (h1 : SidebarLeftDefault.Pres a b)
    (h2 : SidebarLeftDefault.Pres b c) : SidebarLeftDefault.Pres a c :=
  ⟨presOpt_trans h1.1 h2.1, presOpt_trans h1.2 h2.2⟩

theorem SidebarIconButtonSelected_pres_rfl (a : SidebarIconButtonSelected) : SidebarIconButtonSelected.Pres a a :=
  ⟨presOpt_refl _, presOpt_refl _, presOpt_refl _⟩

theorem SidebarIconButtonSelected_pres_trans {a b c : SidebarIconButtonSelected} (h1 : SidebarIconButtonSelected.Pres a b)
    (h2 : SidebarIconButtonSelected.Pres b c) : SidebarIconButtonSelected.Pres a c :=
  ⟨presOpt_trans h1.1 h2.1, presOpt_trans h1.2.1 h2.2.1, presOpt_trans h1.2.2 h2.2.2⟩

theorem SidebarIconButton_pres_rfl (a : SidebarIconButton) : SidebarIconButton.Pres a a :=
  ⟨presOpt_refl _, presSub_refl SidebarIconButtonSelected_pres_rfl _⟩

theorem SidebarIconButton_pres_trans {a b c : SidebarIconButton} (h1 : SidebarIconButton.Pres a b)
    (h2 : SidebarIconButton.Pres b c) : SidebarIconButton.Pres a c :=
  ⟨presOpt_trans h1.1 h2.1, presSub_trans (fun a b c => @SidebarIconButtonSelected_pres_trans a b c) h1.2 h2.2⟩

theorem SidebarLeft_pres_rfl (a : SidebarLeft) : SidebarLeft.Pres a a :=
  ⟨presSub_refl SidebarLeftDefault_pres_rfl _, presSub_refl SidebarIconButton_pres_rfl _⟩

theorem SidebarLeft_pres_trans {a b c : SidebarLeft} (h1 : SidebarLeft.Pres a b)
    (h2 : SidebarLeft.Pres b c) : SidebarLeft.Pres a c :=
  ⟨presSub_trans (fun a b c => @SidebarLeftDefault_pres_trans a b c) h1.1 h2.1, presSub_trans (fun a b c => @SidebarIconButton_pres_trans a b c) h1.2 h2.2⟩

theorem SidebarRightDefault_pres_rfl (a : SidebarRightDefault) : SidebarRightDefault.Pres a a :=
  ⟨presOpt_refl _, presOpt_refl _, presOpt_refl _⟩

theorem SidebarRightDefault_pres_trans {a b c : SidebarRightDefault} (h1 : SidebarRightDefault.Pres a b)
    (h2 : SidebarRightDefault.Pres b c) : SidebarRightDefault.Pres a c :=
  ⟨presOpt_trans h1.1 h2.1, presOpt_trans h1.2.1 h2.2.1, presOpt_trans h1.2.2 h2.2.2⟩

theorem SidebarRightTitle_pres_rfl (a : SidebarRightTitle) : SidebarRightTitle.Pres a a :=
  ⟨presOpt_refl _, presOpt_refl _, presOpt_refl _⟩

theorem SidebarRightTitle_pres_trans {a b c : SidebarRightTitle} (h1 : SidebarRightTitle.Pres a b)
    (h2 : SidebarRightTitle.Pres b c) : SidebarRightTitle.Pres a c :=
  ⟨presOpt_trans h1.1 h2.1, presOpt_trans h1.2.1 h2.2.1, presOpt_trans h1.2.2 h2.2.2⟩

theorem SidebarRight_pres_rfl (a : SidebarRight) : SidebarRight.Pres a a :=
  ⟨presSub_refl SidebarRightDefault_pres_rfl _, presSub_refl SidebarRightTitle_pres_rfl _⟩

theorem SidebarRight_pres_trans {a b c : SidebarRight} (h1 : SidebarRight.Pres a b)
    (h2 : SidebarRight.Pres b c) : SidebarRight.Pres a c :=
  ⟨presSub_trans (fun a b c => @SidebarRightDefault_pres_trans a b c) h1.1 h2.1, presSub_trans (fun a b c => @SidebarRightTitle_pres_trans a b c) h1.2 h2.2⟩

theorem Sidebar_pres_rfl (a : Sidebar) : Sidebar.Pres a a :=
  ⟨presOpt_refl _, presSub_refl SidebarLeft_pres_rfl _, presSub_refl SidebarRight_pres_rfl _⟩

theorem Sidebar_pres_trans {a b c : Sidebar} (h1 : Sidebar.Pres a b)
    (h2 : Sidebar.Pres b c) : Sidebar.Pres a c :=
  ⟨presOpt_trans h1.1 h2.1, presSub_trans (fun a b c => @SidebarLeft_pres_trans a b c) h1.2.1 h2.2.1, presSub_trans (fun a b c => @SidebarRight_pres_trans a b c) h1.2.2 h2.2.2⟩

theorem HomeDefault_pres_rfl (a : HomeDefault) : HomeDefault.Pres a a :=
  ⟨presOpt_refl _, presOpt_refl _, presOpt_refl _, presOpt_refl _⟩

theorem HomeDefault_pres_trans {a b c : HomeDefault} (h1 : HomeDefault.Pres a b)
    (h2 : HomeDefault.Pres b c) : HomeDefault.Pres a c :=
  ⟨presOpt_trans h1.1 h2.1, presOpt_trans h1.2.1 h2.2.1, presOpt_trans h1.2.2.1 h2.2.2.1, presOpt_trans h1.2.2.2 h2.2.2.2⟩

theorem HomeTitle_pres_rfl (a : HomeTitle) : HomeTitle.Pres a a :=
  ⟨presOpt_refl _, presOpt_refl _, presOpt_refl _, presOpt_refl _, presOpt_refl _⟩

theorem HomeTitle_pres_trans {a b c : HomeTitle} (h1 : HomeTitle.Pres a b)
    (h2 : HomeTitle.Pres b c) : HomeTitle.Pres a c :=
  ⟨presOpt_trans h1.1 h2.1, presOpt_trans h1.2.1 h2.2.1, presOpt_trans h1.2.2.1 h2.2.2.1, presOpt_trans h1.2.2.2.1 h2.2.2.2.1, presOpt_trans h1.2.2.2.2 h2.2.2.2.2⟩

theorem ResourcesDefault_pres_rfl (a : ResourcesDefault) : ResourcesDefault.Pres a a :=
  presOpt_refl _

theorem ResourcesDefault_pres_trans {a b c : ResourcesDefault} (h1 : ResourcesDefault.Pres a b)
    (h2 : ResourcesDefault.Pres b c) : ResourcesDefault.Pres a c :=
  presOpt_trans h1 h2

theorem SectionTitle_pres_rfl (a : SectionTitle) : SectionTitle.Pres a a :=
  ⟨presOpt_refl _, presOpt_refl _, presOpt_refl _⟩

theorem SectionTitle_pres_trans {a b c : SectionTitle} (h1 : SectionTitle.Pres a b)
    (h2 : SectionTitle.Pres b c) : SectionTitle.Pres a c :=
  ⟨presOpt_trans h1.1 h2.1, presOpt_trans h1.2.1 h2.2.1, presOpt_trans h1.2.2 h2.2.2⟩

theorem ResourceCardDefault_pres_rfl (a : ResourceCardDefault) : ResourceCardDefault.Pres a a :=
  ⟨presOpt_refl _, presOpt_refl _, presOpt_refl _, presOpt_refl _, presOpt_refl _, presOpt_refl _, presOpt_refl _, presOpt_refl _, presOpt_refl _⟩

theorem ResourceCardDefault_pres_trans {a b c : ResourceCardDefault} (h1 : ResourceCardDefault.Pres a b)
    (h2 : ResourceCardDefault.Pres b c) : ResourceCardDefault.Pres a c :=
  ⟨presOpt_trans h1.1 h2.1, presOpt_trans h1.2.1 h2.2.1, presOpt_trans h1.2.2.1 h2.2.2.1, presOpt_trans h1.2.2.2.1 h2.2.2.2.1, presOpt_trans h1.2.2.2.2.1 h2.2.2.2.2.1, presOpt_trans h1.2.2.2.2.2.1 h2.2.2.2.2.2.1, presOpt_trans h1.2.2.2.2.2.2.1 h2.2.2.2.2.2.2.1, presOpt_trans h1.2.2.2.2.2.2.2.1 h2.2.2.2.2.2.2.2.1, presOpt_trans h1.2.2.2.2.2.2.2.2 h2.2.2.2.2.2.2.2.2⟩

theorem ResourceCardImage_pres_rfl (a : ResourceCardImage) : ResourceCardImage.Pres a a :=
  ⟨presOpt_refl _, presOpt_refl _, presOpt_refl _⟩

theorem ResourceCardImage_pres_trans {a b c : ResourceCardImage} (h1 : ResourceCardImage.Pres a b)
    (h2 : ResourceCardImage.Pres b c) : ResourceCardImage.Pres a c :=
  ⟨presOpt_trans h1.1 h2.1, presOpt_trans h1.2.1 h2.2.1, presOpt_trans h1.2.2 h2.2.2⟩

theorem ResourceCardTitle_pres_rfl (a : ResourceCardTitle) : ResourceCardTitle.Pres a a :=
  ⟨presOpt_refl _, presOpt_refl _, presOpt_refl _, presOpt_refl _, presOpt_refl _⟩

theorem ResourceCardTitle_pres_trans {a b c : ResourceCardTitle} (h1 : ResourceCardTitle.Pres a b)
    (h2 : ResourceCardTitle.Pres b c) : ResourceCardTitle.Pres a c :=
  ⟨presOpt_trans h1.1 h2.1, presOpt_trans h1.2.1 h2.2.1, presOpt_trans h1.2.2.1 h2.2.2.1, presOpt_trans h1.2.2.2.1 h2.2.2.2.1, presOpt_trans h1.2.2.2.2 h2.2.2.2.2⟩

theorem ResourceCardDescription_pres_rfl (a : ResourceCardDescription) : ResourceCardDescription.Pres a a :=
  ⟨presOpt_refl _, presOpt_refl _⟩

theorem ResourceCardDescription_pres_trans {a b c : ResourceCardDescription} (h1 : ResourceCardDescription.Pres a b)
    (h2 : ResourceCardDescription.Pres b c) : ResourceCardDescription.Pres a c :=
  ⟨presOpt_trans h1.1 h2.1, presOpt_trans h1.2 h2.2⟩

theorem ResourceCardButton_pres_rfl (a : ResourceCardButton) : ResourceCardButton.Pres a a :=
  presOpt_refl _

theorem ResourceCardButton_pres_trans {a b c : ResourceCardButton} (h1 : ResourceCardButton.Pres a b)
    (h2 : ResourceCardButton.Pres b c) : ResourceCardButton.Pres a c :=
  presOpt_trans h1 h2

theorem ResourceCard_pres_rfl (a : ResourceCard) : ResourceCard.Pres a a :=
  ⟨presSub_refl ResourceCardDefault_pres_rfl _, presSub_refl ResourceCardImage_pres_rfl _, presSub_refl ResourceCardTitle_pres_rfl _, presSub_refl ResourceCardDescription_pres_rfl _, presSub_refl ResourceCardButton_pres_rfl _⟩

theorem ResourceCard_pres_trans {a b c : ResourceCard} (h1 : ResourceCard.Pres a b)
    (h2 : ResourceCard.Pres b c) : ResourceCard.Pres a c :=
  ⟨presSub_trans (fun a b c => @ResourceCardDefault_pres_trans a b c) h1.1 h2.1, presSub_trans (fun a b c => @ResourceCardImage_pres_trans a b c) h1.2.1 h2.2.1, presSub_trans (fun a b c => @ResourceCardTitle_pres_trans a b c) h1.2.2.1 h2.2.2.1, presSub_trans (fun a b c => @ResourceCardDescription_pres_trans a b c) h1.2.2.2.1 h2.2.2.2.1, presSub_trans (fun a b c => @ResourceCardButton_pres_trans a b c) h1.2.2.2.2 h2.2.2.2.2⟩

theorem HomeResources_pres_rfl (a : HomeResources) : HomeResources.Pres a a :=
  ⟨presSub_refl ResourcesDefault_pres_rfl _, presSub_refl SectionTitle_pres_rfl _, presSub_refl ResourceCard_pres_rfl _⟩

theorem HomeResources_pres_trans {a b c : HomeResources} (h1 : HomeResources.Pres a b)
    (h2 : HomeResources.Pres b c) : HomeResources.Pres a c :=
  ⟨presSub_trans (fun a b c => @ResourcesDefault_pres_trans a b c) h1.1 h2.1, presSub_trans (fun a b c => @SectionTitle_pres_trans a b c) h1.2.1 h2.2.1, presSub_trans (fun a b c => @ResourceCard_pres_trans a b c) h1.2.2 h2.2.2⟩

theorem HomeTutorialsDefault_pres_rfl (a : HomeTutorialsDefault) : HomeTutorialsDefault.Pres a a :=
  ⟨presOpt_refl _, presOpt_refl _⟩

theorem HomeTutorialsDefault_pres_trans {a b c : HomeTutorialsDefault} (h1 : HomeTutorialsDefault.Pres a b)
    (h2 : HomeTutorialsDefault.Pres b c) : HomeTutorialsDefault.Pres a c :=
  ⟨presOpt_trans h1.1 h2.1, presOpt_trans h1.2 h2.2⟩

theorem HomeTutorialCardHover_pres_rfl (a : HomeTutorialCardHover) : HomeTutorialCardHover.Pres a a :=
  presOpt_refl _

theorem HomeTutorialCardHover_pres_trans {a b c : HomeTutorialCardHover} (h1 : HomeTutorialCardHover.Pres a b)
    (h2 : HomeTutorialCardHover.Pres b c) : HomeTutorialCardHover.Pres a c :=
  presOpt_trans h1 h2

theorem HomeTutorialCard_pres_rfl (a : HomeTutorialCard) : HomeTutorialCard.Pres a a :=
  ⟨presOpt_refl _, presOpt_refl _, presOpt_refl _, presOpt_refl _, presOpt_refl _, presOpt_refl _, presOpt_refl _, presOpt_refl _, presOpt_refl _, presSub_refl HomeTutorialCardHover_pres_rfl _⟩

theorem HomeTutorialCard_pres_trans {a b c : HomeTutorialCard} (h1 : HomeTutorialCard.Pres a b)
    (h2 : HomeTutorialCard.Pres b c) : HomeTutorialCard.Pres a c :=
  ⟨presOpt_trans h1.1 h2.1, presOpt_trans h1.2.1 h2.2.1, presOpt_trans h1.2.2.1 h2.2.2.1, presOpt_trans h1.2.2.2.1 h2.2.2.2.1, presOpt_trans h1.2.2.2.2.1 h2.2.2.2.2.1, presOpt_trans h1.2.2.2.2.2.1 h2.2.2.2.2.2.1, presOpt_trans h1.2.2.2.2.2.2.1 h2.2.2.2.2.2.2.1, presOpt_trans h1.2.2.2.2.2.2.2.1 h2.2.2.2.2.2.2.2.1, presOpt_trans h1.2.2.2.2.2.2.2.2.1 h2.2.2.2.2.2.2.2.2.1, presSub_trans (fun a b c => @HomeTutorialCardHover_pres_trans a b c) h1.2.2.2.2.2.2.2.2.2 h2.2.2.2.2.2.2.2.2.2⟩

theorem HomeTutorials_pres_rfl (a : HomeTutorials) : HomeTutorials.Pres a a :=
  ⟨presSub_refl HomeTutorialsDefault_pres_rfl _, presSub_refl SectionTitle_pres_rfl _, presSub_refl HomeTutorialCard_pres_rfl _⟩

theorem HomeTutorials_pres_trans {a b c : HomeTutorials} (h1 : HomeTutorials.Pres a b)
    (h2 : HomeTutorials.Pres b c) : HomeTutorials.Pres a c :=
  ⟨presSub_trans (fun a b c => @HomeTutorialsDefault_pres_trans a b c) h1.1 h2.1, presSub_trans (fun a b c => @SectionTitle_pres_trans a b c) h1.2.1 h2.2.1, presSub_trans (fun a b c => @HomeTutorialCard_pres_trans a b c) h1.2.2 h2.2.2⟩

theorem Home_pres_rfl (a : Home) : Home.Pres a a :=
  ⟨presSub_refl HomeDefault_pres_rfl _, presSub_refl HomeTitle_pres_rfl _, presSub_refl HomeResources_pres_rfl _, presSub_refl HomeTutorials_pres_rfl _⟩

theorem Home_pres_trans {a b c : Home} (h1 : Home.Pres a b)
    (h2 : Home.Pres b c) : Home.Pres a c :=
  ⟨presSub_trans (fun a b c => @HomeDefault_pres_trans a b c) h1.1 h2.1, presSub_trans (fun a b c => @HomeTitle_pres_trans a b c) h1.2.1 h2.2.1, presSub_trans (fun a b c => @HomeResources_pres_trans a b c) h1.2.2.1 h2.2.2.1, presSub_trans (fun a b c => @HomeTutorials_pres_trans a b c) h1.2.2.2 h2.2.2.2⟩

theorem TerminalDefault_pres_rfl (a : TerminalDefault) : TerminalDefault.Pres a a :=
  ⟨presOpt_refl _, presOpt_refl _, presOpt_refl _⟩

theorem TerminalDefault_pres_trans {a b c : TerminalDefault} (h1 : TerminalDefault.Pres a b)
    (h2 : TerminalDefault.Pres b c) : TerminalDefault.Pres a c :=
  ⟨presOpt_trans h1.1 h2.1, presOpt_trans h1.2.1 h2.2.1, presOpt_trans h1.2.2 h2.2.2⟩

theorem XtermCursor_pres_rfl (a : XtermCursor) : XtermCursor.Pres a a :=
  ⟨presOpt_refl _, presOpt_refl _⟩

theorem XtermCursor_pres_trans {a b c : XtermCursor} (h1 : XtermCursor.Pres a b)
    (h2 : XtermCursor.Pres b c) : XtermCursor.Pres a c :=
  ⟨presOpt_trans h1.1 h2.1, presOpt_trans h1.2 h2.2⟩

theorem Xterm_pres_rfl (a : Xterm) : Xterm.Pres a a :=
  ⟨presOpt_refl _, presOpt_refl _, presOpt_refl _, presOpt_refl _, presOpt_refl _, presOpt_refl _, presOpt_refl _, presOpt_refl _, presOpt_refl _, presSub_refl XtermCursor_pres_rfl _⟩

theorem Xterm_pres_trans {a b c : Xterm} (h1 : Xterm.Pres a b)
    (h2 : Xterm.Pres b c) : Xterm.Pres a c :=
  ⟨presOpt_trans h1.1 h2.1, presOpt_trans h1.2.1 h2.2.1, presOpt_trans h1.2.2.1 h2.2.2.1, presOpt_trans h1.2.2.2.1 h2.2.2.2.1, presOpt_trans h1.2.2.2.2.1 h2.2.2.2.2.1, presOpt_trans h1.2.2.2.2.2.1 h2.2.2.2.2.2.1, presOpt_trans h1.2.2.2.2.2.2.1 h2.2.2.2.2.2.2.1, presOpt_trans h1.2.2.2.2.2.2.2.1 h2.2.2.2.2.2.2.2.1, presOpt_trans h1.2.2.2.2.2.2.2.2.1 h2.2.2.2.2.2.2.2.2.1, presSub_trans (fun a b c => @XtermCursor_pres_trans a b c) h1.2.2.2.2.2.2.2.2.2 h2.2.2.2.2.2.2.2.2.2⟩

theorem TerminalComp_pres_rfl (a : TerminalComp) : TerminalComp.Pres a a :=
  ⟨presSub_refl TerminalDefault_pres_rfl _, presSub_refl Xterm_pres_rfl _⟩

theorem TerminalComp_pres_trans {a b c : TerminalComp} (h1 : TerminalComp.Pres a b)
    (h2 : TerminalComp.Pres b c) : TerminalComp.Pres a c :=
  ⟨presSub_trans (fun a b c => @TerminalDefault_pres_trans a b c) h1.1 h2.1, presSub_trans (fun a b c => @Xterm_pres_trans a b c) h1.2 h2.2⟩

theorem BottomDefault_pres_rfl (a : BottomDefault) : BottomDefault.Pres a a :=
  ⟨presOpt_refl _, presOpt_refl _, presOpt_refl _, presOpt_refl _⟩

theorem BottomDefault_pres_trans {a b c : BottomDefault} (h1 : BottomDefault.Pres a b)
    (h2 : BottomDefault.Pres b c) : BottomDefault.Pres a c :=
  ⟨presOpt_trans h1.1 h2.1, presOpt_trans h1.2.1 h2.2.1, presOpt_trans h1.2.2.1 h2.2.2.1, presOpt_trans h1.2.2.2 h2.2.2.2⟩

theorem BottomConnectHover_pres_rfl (a : BottomConnectHover) : BottomConnectHover.Pres a a :=
  presOpt_refl _

theorem BottomConnectHover_pres_trans {a b c : BottomConnectHover} (h1 : BottomConnectHover.Pres a b)
    (h2 : BottomConnectHover.Pres b c) : BottomConnectHover.Pres a c :=
  presOpt_trans h1 h2

theorem BottomConnect_pres_rfl (a : BottomConnect) : BottomConnect.Pres a a :=
  ⟨presOpt_refl _, presOpt_refl _, presSub_refl BottomConnectHover_pres_rfl _⟩

theorem BottomConnect_pres_trans {a b c : BottomConnect} (h1 : BottomConnect.Pres a b)
    (h2 : BottomConnect.Pres b c) : BottomConnect.Pres a c :=
  ⟨presOpt_trans h1.1 h2.1, presOpt_trans h1.2.1 h2.2.1, presSub_trans (fun a b c => @BottomConnectHover_pres_trans a b c) h1.2.2 h2.2.2⟩

theorem Bottom_pres_rfl (a : Bottom) : Bottom.Pres a a :=
  ⟨presSub_refl BottomDefault_pres_rfl _, presSub_refl BottomConnect_pres_rfl _, presOpt_refl _, presOpt_refl _, presOpt_refl _⟩

theorem Bottom_pres_trans {a b c : Bottom} (h1 : Bottom.Pres a b)
    (h2 : Bottom.Pres b c) : Bottom.Pres a c :=
  ⟨presSub_trans (fun a b c => @BottomDefault_pres_trans a b c) h1.1 h2.1, presSub_trans (fun a b c => @BottomConnect_pres_trans a b c) h1.2.1 h2.2.1, presOpt_trans h1.2.2.1 h2.2.2.1, presOpt_trans h1.2.2.2.1 h2.2.2.2.1, presOpt_trans h1.2.2.2.2 h2.2.2.2.2⟩

theorem TutorialDefault_pres_rfl (a : TutorialDefault) : TutorialDefault.Pres a a :=
  ⟨presOpt_refl _, presOpt_refl _, presOpt_refl _, presOpt_refl _, presOpt_refl _, presOpt_refl _⟩

theorem TutorialDefault_pres_trans {a b c : TutorialDefault} (h1 : TutorialDefault.Pres a b)
    (h2 : TutorialDefault.Pres b c) : TutorialDefault.Pres a c :=
  ⟨presOpt_trans h1.1 h2.1, presOpt_trans h1.2.1 h2.2.1, presOpt_trans h1.2.2.1 h2.2.2.1, presOpt_trans h1.2.2.2.1 h2.2.2.2.1, presOpt_trans h1.2.2.2.2.1 h2.2.2.2.2.1, presOpt_trans h1.2.2.2.2.2 h2.2.2.2.2.2⟩

theorem TutorialAboutPage_pres_rfl (a : TutorialAboutPage) : TutorialAboutPage.Pres a a :=
  ⟨presOpt_refl _, presOpt_refl _, presOpt_refl _, presOpt_refl _, presOpt_refl _, presOpt_refl _, presOpt_refl _⟩

theorem TutorialAboutPage_pres_trans {a b c : TutorialAboutPage} (h1 : TutorialAboutPage.Pres a b)
    (h2 : TutorialAboutPage.Pres b c) : TutorialAboutPage.Pres a c :=
  ⟨presOpt_trans h1.1 h2.1, presOpt_trans h1.2.1 h2.2.1, presOpt_trans h1.2.2.1 h2.2.2.1, presOpt_trans h1.2.2.2.1 h2.2.2.2.1, presOpt_trans h1.2.2.2.2.1 h2.2.2.2.2.1, presOpt_trans h1.2.2.2.2.2.1 h2.2.2.2.2.2.1, presOpt_trans h1.2.2.2.2.2.2 h2.2.2.2.2.2.2⟩

theorem TutorialPage_pres_rfl (a : TutorialPage) : TutorialPage.Pres a a :=
  ⟨presOpt_refl _, presOpt_refl _, presOpt_refl _, presOpt_refl _⟩

theorem TutorialPage_pres_trans {a b c : TutorialPage} (h1 : TutorialPage.Pres a b)
    (h2 : TutorialPage.Pres b c) : TutorialPage.Pres a c :=
  ⟨presOpt_trans h1.1 h2.1, presOpt_trans h1.2.1 h2.2.1, presOpt_trans h1.2.2.1 h2.2.2.1, presOpt_trans h1.2.2.2 h2.2.2.2⟩

theorem Tutorial_pres_rfl (a : Tutorial) : Tutorial.Pres a a :=
  ⟨presSub_refl TutorialDefault_pres_rfl _, presSub_refl TutorialAboutPage_pres_rfl _, presSub_refl TutorialPage_pres_rfl _⟩

theorem Tutorial_pres_trans {a b c : Tutorial} (h1 : Tutorial.Pres a b)
    (h2 : Tutorial.Pres b c) : Tutorial.Pres a c :=
  ⟨presSub_trans (fun a b c => @TutorialDefault_pres_trans a b c) h1.1 h2.1, presSub_trans (fun a b c => @TutorialAboutPage_pres_trans a b c) h1.2.1 h2.2.1, presSub_trans (fun a b c => @TutorialPage_pres_trans a b c) h1.2.2 h2.2.2⟩

theorem TutorialsDefault_pres_rfl (a : TutorialsDefault) : TutorialsDefault.Pres a a :=
  ⟨presOpt_refl _, presOpt_refl _, presOpt_refl _, presOpt_refl _⟩

theorem TutorialsDefault_pres_trans {a b c : TutorialsDefault} (h1 : TutorialsDefault.Pres a b)
    (h2 : TutorialsDefault.Pres b c) : TutorialsDefault.Pres a c :=
  ⟨presOpt_trans h1.1 h2.1, presOpt_trans h1.2.1 h2.2.1, presOpt_trans h1.2.2.1 h2.2.2.1, presOpt_trans h1.2.2.2 h2.2.2.2⟩

theorem TutorialsCardDefault_pres_rfl (a : TutorialsCardDefault) : TutorialsCardDefault.Pres a a :=
  ⟨presOpt_refl _, presOpt_refl _, presOpt_refl _, presOpt_refl _, presOpt_refl _, presOpt_refl _⟩

theorem TutorialsCardDefault_pres_trans {a b c : TutorialsCardDefault} (h1 : TutorialsCardDefault.Pres a b)
    (h2 : TutorialsCardDefault.Pres b c) : TutorialsCardDefault.Pres a c :=
  ⟨presOpt_trans h1.1 h2.1, presOpt_trans h1.2.1 h2.2.1, presOpt_trans h1.2.2.1 h2.2.2.1, presOpt_trans h1.2.2.2.1 h2.2.2.2.1, presOpt_trans h1.2.2.2.2.1 h2.2.2.2.2.1, presOpt_trans h1.2.2.2.2.2 h2.2.2.2.2.2⟩

theorem TutorialsCardInfoDefault_pres_rfl (a : TutorialsCardInfoDefault) : TutorialsCardInfoDefault.Pres a a :=
  presOpt_refl _

theorem TutorialsCardInfoDefault_pres_trans {a b c : TutorialsCardInfoDefault} (h1 : TutorialsCardInfoDefault.Pres a b)
    (h2 : TutorialsCardInfoDefault.Pres b c) : TutorialsCardInfoDefault.Pres a c :=
  presOpt_trans h1 h2

theorem TutorialsCardInfoName_pres_rfl (a : TutorialsCardInfoName) : TutorialsCardInfoName.Pres a a :=
  presOpt_refl _

theorem TutorialsCardInfoName_pres_trans {a b c : TutorialsCardInfoName} (h1 : TutorialsCardInfoName.Pres a b)
    (h2 : TutorialsCardInfoName.Pres b c) : TutorialsCardInfoName.Pres a c :=
  presOpt_trans h1 h2

theorem TutorialsCardInfoDescription_pres_rfl (a : TutorialsCardInfoDescription) : TutorialsCardInfoDescription.Pres a a :=
  ⟨presOpt_refl _, presOpt_refl _⟩

theorem TutorialsCardInfoDescription_pres_trans {a b c : TutorialsCardInfoDescription} (h1 : TutorialsCardInfoDescription.Pres a b)
    (h2 : TutorialsCardInfoDescription.Pres b c) : TutorialsCardInfoDescription.Pres a c :=
  ⟨presOpt_trans h1.1 h2.1, presOpt_trans h1.2 h2.2⟩

theorem TutorialsCardInfoCategory_pres_rfl (a : TutorialsCardInfoCategory) : TutorialsCardInfoCategory.Pres a a :=
  ⟨presOpt_refl _, presOpt_refl _, presOpt_refl _, presOpt_refl _, presOpt_refl _, presOpt_refl _, presOpt_refl _, presOpt_refl _⟩

theorem TutorialsCardInfoCategory_pres_trans {a b c : TutorialsCardInfoCategory} (h1 : TutorialsCardInfoCategory.Pres a b)
    (h2 : TutorialsCardInfoCategory.Pres b c) : TutorialsCardInfoCategory.Pres a c :=
  ⟨presOpt_trans h1.1 h2.1, presOpt_trans h1.2.1 h2.2.1, presOpt_trans h1.2.2.1 h2.2.2.1, presOpt_trans h1.2.2.2.1 h2.2.2.2.1, presOpt_trans h1.2.2.2.2.1 h2.2.2.2.2.1, presOpt_trans h1.2.2.2.2.2.1 h2.2.2.2.2.2.1, presOpt_trans h1.2.2.2.2.2.2.1 h2.2.2.2.2.2.2.1, presOpt_trans h1.2.2.2.2.2.2.2 h2.2.2.2.2.2.2.2⟩

theorem TutorialsCardInfo_pres_rfl (a : TutorialsCardInfo) : TutorialsCardInfo.Pres a a :=
  ⟨presSub_refl TutorialsCardInfoDefault_pres_rfl _, presSub_refl TutorialsCardInfoName_pres_rfl _, presSub_refl TutorialsCardInfoDescription_pres_rfl _, presSub_refl TutorialsCardInfoCategory_pres_rfl _⟩

theorem TutorialsCardInfo_pres_trans {a b c : TutorialsCardInfo} (h1 : TutorialsCardInfo.Pres a b)
    (h2 : TutorialsCardInfo.Pres b c) : TutorialsCardInfo.Pres a c :=
  ⟨presSub_trans (fun a b c => @TutorialsCardInfoDefault_pres_trans a b c) h1.1 h2.1, presSub_trans (fun a b c => @TutorialsCardInfoName_pres_trans a b c) h1.2.1 h2.2.1, presSub_trans (fun a b c => @TutorialsCardInfoDescription_pres_trans a b c) h1.2.2.1 h2.2.2.1, presSub_trans (fun a b c => @TutorialsCardInfoCategory_pres_trans a b c) h1.2.2.2 h2.2.2.2⟩

theorem TutorialsCard_pres_rfl (a : TutorialsCard) : TutorialsCard.Pres a a :=
  ⟨presSub_refl TutorialsCardDefault_pres_rfl _, presOpt_refl _, presSub_refl TutorialsCardInfo_pres_rfl _⟩

theorem TutorialsCard_pres_trans {a b c : TutorialsCard} (h1 : TutorialsCard.Pres a b)
    (h2 : TutorialsCard.Pres b c) : TutorialsCard.Pres a c :=
  ⟨presSub_trans (fun a b c => @TutorialsCardDefault_pres_trans a b c) h1.1 h2.1, presOpt_trans h1.2.1 h2.2.1, presSub_trans (fun a b c => @TutorialsCardInfo_pres_trans a b c) h1.2.2 h2.2.2⟩

theorem TutorialsComp_pres_rfl (a : TutorialsComp) : TutorialsComp.Pres a a :=
  ⟨presSub_refl TutorialsDefault_pres_rfl _, presSub_refl TutorialsCard_pres_rfl _⟩

theorem TutorialsComp_pres_trans {a b c : TutorialsComp} (h1 : TutorialsComp.Pres a b)
    (h2 : TutorialsComp.Pres b c) : TutorialsComp.Pres a c :=
  ⟨presSub_trans (fun a b c => @TutorialsDefault_pres_trans a b c) h1.1 h2.1, presSub_trans (fun a b c => @TutorialsCard_pres_trans a b c) h1.2 h2.2⟩

theorem Components_pres_rfl (a : Components) : Components.Pres a a :=
  ⟨presSub_refl Skeleton_pres_rfl _, presSub_refl Button_pres_rfl _, presSub_refl Menu_pres_rfl _, presSub_refl InputComp_pres_rfl _, presSub_refl SelectComp_pres_rfl _, presSub_refl Toast_pres_rfl _, presSub_refl TooltipComp_pres_rfl _, presSub_refl Markdown_pres_rfl _, presSub_refl Sidebar_pres_rfl _, presSub_refl Home_pres_rfl _, presSub_refl TerminalComp_pres_rfl _, presSub_refl Bottom_pres_rfl _, presSub_refl Tutorial_pres_rfl _, presSub_refl TutorialsComp_pres_rfl _⟩

theorem Components_pres_trans {a b c : Components} (h1 : Components.Pres a b)
    (h2 : Components.Pres b c) : Components.Pres a c :=
  ⟨presSub_trans (fun a b c => @Skeleton_pres_trans a b c) h1.1 h2.1, presSub_trans (fun a b c => @Button_pres_trans a b c) h1.2.1 h2.2.1, presSub_trans (fun a b c => @Menu_pres_trans a b c) h1.2.2.1 h2.2.2.1, presSub_trans (fun a b c => @InputComp_pres_trans a b c) h1.2.2.2.1 h2.2.2.2.1, presSub_trans (fun a b c => @SelectComp_pres_trans a b c) h1.2.2.2.2.1 h2.2.2.2.2.1, presSub_trans (fun a b c => @Toast_pres_trans a b c) h1.2.2.2.2.2.1 h2.2.2.2.2.2.1, presSub_trans (fun a b c => @TooltipComp_pres_trans a b c) h1.2.2.2.2.2.2.1 h2.2.2.2.2.2.2.1, presSub_trans (fun a b c => @Markdown_pres_trans a b c) h1.2.2.2.2.2.2.2.1 h2.2.2.2.2.2.2.2.1, presSub_trans (fun a b c => @Sidebar_pres_trans a b c) h1.2.2.2.2.2.2.2.2.1 h2.2.2.2.2.2.2.2.2.1, presSub_trans (fun a b c => @Home_pres_trans a b c) h1.2.2.2.2.2.2.2.2.2.1 h2.2.2.2.2.2.2.2.2.2.1, presSub_trans (fun a b c => @TerminalComp_pres_trans a b c) h1.2.2.2.2.2.2.2.2.2.2.1 h2.2.2.2.2.2.2.2.2.2.2.1, presSub_trans (fun a b c => @Bottom_pres_trans a b c) h1.2.2.2.2.2.2.2.2.2.2.2.1 h2.2.2.2.2.2.2.2.2.2.2.2.1, presSub_trans (fun a b c => @Tutorial_pres_trans a b c) h1.2.2.2.2.2.2.2.2.2.2.2.2.1 h2.2.2.2.2.2.2.2.2.2.2.2.2.1, presSub_trans (fun a b c => @TutorialsComp_pres_trans a b c) h1.2.2.2.2.2.2.2.2.2.2.2.2.2 h2.2.2.2.2.2.2.2.2.2.2.2.2.2⟩

theorem Theme_pres_rfl (a : Theme) : Theme.Pres a a :=
  ⟨rfl, rfl, Colors_pres_rfl _, presSub_refl ThemeFont_pres_rfl _, presOpt_refl _, presOpt_refl _, presOpt_refl _, presOpt_refl _, presOpt_refl _, presSub_refl Components_pres_rfl _⟩

theorem Theme_pres_trans {a b c : Theme} (h1 : Theme.Pres a b)
    (h2 : Theme.Pres b c) : Theme.Pres a c :=
  ⟨h1.1.trans h2.1, h1.2.1.trans h2.2.1, Colors_pres_trans h1.2.2.1 h2.2.2.1, presSub_trans (fun a b c => @ThemeFont_pres_trans a b c) h1.2.2.2.1 h2.2.2.2.1, presOpt_trans h1.2.2.2.2.1 h2.2.2.2.2.1, presOpt_trans h1.2.2.2.2.2.1 h2.2.2.2.2.2.1, presOpt_trans h1.2.2.2.2.2.2.1 h2.2.2.2.2.2.2.1, presOpt_trans h1.2.2.2.2.2.2.2.1 h2.2.2.2.2.2.2.2.1, presOpt_trans h1.2.2.2.2.2.2.2.2.1 h2.2.2.2.2.2.2.2.2.1, presSub_trans (fun a b c => @Components_pres_trans a b c) h1.2.2.2.2.2.2.2.2.2 h2.2.2.2.2.2.2.2.2.2⟩

/-! ### Each fill step preserves every present field -/

theorem themeFontFill_pres (fnt : PgFont) (d : ThemeDefaults) (f : ThemeFont) :
    ThemeFont.Pres f (themeFontFill fnt d f) :=
  ⟨presOpt_nset _ _, presOpt_nset _ _⟩

theorem stateColorFill_pres (low : String) (s : StateColor) :
    StateColor.Pres s (stateColorFill low s) :=
  ⟨rfl, presOpt_nset _ _⟩

theorem skeletonFill_pres (t : Theme) (sk : Skeleton) :
    Skeleton.Pres sk (skeletonFill t sk) :=
  ⟨presOpt_nset _ _, presOpt_nset _ _, presOpt_nmerge _ _⟩

theorem buttonDefaultFill_pres (t : Theme) (bd : ButtonDefault) :
    ButtonDefault.Pres bd (buttonDefaultFill t bd) :=
  ⟨presOpt_nset _ _, presOpt_nset _ _, presOpt_nset _ _, presOpt_nmerge _ _,
    presOpt_nset _ _, presOpt_nset _ _, presOpt_nset _ _⟩

theorem buttonFill_pres (t : Theme) (b : Button) : Button.Pres b (buttonFill t b) :=
  presSub_fill (buttonDefaultFill t) {} b.default (buttonDefaultFill_pres t)

theorem menuDefaultFill_pres (t : Theme) (md : MenuDefault) :
    MenuDefault.Pres md (menuDefaultFill t md) :=
  ⟨presOpt_nset _ _, presOpt_nmerge _ _, presOpt_nset _ _, presOpt_nmerge _ _⟩

theorem menuFill_pres (t : Theme) (m : Menu) : Menu.Pres m (menuFill t m) :=
  presSub_fill (menuDefaultFill t) {} m.default (menuDefaultFill_pres t)

theorem inputFocusFill_pres (t : Theme) (f : InputFocus) :
    InputFocus.Pres f (inputFocusFill t f) :=
  presOpt_nset _ _

theorem inputFill_pres (t : Theme) (inp : InputComp) :
    InputComp.Pres inp (inputFill t inp) :=
  ⟨presOpt_nset _ _, presOpt_nset _ _, presOpt_nset _ _, presOpt_nmerge _ _,
    presOpt_nset _ _, presOpt_nset _ _, presOpt_nset _ _, presOpt_nset _ _,
    presSub_fill (inputFocusFill t) {} inp.focus (inputFocusFill_pres t),
    presSub_fill (inputFocusFill t) {} inp.focusWithin (inputFocusFill_pres t)⟩

theorem selectDefaultFill_pres (t : Theme) (sd : SelectDefault) :
    SelectDefault.Pres sd (selectDefaultFill t sd) :=
  presOpt_nset _ _

theorem selectControlHoverFill_pres (t : Theme) (ch : SelectControlHover) :
    SelectControlHover.Pres ch (selectControlHoverFill t ch) :=
  ⟨presOpt_nset _ _, presOpt_nset _ _⟩

theorem selectControlFocusWithinFill_pres (t : Theme) (f : SelectControlFocusWithin) :
    SelectControlFocusWithin.Pres f (selectControlFocusWithinFill t f) :=
  presOpt_nset _ _

theorem selectControlFill_pres (t : Theme) (c : Components) (ctl : SelectControl) :
    SelectControl.Pres ctl (selectControlFill t c ctl) :=
  ⟨presOpt_nmerge _ _, presOpt_nset _ _, presOpt_nmerge _ _, presOpt_nset _ _,
    presSub_fill (selectControlHoverFill t) {} ctl.hover (selectControlHoverFill_pres t),
    presSub_fill (selectControlFocusWithinFill t) {} ctl.focusWithin
      (selectControlFocusWithinFill_pres t)⟩

theorem selectMenuFill_pres (c : Components) (sm : SelectMenu) :
    SelectMenu.Pres sm (selectMenuFill c sm) :=
  ⟨presOpt_nmerge _ _, presOpt_nmerge _ _, presOpt_nmerge _ _⟩

theorem selectOptionBeforeFill_pres (t : Theme) (b : SelectOptionBefore) :
    SelectOptionBefore.Pres b (selectOptionBeforeFill t b) :=
  presOpt_nset _ _

theorem selectOptionFocusFill_pres (t : Theme) (f : SelectOptionFocus) :
    SelectOptionFocus.Pres f (selectOptionFocusFill t f) :=
  ⟨presOpt_nmerge _ _, presOpt_nset _ _⟩

theorem selectOptionActiveFill_pres (t : Theme) (a : SelectOptionActive) :
    SelectOptionActive.Pres a (selectOptionActiveFill t a) :=
  presOpt_nmerge _ _

theorem selectOptionFill_pres (t : Theme) (c : Components) (so : SelectOption) :
    SelectOption.Pres so (selectOptionFill t c so) :=
  ⟨presOpt_nmerge _ _, presOpt_nset _ _, presOpt_nset _ _,
    presSub_fill (selectOptionBeforeFill t) {} so.before (selectOptionBeforeFill_pres t),
    presSub_fill (selectOptionFocusFill t) {} so.focus (selectOptionFocusFill_pres t),
    presSub_fill (selectOptionActiveFill t) {} so.active (selectOptionActiveFill_pres t)⟩

theorem selectSingleValueFill_pres (c : Components) (sv : SelectSingleValue) :
    SelectSingleValue.Pres sv (selectSingleValueFill c sv) :=
  ⟨presOpt_nmerge _ _, presOpt_nmerge _ _⟩

theorem selectInputFill_pres (c : Components) (si : SelectInput) :
    SelectInput.Pres si (selectInputFill c si) :=
  presOpt_nmerge _ _

theorem selectGroupHeadingFill_pres (t : Theme) (gh : SelectGroupHeading) :
    SelectGroupHeading.Pres gh (selectGroupHeadingFill t gh) :=
  presOpt_nset _ _

theorem selectDropdownIndicatorFill_pres (di : SelectDropdownIndicator) :
    SelectDropdownIndicator.Pres di (selectDropdownIndicatorFill di) :=
  presOpt_nset _ _

theorem selectIndicatorSeparatorFill_pres (t : Theme) (isep : SelectIndicatorSeparator) :
    SelectIndicatorSeparator.Pres isep (selectIndicatorSeparatorFill t isep) :=
  presOpt_nset _ _

theorem selectFill_pres (t : Theme) (c : Components) (s : SelectComp) :
    SelectComp.Pres s (selectFill t c s) :=
  ⟨presSub_fill (selectDefaultFill t) {} s.default (selectDefaultFill_pres t),
    presSub_fill (selectControlFill t c) {} s.control (selectControlFill_pres t c),
    presSub_fill (selectMenuFill c) {} s.menu (selectMenuFill_pres c),
    presSub_fill (selectOptionFill t c) {} s.option (selectOptionFill_pres t c),
    presSub_fill (selectSingleValueFill c) {} s.singleValue (selectSingleValueFill_pres c),
    presSub_fill (selectInputFill c) {} s.input (selectInputFill_pres c),
    presSub_fill (selectGroupHeadingFill t) {} s.groupHeading (selectGroupHeadingFill_pres t),
    presSub_fill selectDropdownIndicatorFill {} s.dropdownIndicator
      selectDropdownIndicatorFill_pres,
    presSub_fill (selectIndicatorSeparatorFill t) {} s.indicatorSeparator
      (selectIndicatorSeparatorFill_pres t)⟩

theorem toastDefaultFill_pres (t : Theme) (td : ToastDefault) :
    ToastDefault.Pres td (toastDefaultFill t td) :=
  ⟨presOpt_nset _ _, presOpt_nset _ _, presOpt_nmerge _ _, presOpt_nset _ _,
    presOpt_nset _ _, presOpt_nset _ _⟩

theorem toastProgressFill_pres (t : Theme) (tp : ToastProgress) :
    ToastProgress.Pres tp (toastProgressFill t tp) :=
  presOpt_nset _ _

theorem toastCloseButtonFill_pres (t : Theme) (tc : ToastCloseButton) :
    ToastCloseButton.Pres tc (toastCloseButtonFill t tc) :=
  presOpt_nset _ _

theorem toastFill_pres (t : Theme) (toa : Toast) : Toast.Pres toa (toastFill t toa) :=
  ⟨presSub_fill (toastDefaultFill t) {} toa.default (toastDefaultFill_pres t),
    presSub_fill (toastProgressFill t) {} toa.progress (toastProgressFill_pres t),
    presSub_fill (toastCloseButtonFill t) {} toa.closeButton (toastCloseButtonFill_pres t)⟩

theorem tooltipFill_pres (t : Theme) (tt : TooltipComp) :
    TooltipComp.Pres tt (tooltipFill t tt) :=
  ⟨presOpt_nset _ _, presOpt_nset _ _, presOpt_nset _ _, presOpt_nmerge _ _,
    presOpt_nmerge _ _, presOpt_nset _ _⟩

theorem markdownDefaultFill_pres (t : Theme) (md : MarkdownDefault) :
    MarkdownDefault.Pres md (markdownDefaultFill t md) :=
  ⟨presOpt_nset _ _, presOpt_nset _ _, presOpt_nset _ _, presOpt_nset _ _⟩

theorem markdownCodeFill_pres (t : Theme) (mc : MarkdownCode) :
    MarkdownCode.Pres mc (markdownCodeFill t mc) :=
  ⟨presOpt_nset _ _, presOpt_nset _ _, presOpt_nmerge _ _, presOpt_nset _ _,
    presOpt_nset _ _⟩

theorem markdownFill_pres (t : Theme) (m : Markdown) : Markdown.Pres m (markdownFill t m) :=
  ⟨presSub_fill (markdownDefaultFill t) {} m.default (markdownDefaultFill_pres t),
    presSub_fill (markdownCodeFill t) {} m.code (markdownCodeFill_pres t)⟩

theorem sidebarLeftDefaultFill_pres (t : Theme) (ld : SidebarLeftDefault) :
    SidebarLeftDefault.Pres ld (sidebarLeftDefaultFill t ld) :=
  ⟨presOpt_nset _ _, presOpt_nset _ _⟩

theorem sidebarSelectedFill_pres (t : Theme) (sel : SidebarIconButtonSelected) :
    SidebarIconButtonSelected.Pres sel (sidebarSelectedFill t sel) :=
  ⟨presOpt_nmerge _ _, presOpt_nset _ _, presOpt_nset _ _⟩

theorem sidebarIconButtonFill_pres (t : Theme) (ib : SidebarIconButton) :
    SidebarIconButton.Pres ib (sidebarIconButtonFill t ib) :=
  ⟨presOpt_nset _ _,
    presSub_fill (sidebarSelectedFill t) {} ib.selected (sidebarSelectedFill_pres t)⟩

theorem sidebarLeftFill_pres (t : Theme) (l : SidebarLeft) :
    SidebarLeft.Pres l (sidebarLeftFill t l) :=
  ⟨presSub_fill (sidebarLeftDefaultFill t) {} l.default (sidebarLeftDefaultFill_pres t),
    presSub_fill (sidebarIconButtonFill t) {} l.iconButton (sidebarIconButtonFill_pres t)⟩

theorem sidebarRightDefaultFill_pres (t : Theme) (rd : SidebarRightDefault) :
    SidebarRightDefault.Pres rd (sidebarRightDefaultFill t rd) :=
  ⟨presOpt_nset _ _, presOpt_nset _ _, presOpt_nset _ _⟩

theorem sidebarRightTitleFill_pres (t : Theme) (rt : SidebarRightTitle) :
    SidebarRightTitle.Pres rt (sidebarRightTitleFill t rt) :=
  ⟨presOpt_nset _ _, presOpt_nset _ _, presOpt_nset _ _⟩

theorem sidebarRightFill_pres (t : Theme) (r : SidebarRight) :
    SidebarRight.Pres r (sidebarRightFill t r) :=
  ⟨presSub_fill (sidebarRightDefaultFill t) {} r.default (sidebarRightDefaultFill_pres t),
    presSub_fill (sidebarRightTitleFill t) {} r.title (sidebarRightTitleFill_pres t)⟩

theorem sidebarFill_pres (t : Theme) (sb : Sidebar) : Sidebar.Pres sb (sidebarFill t sb) :=
  ⟨presOpt_nset _ _,
    presSub_fill (sidebarLeftFill t) {} sb.left (sidebarLeftFill_pres t),
    presSub_fill (sidebarRightFill t) {} sb.right (sidebarRightFill_pres t)⟩

theorem activeLineFill_pres (t : Theme) (al : ActiveLine) :
    ActiveLine.Pres al (activeLineFill t al) :=
  ⟨presOpt_nset _ _, presOpt_nset _ _⟩

theorem editorSelectionFill_pres (t : Theme) (sl : EditorSelection) :
    EditorSelection.Pres sl (editorSelectionFill t sl) :=
  ⟨presOpt_nset _ _, presOpt_nset _ _⟩

theorem searchMatchFill_pres (t : Theme) (sm : SearchMatch) :
    SearchMatch.Pres sm (searchMatchFill t sm) :=
  ⟨presOpt_nset _ _, presOpt_nset _ _, presOpt_nset _ _, presOpt_nset _ _⟩

theorem gutterFill_pres (t : Theme) (ebg : Option String) (g : Gutter) :
    Gutter.Pres g (gutterFill t ebg g) :=
  ⟨presOpt_nmerge _ _, presOpt_nset _ _⟩

theorem editorTooltipFill_pres (t : Theme) (et : EditorTooltip) :
    EditorTooltip.Pres et (editorTooltipFill t et) :=
  ⟨presOpt_nset _ _, presOpt_nset _ _, presOpt_nset _ _, presOpt_nset _ _⟩

theorem editorFill_pres (t : Theme) (e0 : EditorColors) :
    EditorColors.Pres e0 (editorFill t e0) :=
  ⟨presOpt_nset _ _, presOpt_nset _ _, presOpt_nset _ _,
    presSub_fill (activeLineFill t) {} e0.activeLine (activeLineFill_pres t),
    presSub_fill (editorSelectionFill t) {} e0.selection (editorSelectionFill_pres t),
    presSub_fill (searchMatchFill t) {} e0.searchMatch (searchMatchFill_pres t),
    presSub_fill (gutterFill t (nset e0.bg t.colors.default.bgPrimary)) {} e0.gutter
      (gutterFill_pres t _),
    presSub_fill (editorTooltipFill t) {} e0.tooltip (editorTooltipFill_pres t)⟩

theorem homeDefaultFill_pres (t : Theme) (hd : HomeDefault) :
    HomeDefault.Pres hd (homeDefaultFill t hd) :=
  ⟨presOpt_nset _ _, presOpt_nset _ _, presOpt_nset _ _, presOpt_nset _ _⟩

theorem homeTitleFill_pres (t : Theme) (ht : HomeTitle) :
    HomeTitle.Pres ht (homeTitleFill t ht) :=
  ⟨presOpt_nset _ _, presOpt_nset _ _, presOpt_nset _ _, presOpt_nset _ _,
    presOpt_nset _ _⟩

theorem sectionTitleFill_pres (st : SectionTitle) :
    SectionTitle.Pres st (sectionTitleFill st) :=
  ⟨presOpt_nset _ _, presOpt_nset _ _, presOpt_nset _ _⟩

theorem resourceCardDefaultFill_pres (t : Theme) (cd : ResourceCardDefault) :
    ResourceCardDefault.Pres cd (resourceCardDefaultFill t cd) :=
  ⟨presOpt_nset _ _, presOpt_nset _ _, presOpt_nset _ _, presOpt_nmerge _ _,
    presOpt_nset _ _, presOpt_nset _ _, presOpt_nset _ _, presOpt_nset _ _,
    presOpt_nset _ _⟩

theorem resourceCardImageFill_pres (ci : ResourceCardImage) :
    ResourceCardImage.Pres ci (resourceCardImageFill ci) :=
  ⟨presOpt_nset _ _, presOpt_nset _ _, presOpt_nset _ _⟩

theorem resourceCardTitleFill_pres (t : Theme) (ct : ResourceCardTitle) :
    ResourceCardTitle.Pres ct (resourceCardTitleFill t ct) :=
  ⟨presOpt_nset _ _, presOpt_nset _ _, presOpt_nset _ _, presOpt_nset _ _,
    presOpt_nset _ _⟩

theorem resourceCardDescriptionFill_pres (t : Theme) (cde : ResourceCardDescription) :
    ResourceCardDescription.Pres cde (resourceCardDescriptionFill t cde) :=
  ⟨presOpt_nset _ _, presOpt_nset _ _⟩

theorem resourceCardButtonFill_pres (cb : ResourceCardButton) :
    ResourceCardButton.Pres cb (resourceCardButtonFill cb) :=
  presOpt_nset _ _

theorem resourceCardFill_pres (t : Theme) (card : ResourceCard) :
    ResourceCard.Pres card (resourceCardFill t card) :=
  ⟨presSub_fill (resourceCardDefaultFill t) {} card.default (resourceCardDefaultFill_pres t),
    presSub_fill resourceCardImageFill {} card.image resourceCardImageFill_pres,
    presSub_fill (resourceCardTitleFill t) {} card.title (resourceCardTitleFill_pres t),
    presSub_fill (resourceCardDescriptionFill t) {} card.description
      (resourceCardDescriptionFill_pres t),
    presSub_fill resourceCardButtonFill {} card.button resourceCardButtonFill_pres⟩

theorem homeResourcesDefaultFill_pres (rd : ResourcesDefault) :
    ResourcesDefault.Pres rd (homeResourcesDefaultFill rd) :=
  presOpt_nset _ _

theorem homeResourcesFill_pres (t : Theme) (res : HomeResources) :
    HomeResources.Pres res (homeResourcesFill t res) :=
  ⟨presSub_fill homeResourcesDefaultFill {} res.default homeResourcesDefaultFill_pres,
    presSub_fill sectionTitleFill {} res.title sectionTitleFill_pres,
    presSub_fill (resourceCardFill t) {} res.card (resourceCardFill_pres t)⟩

theorem homeTutorialCardHoverFill_pres (t : Theme) (hv : HomeTutorialCardHover) :
    HomeTutorialCardHover.Pres hv (homeTutorialCardHoverFill t hv) :=
  presOpt_nmerge _ _

theorem homeTutorialCardFill_pres (t : Theme) (tc : HomeTutorialCard) :
    HomeTutorialCard.Pres tc (homeTutorialCardFill t tc) :=
  ⟨presOpt_nset _ _, presOpt_nset _ _, presOpt_nset _ _, presOpt_nmerge _ _,
    presOpt_nset _ _, presOpt_nset _ _, presOpt_nset _ _, presOpt_nset _ _,
    presOpt_nset _ _,
    presSub_fill (homeTutorialCardHoverFill t) {} tc.hover (homeTutorialCardHoverFill_pres t)⟩

theorem homeTutorialsDefaultFill_pres (td : HomeTutorialsDefault) :
    HomeTutorialsDefault.Pres td (homeTutorialsDefaultFill td) :=
  ⟨presOpt_nset _ _, presOpt_nset _ _⟩

theorem homeTutorialsFill_pres (t : Theme) (tut : HomeTutorials) :
    HomeTutorials.Pres tut (homeTutorialsFill t tut) :=
  ⟨presSub_fill homeTutorialsDefaultFill {} tut.default homeTutorialsDefaultFill_pres,
    presSub_fill sectionTitleFill {} tut.title sectionTitleFill_pres,
    presSub_fill (homeTutorialCardFill t) {} tut.card (homeTutorialCardFill_pres t)⟩

theorem homeFill_pres (t : Theme) (hm : Home) : Home.Pres hm (homeFill t hm) :=
  ⟨presSub_fill (homeDefaultFill t) {} hm.default (homeDefaultFill_pres t),
    presSub_fill (homeTitleFill t) {} hm.title (homeTitleFill_pres t),
    presSub_fill (homeResourcesFill t) {} hm.resources (homeResourcesFill_pres t),
    presSub_fill (homeTutorialsFill t) {} hm.tutorials (homeTutorialsFill_pres t)⟩

theorem terminalDefaultFill_pres (t : Theme) (td : TerminalDefault) :
    TerminalDefault.Pres td (terminalDefaultFill t td) :=
  ⟨presOpt_nset _ _, presOpt_nset _ _, presOpt_nset _ _⟩

theorem xtermCursorFill_pres (t : Theme) (tdbg : Option String) (xc : XtermCursor) :
    XtermCursor.Pres xc (xtermCursorFill t tdbg xc) :=
  ⟨presOpt_nset _ _, presOpt_nmerge _ _⟩

theorem xtermFill_pres (t : Theme) (tdbg : Option String) (x : Xterm) :
    Xterm.Pres x (xtermFill t tdbg x) :=
  ⟨presOpt_nset _ _, presOpt_nset _ _, presOpt_nset _ _, presOpt_nset _ _,
    presOpt_nset _ _, presOpt_nset _ _, presOpt_nset _ _, presOpt_nset _ _,
    presOpt_nset _ _,
    presSub_fill (xtermCursorFill t tdbg) {} x.cursor (xtermCursorFill_pres t tdbg)⟩

theorem terminalFill_pres (t : Theme) (term : TerminalComp) :
    TerminalComp.Pres term (terminalFill t term) :=
  ⟨presSub_fill (terminalDefaultFill t) {} term.default (terminalDefaultFill_pres t),
    presSub_fill (xtermFill t (terminalDefaultFill t (term.default.getD {})).bg) {}
      term.xterm (xtermFill_pres t _)⟩

theorem bottomDefaultFill_pres (t : Theme) (bd : BottomDefault) :
    BottomDefault.Pres bd (bottomDefaultFill t bd) :=
  ⟨presOpt_nset _ _, presOpt_nset _ _, presOpt_nset _ _, presOpt_nset _ _⟩

theorem bottomConnectHoverFill_pres (t : Theme) (bdColor : Option String)
    (bh : BottomConnectHover) :
    BottomConnectHover.Pres bh (bottomConnectHoverFill t bdColor bh) :=
  presOpt_nset _ _

theorem bottomConnectFill_pres (t : Theme) (bdColor : Option String) (bc : BottomConnect) :
    BottomConnect.Pres bc (bottomConnectFill t bdColor bc) :=
  ⟨presOpt_nset _ _, presOpt_nset _ _,
    presSub_fill (bottomConnectHoverFill t bdColor) {} bc.hover
      (bottomConnectHoverFill_pres t bdColor)⟩

theorem bottomFill_pres (t : Theme) (bot : Bottom) : Bottom.Pres bot (bottomFill t bot) :=
  ⟨presSub_fill (bottomDefaultFill t) {} bot.default (bottomDefaultFill_pres t),
    presSub_fill (bottomConnectFill t (bottomDefaultFill t (bot.default.getD {})).color) {}
      bot.connect (bottomConnectFill_pres t _),
    presOpt_nset _ _, presOpt_nset _ _, presOpt_nset _ _⟩

theorem tutorialDefaultFill_pres (t : Theme) (td : TutorialDefault) :
    TutorialDefault.Pres td (tutorialDefaultFill t td) :=
  ⟨presOpt_nset _ _, presOpt_nset _ _, presOpt_nset _ _, presOpt_nset _ _,
    presOpt_nset _ _, presOpt_nset _ _⟩

theorem tutorialAboutPageFill_pres (t : Theme) (ap : TutorialAboutPage) :
    TutorialAboutPage.Pres ap (tutorialAboutPageFill t ap) :=
  ⟨presOpt_nset _ _, presOpt_nmerge _ _, presOpt_nmerge _ _, presOpt_nset _ _,
    presOpt_nset _ _, presOpt_nset _ _, presOpt_nset _ _⟩

theorem tutorialPageFill_pres (t : Theme) (tp : TutorialPage) :
    TutorialPage.Pres tp (tutorialPageFill t tp) :=
  ⟨presOpt_nset _ _, presOpt_nset _ _, presOpt_nset _ _, presOpt_nset _ _⟩

theorem tutorialFill_pres (t : Theme) (tu : Tutorial) : Tutorial.Pres tu (tutorialFill t tu) :=
  ⟨presSub_fill (tutorialDefaultFill t) {} tu.default (tutorialDefaultFill_pres t),
    presSub_fill (tutorialAboutPageFill t) {} tu.aboutPage (tutorialAboutPageFill_pres t),
    presSub_fill (tutorialPageFill t) {} tu.tutorialPage (tutorialPageFill_pres t)⟩

theorem tutorialsDefaultFill_pres (t : Theme) (td : TutorialsDefault) :
    TutorialsDefault.Pres td (tutorialsDefaultFill t td) :=
  ⟨presOpt_nset _ _, presOpt_nset _ _, presOpt_nset _ _, presOpt_nset _ _⟩

theorem tutorialsCardDefaultFill_pres (t : Theme) (cd : TutorialsCardDefault) :
    TutorialsCardDefault.Pres cd (tutorialsCardDefaultFill t cd) :=
  ⟨presOpt_nset _ _, presOpt_nset _ _, presOpt_nset _ _, presOpt_nmerge _ _,
    presOpt_nmerge _ _, presOpt_nset _ _⟩

theorem tutorialsCardInfoDefaultFill_pres (d : TutorialsCardInfoDefault) :
    TutorialsCardInfoDefault.Pres d (tutorialsCardInfoDefaultFill d) :=
  presOpt_nset _ _

theorem tutorialsCardInfoNameFill_pres (nm : TutorialsCardInfoName) :
    TutorialsCardInfoName.Pres nm (tutorialsCardInfoNameFill nm) :=
  presOpt_nset _ _

theorem tutorialsCardInfoDescriptionFill_pres (t : Theme) (d : TutorialsCardInfoDescription) :
    TutorialsCardInfoDescription.Pres d (tutorialsCardInfoDescriptionFill t d) :=
  ⟨presOpt_nset _ _, presOpt_nset _ _⟩

theorem tutorialsCardInfoCategoryFill_pres (t : Theme) (tdbg : Option String)
    (cat : TutorialsCardInfoCategory) :
    TutorialsCardInfoCategory.Pres cat (tutorialsCardInfoCategoryFill t tdbg cat) :=
  ⟨presOpt_nset _ _, presOpt_nmerge _ _, presOpt_nset _ _, presOpt_nset _ _,
    presOpt_nset _ _, presOpt_nmerge _ _, presOpt_nmerge _ _, presOpt_nset _ _⟩

theorem tutorialsCardInfoFill_pres (t : Theme) (tdbg : Option String)
    (info : TutorialsCardInfo) :
    TutorialsCardInfo.Pres info (tutorialsCardInfoFill t tdbg info) :=
  ⟨presSub_fill tutorialsCardInfoDefaultFill {} info.default tutorialsCardInfoDefaultFill_pres,
    presSub_fill tutorialsCardInfoNameFill {} info.name tutorialsCardInfoNameFill_pres,
    presSub_fill (tutorialsCardInfoDescriptionFill t) {} info.description
      (tutorialsCardInfoDescriptionFill_pres t),
    presSub_fill (tutorialsCardInfoCategoryFill t tdbg) {} info.category
      (tutorialsCardInfoCategoryFill_pres t tdbg)⟩

theorem tutorialsCardFill_pres (t : Theme) (tdbg : Option String) (card : TutorialsCard) :
    TutorialsCard.Pres card (tutorialsCardFill t tdbg card) :=
  ⟨presSub_fill (tutorialsCardDefaultFill t) {} card.default (tutorialsCardDefaultFill_pres t),
    presOpt_nset _ _,
    presSub_fill (tutorialsCardInfoFill t tdbg) {} card.info (tutorialsCardInfoFill_pres t tdbg)⟩

theorem tutorialsFill_pres (t : Theme) (ts : TutorialsComp) :
    TutorialsComp.Pres ts (tutorialsFill t ts) :=
  ⟨presSub_fill (tutorialsDefaultFill t) {} ts.default (tutorialsDefaultFill_pres t),
    presSub_fill (tutorialsCardFill t (tutorialsDefaultFill t (ts.default.getD {})).bg) {}
      ts.card (tutorialsCardFill_pres t _)⟩

theorem fillFonts_pres (fnt : PgFont) (d : ThemeDefaults) (t : Theme) :
    Theme.Pres t (fillFonts fnt d t) :=
  ⟨rfl, rfl, Colors_pres_rfl _,
    presSub_fill (themeFontFill fnt d) {} t.font (themeFontFill_pres fnt d),
    presOpt_refl _, presOpt_refl _, presOpt_refl _, presOpt_refl _, presOpt_refl _,
    presSub_refl Components_pres_rfl _⟩

theorem fillTransparency_pres (d : ThemeDefaults) (t : Theme) :
    Theme.Pres t (fillTransparency d t) :=
  ⟨rfl, rfl, Colors_pres_rfl _, presSub_refl ThemeFont_pres_rfl _,
    presOpt_nset _ _, presOpt_refl _, presOpt_refl _, presOpt_refl _, presOpt_refl _,
    presSub_refl Components_pres_rfl _⟩

theorem fillBorderRadius_pres (d : ThemeDefaults) (t : Theme) :
    Theme.Pres t (fillBorderRadius d t) :=
  ⟨rfl, rfl, Colors_pres_rfl _, presSub_refl ThemeFont_pres_rfl _,
    presOpt_refl _, presOpt_nset _ _, presOpt_refl _, presOpt_refl _, presOpt_refl _,
    presSub_refl Components_pres_rfl _⟩

theorem fillBoxShadow_pres (d : ThemeDefaults) (t : Theme) :
    Theme.Pres t (fillBoxShadow d t) :=
  ⟨rfl, rfl, Colors_pres_rfl _, presSub_refl ThemeFont_pres_rfl _,
    presOpt_refl _, presOpt_refl _, presOpt_nset _ _, presOpt_refl _, presOpt_refl _,
    presSub_refl Components_pres_rfl _⟩

theorem fillScrollbar_pres (d : ThemeDefaults) (t : Theme) :
    Theme.Pres t (fillScrollbar d t) :=
  ⟨rfl, rfl, Colors_pres_rfl _, presSub_refl ThemeFont_pres_rfl _,
    presOpt_refl _, presOpt_refl _, presOpt_refl _, presOpt_nset _ _, presOpt_refl _,
    presSub_refl Components_pres_rfl _⟩

theorem fillTransition_pres (d : ThemeDefaults) (t : Theme) :
    Theme.Pres t (fillTransition d t) :=
  ⟨rfl, rfl, Colors_pres_rfl _, presSub_refl ThemeFont_pres_rfl _,
    presOpt_refl _, presOpt_refl _, presOpt_refl _, presOpt_refl _, presOpt_nset _ _,
    presSub_refl Components_pres_rfl _⟩

theorem fillStateColors_pres (t : Theme) : Theme.Pres t (fillStateColors t) :=
  ⟨rfl, rfl,
    ⟨rfl,
      ⟨stateColorFill_pres _ _, stateColorFill_pres _ _, stateColorFill_pres _ _,
        stateColorFill_pres _ _, stateColorFill_pres _ _, stateColorFill_pres _ _⟩,
      presSub_refl EditorColors_pres_rfl _⟩,
    presSub_refl ThemeFont_pres_rfl _, presOpt_refl _, presOpt_refl _, presOpt_refl _,
    presOpt_refl _, presOpt_refl _, presSub_refl Components_pres_rfl _⟩

theorem fillComponents_pres (t : Theme) : Theme.Pres t (fillComponents t) :=
  ⟨rfl, rfl, Colors_pres_rfl _, presSub_refl ThemeFont_pres_rfl _,
    presOpt_refl _, presOpt_refl _, presOpt_refl _, presOpt_refl _, presOpt_refl _,
    presSub_nset Components_pres_rfl _ _⟩

theorem fillEditor_pres (t : Theme) : Theme.Pres t (fillEditor t) :=
  ⟨rfl, rfl,
    ⟨rfl, StateColors_pres_rfl _,
      presSub_fill (editorFill t) {} t.colors.editor (editorFill_pres t)⟩,
    presSub_refl ThemeFont_pres_rfl _, presOpt_refl _, presOpt_refl _, presOpt_refl _,
    presOpt_refl _, presOpt_refl _, presSub_refl Components_pres_rfl _⟩

theorem fillSkeleton_pres (t : Theme) : Theme.Pres t (fillSkeleton t) := by
  rcases h : t.components with _ | c
  · simp only [fillSkeleton, h]
    exact Theme_pres_rfl t
  · simp only [fillSkeleton, h]
    exact ⟨rfl, rfl, Colors_pres_rfl _, presSub_refl ThemeFont_pres_rfl _, presOpt_refl _,
      presOpt_refl _, presOpt_refl _, presOpt_refl _, presOpt_refl _,
      presSub_some h
        ⟨presSub_fill (skeletonFill t) {} c.skeleton (skeletonFill_pres t),
            presSub_refl Button_pres_rfl _,
            presSub_refl Menu_pres_rfl _,
            presSub_refl InputComp_pres_rfl _,
            presSub_refl SelectComp_pres_rfl _,
            presSub_refl Toast_pres_rfl _,
            presSub_refl TooltipComp_pres_rfl _,
            presSub_refl Markdown_pres_rfl _,
            presSub_refl Sidebar_pres_rfl _,
            presSub_refl Home_pres_rfl _,
            presSub_refl TerminalComp_pres_rfl _,
            presSub_refl Bottom_pres_rfl _,
            presSub_refl Tutorial_pres_rfl _,
            presSub_refl TutorialsComp_pres_rfl _⟩⟩

theorem fillButton_pres (t : Theme) : Theme.Pres t (fillButton t) := by
  rcases h : t.components with _ | c
  · simp only [fillButton, h]
    exact Theme_pres_rfl t
  · simp only [fillButton, h]
    exact ⟨rfl, rfl, Colors_pres_rfl _, presSub_refl ThemeFont_pres_rfl _, presOpt_refl _,
      presOpt_refl _, presOpt_refl _, presOpt_refl _, presOpt_refl _,
      presSub_some h
        ⟨presSub_refl Skeleton_pres_rfl _,
            presSub_fill (buttonFill t) {} c.button (buttonFill_pres t),
            presSub_refl Menu_pres_rfl _,
            presSub_refl InputComp_pres_rfl _,
            presSub_refl SelectComp_pres_rfl _,
            presSub_refl Toast_pres_rfl _,
            presSub_refl TooltipComp_pres_rfl _,
            presSub_refl Markdown_pres_rfl _,
            presSub_refl Sidebar_pres_rfl _,
            presSub_refl Home_pres_rfl _,
            presSub_refl TerminalComp_pres_rfl _,
            presSub_refl Bottom_pres_rfl _,
            presSub_refl Tutorial_pres_rfl _,
            presSub_refl TutorialsComp_pres_rfl _⟩⟩

theorem fillMenu_pres (t : Theme) : Theme.Pres t (fillMenu t) := by
  rcases h : t.components with _ | c
  · simp only [fillMenu, h]
    exact Theme_pres_rfl t
  · simp only [fillMenu, h]
    exact ⟨rfl, rfl, Colors_pres_rfl _, presSub_refl ThemeFont_pres_rfl _, presOpt_refl _,
      presOpt_refl _, presOpt_refl _, presOpt_refl _, presOpt_refl _,
      presSub_some h
        ⟨presSub_refl Skeleton_pres_rfl _,
            presSub_refl Button_pres_rfl _,
            presSub_fill (menuFill t) {} c.menu (menuFill_pres t),
            presSub_refl InputComp_pres_rfl _,
            presSub_refl SelectComp_pres_rfl _,
            presSub_refl Toast_pres_rfl _,
            presSub_refl TooltipComp_pres_rfl _,
            presSub_refl Markdown_pres_rfl _,
            presSub_refl Sidebar_pres_rfl _,
            presSub_refl Home_pres_rfl _,
            presSub_refl TerminalComp_pres_rfl _,
            presSub_refl Bottom_pres_rfl _,
            presSub_refl Tutorial_pres_rfl _,
            presSub_refl TutorialsComp_pres_rfl _⟩⟩

theorem fillInput_pres (t : Theme) : Theme.Pres t (fillInput t) := by
  rcases h : t.components with _ | c
  · simp only [fillInput, h]
    exact Theme_pres_rfl t
  · simp only [fillInput, h]
    exact ⟨rfl, rfl, Colors_pres_rfl _, presSub_refl ThemeFont_pres_rfl _, presOpt_refl _,
      presOpt_refl _, presOpt_refl _, presOpt_refl _, presOpt_refl _,
      presSub_some h
        ⟨presSub_refl Skeleton_pres_rfl _,
            presSub_refl Button_pres_rfl _,
            presSub_refl Menu_pres_rfl _,
            presSub_fill (inputFill t) {} c.input (inputFill_pres t),
            presSub_refl SelectComp_pres_rfl _,
            presSub_refl Toast_pres_rfl _,
            presSub_refl TooltipComp_pres_rfl _,
            presSub_refl Markdown_pres_rfl _,
            presSub_refl Sidebar_pres_rfl _,
            presSub_refl Home_pres_rfl _,
            presSub_refl TerminalComp_pres_rfl _,
            presSub_refl Bottom_pres_rfl _,
            presSub_refl Tutorial_pres_rfl _,
            presSub_refl TutorialsComp_pres_rfl _⟩⟩

theorem fillSelect_pres (t : Theme) : Theme.Pres t (fillSelect t) := by
  rcases h : t.components with _ | c
  · simp only [fillSelect, h]
    exact Theme_pres_rfl t
  · simp only [fillSelect, h]
    exact ⟨rfl, rfl, Colors_pres_rfl _, presSub_refl ThemeFont_pres_rfl _, presOpt_refl _,
      presOpt_refl _, presOpt_refl _, presOpt_refl _, presOpt_refl _,
      presSub_some h
        ⟨presSub_refl Skeleton_pres_rfl _,
            presSub_refl Button_pres_rfl _,
            presSub_refl Menu_pres_rfl _,
            presSub_refl InputComp_pres_rfl _,
            presSub_fill (selectFill t c) {} c.select (selectFill_pres t c),
            presSub_refl Toast_pres_rfl _,
            presSub_refl TooltipComp_pres_rfl _,
            presSub_refl Markdown_pres_rfl _,
            presSub_refl Sidebar_pres_rfl _,
            presSub_refl Home_pres_rfl _,
            presSub_refl TerminalComp_pres_rfl _,
            presSub_refl Bottom_pres_rfl _,
            presSub_refl Tutorial_pres_rfl _,
            presSub_refl TutorialsComp_pres_rfl _⟩⟩

theorem fillToast_pres (t : Theme) : Theme.Pres t (fillToast t) := by
  rcases h : t.components with _ | c
  · simp only [fillToast, h]
    exact Theme_pres_rfl t
  · simp only [fillToast, h]
    exact ⟨rfl, rfl, Colors_pres_rfl _, presSub_refl ThemeFont_pres_rfl _, presOpt_refl _,
      presOpt_refl _, presOpt_refl _, presOpt_refl _, presOpt_refl _,
      presSub_some h
        ⟨presSub_refl Skeleton_pres_rfl _,
            presSub_refl Button_pres_rfl _,
            presSub_refl Menu_pres_rfl _,
            presSub_refl InputComp_pres_rfl _,
            presSub_refl SelectComp_pres_rfl _,
            presSub_fill (toastFill t) {} c.toast (toastFill_pres t),
            presSub_refl TooltipComp_pres_rfl _,
            presSub_refl Markdown_pres_rfl _,
            presSub_refl Sidebar_pres_rfl _,
            presSub_refl Home_pres_rfl _,
            presSub_refl TerminalComp_pres_rfl _,
            presSub_refl Bottom_pres_rfl _,
            presSub_refl Tutorial_pres_rfl _,
            presSub_refl TutorialsComp_pres_rfl _⟩⟩

theorem fillTooltip_pres (t : Theme) : Theme.Pres t (fillTooltip t) := by
  rcases h : t.components with _ | c
  · simp only [fillTooltip, h]
    exact Theme_pres_rfl t
  · simp only [fillTooltip, h]
    exact ⟨rfl, rfl, Colors_pres_rfl _, presSub_refl ThemeFont_pres_rfl _, presOpt_refl _,
      presOpt_refl _, presOpt_refl _, presOpt_refl _, presOpt_refl _,
      presSub_some h
        ⟨presSub_refl Skeleton_pres_rfl _,
            presSub_refl Button_pres_rfl _,
            presSub_refl Menu_pres_rfl _,
            presSub_refl InputComp_pres_rfl _,
            presSub_refl SelectComp_pres_rfl _,
            presSub_refl Toast_pres_rfl _,
            presSub_fill (tooltipFill t) {} c.tooltip (tooltipFill_pres t),
            presSub_refl Markdown_pres_rfl _,
            presSub_refl Sidebar_pres_rfl _,
            presSub_refl Home_pres_rfl _,
            presSub_refl TerminalComp_pres_rfl _,
            presSub_refl Bottom_pres_rfl _,
            presSub_refl Tutorial_pres_rfl _,
            presSub_refl TutorialsComp_pres_rfl _⟩⟩

theorem fillMarkdown_pres (t : Theme) : Theme.Pres t (fillMarkdown t) := by
  rcases h : t.components with _ | c
  · simp only [fillMarkdown, h]
    exact Theme_pres_rfl t
  · simp only [fillMarkdown, h]
    exact ⟨rfl, rfl, Colors_pres_rfl _, presSub_refl ThemeFont_pres_rfl _, presOpt_refl _,
      presOpt_refl _, presOpt_refl _, presOpt_refl _, presOpt_refl _,
      presSub_some h
        ⟨presSub_refl Skeleton_pres_rfl _,
            presSub_refl Button_pres_rfl _,
            presSub_refl Menu_pres_rfl _,
            presSub_refl InputComp_pres_rfl _,
            presSub_refl SelectComp_pres_rfl _,
            presSub_refl Toast_pres_rfl _,
            presSub_refl TooltipComp_pres_rfl _,
            presSub_fill (markdownFill t) {} c.markdown (markdownFill_pres t),
            presSub_refl Sidebar_pres_rfl _,
            presSub_refl Home_pres_rfl _,
            presSub_refl TerminalComp_pres_rfl _,
            presSub_refl Bottom_pres_rfl _,
            presSub_refl Tutorial_pres_rfl _,
            presSub_refl TutorialsComp_pres_rfl _⟩⟩

theorem fillSidebar_pres (t : Theme) : Theme.Pres t (fillSidebar t) := by
  rcases h : t.components with _ | c
  · simp only [fillSidebar, h]
    exact Theme_pres_rfl t
  · simp only [fillSidebar, h]
    exact ⟨rfl, rfl, Colors_pres_rfl _, presSub_refl ThemeFont_pres_rfl _, presOpt_refl _,
      presOpt_refl _, presOpt_refl _, presOpt_refl _, presOpt_refl _,
      presSub_some h
        ⟨presSub_refl Skeleton_pres_rfl _,
            presSub_refl Button_pres_rfl _,
            presSub_refl Menu_pres_rfl _,
            presSub_refl InputComp_pres_rfl _,
            presSub_refl SelectComp_pres_rfl _,
            presSub_refl Toast_pres_rfl _,
            presSub_refl TooltipComp_pres_rfl _,
            presSub_refl Markdown_pres_rfl _,
            presSub_fill (sidebarFill t) {} c.sidebar (sidebarFill_pres t),
            presSub_refl Home_pres_rfl _,
            presSub_refl TerminalComp_pres_rfl _,
            presSub_refl Bottom_pres_rfl _,
            presSub_refl Tutorial_pres_rfl _,
            presSub_refl TutorialsComp_pres_rfl _⟩⟩

theorem fillHome_pres (t : Theme) : Theme.Pres t (fillHome t) := by
  rcases h : t.components with _ | c
  · simp only [fillHome, h]
    exact Theme_pres_rfl t
  · simp only [fillHome, h]
    exact ⟨rfl, rfl, Colors_pres_rfl _, presSub_refl ThemeFont_pres_rfl _, presOpt_refl _,
      presOpt_refl _, presOpt_refl _, presOpt_refl _, presOpt_refl _,
      presSub_some h
        ⟨presSub_refl Skeleton_pres_rfl _,
            presSub_refl Button_pres_rfl _,
            presSub_refl Menu_pres_rfl _,
            presSub_refl InputComp_pres_rfl _,
            presSub_refl SelectComp_pres_rfl _,
            presSub_refl Toast_pres_rfl _,
            presSub_refl TooltipComp_pres_rfl _,
            presSub_refl Markdown_pres_rfl _,
            presSub_refl Sidebar_pres_rfl _,
            presSub_fill (homeFill t) {} c.home (homeFill_pres t),
            presSub_refl TerminalComp_pres_rfl _,
            presSub_refl Bottom_pres_rfl _,
            presSub_refl Tutorial_pres_rfl _,
            presSub_refl TutorialsComp_pres_rfl _⟩⟩

theorem fillTerminal_pres (t : Theme) : Theme.Pres t (fillTerminal t) := by
  rcases h : t.components with _ | c
  · simp only [fillTerminal, h]
    exact Theme_pres_rfl t
  · simp only [fillTerminal, h]
    exact ⟨rfl, rfl, Colors_pres_rfl _, presSub_refl ThemeFont_pres_rfl _, presOpt_refl _,
      presOpt_refl _, presOpt_refl _, presOpt_refl _, presOpt_refl _,
      presSub_some h
        ⟨presSub_refl Skeleton_pres_rfl _,
            presSub_refl Button_pres_rfl _,
            presSub_refl Menu_pres_rfl _,
            presSub_refl InputComp_pres_rfl _,
            presSub_refl SelectComp_pres_rfl _,
            presSub_refl Toast_pres_rfl _,
            presSub_refl TooltipComp_pres_rfl _,
            presSub_refl Markdown_pres_rfl _,
            presSub_refl Sidebar_pres_rfl _,
            presSub_refl Home_pres_rfl _,
            presSub_fill (terminalFill t) {} c.terminal (terminalFill_pres t),
            presSub_refl Bottom_pres_rfl _,
            presSub_refl Tutorial_pres_rfl _,
            presSub_refl TutorialsComp_pres_rfl _⟩⟩

theorem fillBottom_pres (t : Theme) : Theme.Pres t (fillBottom t) := by
  rcases h : t.components with _ | c
  · simp only [fillBottom, h]
    exact Theme_pres_rfl t
  · simp only [fillBottom, h]
    exact ⟨rfl, rfl, Colors_pres_rfl _, presSub_refl ThemeFont_pres_rfl _, presOpt_refl _,
      presOpt_refl _, presOpt_refl _, presOpt_refl _, presOpt_refl _,
      presSub_some h
        ⟨presSub_refl Skeleton_pres_rfl _,
            presSub_refl Button_pres_rfl _,
            presSub_refl Menu_pres_rfl _,
            presSub_refl InputComp_pres_rfl _,
            presSub_refl SelectComp_pres_rfl _,
            presSub_refl Toast_pres_rfl _,
            presSub_refl TooltipComp_pres_rfl _,
            presSub_refl Markdown_pres_rfl _,
            presSub_refl Sidebar_pres_rfl _,
            presSub_refl Home_pres_rfl _,
            presSub_refl TerminalComp_pres_rfl _,
            presSub_fill (bottomFill t) {} c.bottom (bottomFill_pres t),
            presSub_refl Tutorial_pres_rfl _,
            presSub_refl TutorialsComp_pres_rfl _⟩⟩

theorem fillTutorial_pres (t : Theme) : Theme.Pres t (fillTutorial t) := by
  rcases h : t.components with _ | c
  · simp only [fillTutorial, h]
    exact Theme_pres_rfl t
  · simp only [fillTutorial, h]
    exact ⟨rfl, rfl, Colors_pres_rfl _, presSub_refl ThemeFont_pres_rfl _, presOpt_refl _,
      presOpt_refl _, presOpt_refl _, presOpt_refl _, presOpt_refl _,
      presSub_some h
        ⟨presSub_refl Skeleton_pres_rfl _,
            presSub_refl Button_pres_rfl _,
            presSub_refl Menu_pres_rfl _,
            presSub_refl InputComp_pres_rfl _,
            presSub_refl SelectComp_pres_rfl _,
            presSub_refl Toast_pres_rfl _,
            presSub_refl TooltipComp_pres_rfl _,
            presSub_refl Markdown_pres_rfl _,
            presSub_refl Sidebar_pres_rfl _,
            presSub_refl Home_pres_rfl _,
            presSub_refl TerminalComp_pres_rfl _,
            presSub_refl Bottom_pres_rfl _,
            presSub_fill (tutorialFill t) {} c.tutorial (tutorialFill_pres t),
            presSub_refl TutorialsComp_pres_rfl _⟩⟩

theorem fillTutorials_pres (t : Theme) : Theme.Pres t (fillTutorials t) := by
  rcases h : t.components with _ | c
  · simp only [fillTutorials, h]
    exact Theme_pres_rfl t
  · simp only [fillTutorials, h]
    exact ⟨rfl, rfl, Colors_pres_rfl _, presSub_refl ThemeFont_pres_rfl _, presOpt_refl _,
      presOpt_refl _, presOpt_refl _, presOpt_refl _, presOpt_refl _,
      presSub_some h
        ⟨presSub_refl Skeleton_pres_rfl _,
            presSub_refl Button_pres_rfl _,
            presSub_refl Menu_pres_rfl _,
            presSub_refl InputComp_pres_rfl _,
            presSub_refl SelectComp_pres_rfl _,
            presSub_refl Toast_pres_rfl _,
            presSub_refl TooltipComp_pres_rfl _,
            presSub_refl Markdown_pres_rfl _,
            presSub_refl Sidebar_pres_rfl _,
            presSub_refl Home_pres_rfl _,
            presSub_refl TerminalComp_pres_rfl _,
            presSub_refl Bottom_pres_rfl _,
            presSub_refl Tutorial_pres_rfl _,
            presSub_fill (tutorialsFill t) {} c.tutorials (tutorialsFill_pres t)⟩⟩

theorem fillAll_pres (d : ThemeDefaults) (fnt : PgFont) (t : Theme) :
    Theme.Pres t (fillAll d fnt t) := by
  refine Theme_pres_trans (fillFonts_pres fnt d t) ?_
  refine Theme_pres_trans (fillTransparency_pres d _) ?_
  refine Theme_pres_trans (fillBorderRadius_pres d _) ?_
  refine Theme_pres_trans (fillBoxShadow_pres d _) ?_
  refine Theme_pres_trans (fillScrollbar_pres d _) ?_
  refine Theme_pres_trans (fillTransition_pres d _) ?_
  refine Theme_pres_trans (fillStateColors_pres _) ?_
  refine Theme_pres_trans (fillComponents_pres _) ?_
  refine Theme_pres_trans (fillSkeleton_pres _) ?_
  refine Theme_pres_trans (fillButton_pres _) ?_
  refine Theme_pres_trans (fillMenu_pres _) ?_
  refine Theme_pres_trans (fillInput_pres _) ?_
  refine Theme_pres_trans (fillSelect_pres _) ?_
  refine Theme_pres_trans (fillToast_pres _) ?_
  refine Theme_pres_trans (fillTooltip_pres _) ?_
  refine Theme_pres_trans (fillMarkdown_pres _) ?_
  refine Theme_pres_trans (fillSidebar_pres _) ?_
  refine Theme_pres_trans (fillEditor_pres _) ?_
  refine Theme_pres_trans (fillHome_pres _) ?_
  refine Theme_pres_trans (fillTerminal_pres _) ?_
  refine Theme_pres_trans (fillBottom_pres _) ?_
  refine Theme_pres_trans (fillTutorial_pres _) ?_
  exact fillTutorials_pres _

set_option maxHeartbeats 4000000 in
theorem fillAll_idem (d : ThemeDefaults) (fnt : PgFont) (t : Theme) :
    fillAll d fnt (fillAll d fnt t) = fillAll d fnt t := by
  simp only [fillAll,
    themeFontFill, fillFonts, fillTransparency, fillBorderRadius, fillBoxShadow,
    fillScrollbar, fillTransition, stateColorFill, fillStateColors, fillComponents,
    skeletonFill, fillSkeleton, buttonDefaultFill, buttonFill, fillButton, menuDefaultFill,
    menuFill, fillMenu, inputFocusFill, inputFill, fillInput, selectDefaultFill,
    selectControlHoverFill, selectControlFocusWithinFill, selectControlFill, selectMenuFill,
    selectOptionBeforeFill, selectOptionFocusFill, selectOptionActiveFill, selectOptionFill,
    selectSingleValueFill, selectInputFill, selectGroupHeadingFill,
    selectDropdownIndicatorFill, selectIndicatorSeparatorFill, selectFill, fillSelect,
    toastDefaultFill, toastProgressFill, toastCloseButtonFill, toastFill, fillToast,
    tooltipFill, fillTooltip, markdownDefaultFill, markdownCodeFill, markdownFill,
    fillMarkdown, sidebarLeftDefaultFill, sidebarSelectedFill, sidebarIconButtonFill,
    sidebarLeftFill, sidebarRightDefaultFill, sidebarRightTitleFill, sidebarRightFill,
    sidebarFill, fillSidebar, activeLineFill, editorSelectionFill, searchMatchFill,
    gutterFill, editorTooltipFill, editorFill, fillEditor, homeDefaultFill, homeTitleFill,
    sectionTitleFill, resourceCardDefaultFill, resourceCardImageFill, resourceCardTitleFill,
    resourceCardDescriptionFill, resourceCardButtonFill, resourceCardFill,
    homeResourcesDefaultFill, homeResourcesFill, homeTutorialCardHoverFill,
    homeTutorialCardFill, homeTutorialsDefaultFill, homeTutorialsFill, homeFill, fillHome,
    terminalDefaultFill, xtermCursorFill, xtermFill, terminalFill, fillTerminal,
    bottomDefaultFill, bottomConnectHoverFill, bottomConnectFill, bottomFill, fillBottom,
    tutorialDefaultFill, tutorialAboutPageFill, tutorialPageFill, tutorialFill,
    fillTutorial, tutorialsDefaultFill, tutorialsCardDefaultFill,
    tutorialsCardInfoDescriptionFill, tutorialsCardInfoCategoryFill,
    tutorialsCardInfoDefaultFill, tutorialsCardInfoNameFill, tutorialsCardInfoFill,
    tutorialsCardFill, tutorialsFill, fillTutorials, fillAll, Theme.fontCode,
    Theme.fontOther, Theme.transparencyD, Theme.transitionD, nset, nmerge_some,
    Option.getD_some]

/-- C7: the default-filling pass of `set` is fill-if-absent and idempotent:
`fillAll` preserves every field already present on the input theme exactly
(`Theme.Pres`, recursively through every sub-record: no default ever
overwrites a present value), and running the pass on its own output changes
nothing — fill composed with fill equals fill, so an already fully-populated
theme passes through byte-for-byte unchanged. -/
theorem fill_if_absent_idempotent (d : ThemeDefaults) (fnt : PgFont) (t : Theme) :
    Theme.Pres t (fillAll d fnt t) ∧
      fillAll d fnt (fillAll d fnt t) = fillAll d fnt t :=
  ⟨fillAll_pres d fnt t, fillAll_idem d fnt t⟩

end SolPg
